import Mathlib

/-!
# AADynamicalTime: conversions between TT, UT1 and UTC

A shallow embedding of `AADynamicalTime.cpp` (AA+ v2.08).

Modelling conventions:

* a C++ `double` is an exact rational number (`ℚ`): every arithmetic expression of the
  source is kept as written, and is evaluated without rounding;
* a `size_t` index is a `Nat`, and `n - 1` on a `size_t` wraps modulo `2^64` (`size_t_pred`);
* a read of a table at an index outside the table has no defined result: it is `none`, and
  every function that reads a table returns an `Option`;
* a `while` loop is a recursive function with a fuel argument, started with more fuel than
  the table has entries;
* `CAADate(JD, CAADate::AfterPapalReform(JD)).FractionalYear()` belongs to `AADate.cpp`,
  the calendar collaborator; it is the parameter `FractionalYear` of `DeltaT` and of the
  functions that call it;
* the statements about the rounding of the code use a second embedding, the type `Double`
  and the functions `Rounded.DeltaT`, `Rounded.CumulativeLeapSeconds`, `Rounded.TT2UT1`,
  `Rounded.UT12TT`, `Rounded.TT2UTC` and `Rounded.UTC2TT`: the same expressions, with every
  literal, every entry of a table and every arithmetic operation rounded to IEEE 754
  binary64 (round to nearest, ties to even, one rounding for each operation).
-/

namespace CAADynamicalTime

/-- The source's `struct DeltaTValue`. -/
structure DeltaTValue where
  JD : ℚ
  DeltaT : ℚ
deriving DecidableEq

set_option maxRecDepth 100000 in
/-- The source's table `g_DeltaTValues`, row by row (commented-out rows are not rows). -/
def g_DeltaTValues : List DeltaTValue := [
  DeltaTValue.mk 2441714.5 43.4724,
  DeltaTValue.mk 2441742.5 43.5648,
  DeltaTValue.mk 2441773.5 43.6737,
  DeltaTValue.mk 2441803.5 43.7782,
  DeltaTValue.mk 2441834.5 43.8763,
  DeltaTValue.mk 2441864.5 43.9562,
  DeltaTValue.mk 2441895.5 44.0315,
  DeltaTValue.mk 2441926.5 44.1132,
  DeltaTValue.mk 2441956.5 44.1982,
  DeltaTValue.mk 2441987.5 44.2952,
  DeltaTValue.mk 2442017.5 44.3936,
  DeltaTValue.mk 2442048.5 44.4841,
  DeltaTValue.mk 2442079.5 44.5646,
  DeltaTValue.mk 2442107.5 44.6425,
  DeltaTValue.mk 2442138.5 44.7386,
  DeltaTValue.mk 2442168.5 44.8370,
  DeltaTValue.mk 2442199.5 44.9302,
  DeltaTValue.mk 2442229.5 44.9986,
  DeltaTValue.mk 2442260.5 45.0584,
  DeltaTValue.mk 2442291.5 45.1284,
  DeltaTValue.mk 2442321.5 45.2064,
  DeltaTValue.mk 2442352.5 45.2980,
  DeltaTValue.mk 2442382.5 45.3897,
  DeltaTValue.mk 2442413.5 45.4761,
  DeltaTValue.mk 2442444.5 45.5633,
  DeltaTValue.mk 2442472.5 45.6450,
  DeltaTValue.mk 2442503.5 45.7375,
  DeltaTValue.mk 2442533.5 45.8284,
  DeltaTValue.mk 2442564.5 45.9133,
  DeltaTValue.mk 2442594.5 45.9820,
  DeltaTValue.mk 2442625.5 46.0408,
  DeltaTValue.mk 2442656.5 46.1067,
  DeltaTValue.mk 2442686.5 46.1825,
  DeltaTValue.mk 2442717.5 46.2789,
  DeltaTValue.mk 2442747.5 46.3713,
  DeltaTValue.mk 2442778.5 46.4567,
  DeltaTValue.mk 2442809.5 46.5445,
  DeltaTValue.mk 2442838.5 46.6311,
  DeltaTValue.mk 2442869.5 46.7302,
  DeltaTValue.mk 2442899.5 46.8284,
  DeltaTValue.mk 2442930.5 46.9247,
  DeltaTValue.mk 2442960.5 46.9970,
  DeltaTValue.mk 2442991.5 47.0709,
  DeltaTValue.mk 2443022.5 47.1451,
  DeltaTValue.mk 2443052.5 47.2362,
  DeltaTValue.mk 2443083.5 47.3413,
  DeltaTValue.mk 2443113.5 47.4319,
  DeltaTValue.mk 2443144.5 47.5214,
  DeltaTValue.mk 2443175.5 47.6049,
  DeltaTValue.mk 2443203.5 47.6837,
  DeltaTValue.mk 2443234.5 47.7781,
  DeltaTValue.mk 2443264.5 47.8771,
  DeltaTValue.mk 2443295.5 47.9687,
  DeltaTValue.mk 2443325.5 48.0348,
  DeltaTValue.mk 2443356.5 48.0942,
  DeltaTValue.mk 2443387.5 48.1608,
  DeltaTValue.mk 2443417.5 48.2460,
  DeltaTValue.mk 2443448.5 48.3439,
  DeltaTValue.mk 2443478.5 48.4355,
  DeltaTValue.mk 2443509.5 48.5344,
  DeltaTValue.mk 2443540.5 48.6325,
  DeltaTValue.mk 2443568.5 48.7294,
  DeltaTValue.mk 2443599.5 48.8365,
  DeltaTValue.mk 2443629.5 48.9353,
  DeltaTValue.mk 2443660.5 49.0319,
  DeltaTValue.mk 2443690.5 49.1013,
  DeltaTValue.mk 2443721.5 49.1591,
  DeltaTValue.mk 2443752.5 49.2286,
  DeltaTValue.mk 2443782.5 49.3070,
  DeltaTValue.mk 2443813.5 49.4018,
  DeltaTValue.mk 2443843.5 49.4945,
  DeltaTValue.mk 2443874.5 49.5862,
  DeltaTValue.mk 2443905.5 49.6805,
  DeltaTValue.mk 2443933.5 49.7602,
  DeltaTValue.mk 2443964.5 49.8556,
  DeltaTValue.mk 2443994.5 49.9489,
  DeltaTValue.mk 2444025.5 50.0347,
  DeltaTValue.mk 2444055.5 50.1019,
  DeltaTValue.mk 2444086.5 50.1622,
  DeltaTValue.mk 2444117.5 50.2260,
  DeltaTValue.mk 2444147.5 50.2968,
  DeltaTValue.mk 2444178.5 50.3831,
  DeltaTValue.mk 2444208.5 50.4599,
  DeltaTValue.mk 2444239.5 50.5387,
  DeltaTValue.mk 2444270.5 50.6161,
  DeltaTValue.mk 2444299.5 50.6866,
  DeltaTValue.mk 2444330.5 50.7658,
  DeltaTValue.mk 2444360.5 50.8454,
  DeltaTValue.mk 2444391.5 50.9187,
  DeltaTValue.mk 2444421.5 50.9761,
  DeltaTValue.mk 2444452.5 51.0278,
  DeltaTValue.mk 2444483.5 51.0843,
  DeltaTValue.mk 2444513.5 51.1538,
  DeltaTValue.mk 2444544.5 51.2319,
  DeltaTValue.mk 2444574.5 51.3063,
  DeltaTValue.mk 2444605.5 51.3808,
  DeltaTValue.mk 2444636.5 51.4526,
  DeltaTValue.mk 2444664.5 51.5160,
  DeltaTValue.mk 2444695.5 51.5985,
  DeltaTValue.mk 2444725.5 51.6809,
  DeltaTValue.mk 2444756.5 51.7573,
  DeltaTValue.mk 2444786.5 51.8133,
  DeltaTValue.mk 2444817.5 51.8532,
  DeltaTValue.mk 2444848.5 51.9014,
  DeltaTValue.mk 2444878.5 51.9603,
  DeltaTValue.mk 2444909.5 52.0328,
  DeltaTValue.mk 2444939.5 52.0985,
  DeltaTValue.mk 2444970.5 52.1668,
  DeltaTValue.mk 2445001.5 52.2316,
  DeltaTValue.mk 2445029.5 52.2938,
  DeltaTValue.mk 2445060.5 52.3680,
  DeltaTValue.mk 2445090.5 52.4465,
  DeltaTValue.mk 2445121.5 52.5180,
  DeltaTValue.mk 2445151.5 52.5752,
  DeltaTValue.mk 2445182.5 52.6178,
  DeltaTValue.mk 2445213.5 52.6668,
  DeltaTValue.mk 2445243.5 52.7340,
  DeltaTValue.mk 2445274.5 52.8056,
  DeltaTValue.mk 2445304.5 52.8792,
  DeltaTValue.mk 2445335.5 52.9565,
  DeltaTValue.mk 2445366.5 53.0445,
  DeltaTValue.mk 2445394.5 53.1268,
  DeltaTValue.mk 2445425.5 53.2197,
  DeltaTValue.mk 2445455.5 53.3024,
  DeltaTValue.mk 2445486.5 53.3747,
  DeltaTValue.mk 2445516.5 53.4335,
  DeltaTValue.mk 2445547.5 53.4778,
  DeltaTValue.mk 2445578.5 53.5300,
  DeltaTValue.mk 2445608.5 53.5845,
  DeltaTValue.mk 2445639.5 53.6523,
  DeltaTValue.mk 2445669.5 53.7256,
  DeltaTValue.mk 2445700.5 53.7882,
  DeltaTValue.mk 2445731.5 53.8367,
  DeltaTValue.mk 2445760.5 53.8830,
  DeltaTValue.mk 2445791.5 53.9443,
  DeltaTValue.mk 2445821.5 54.0042,
  DeltaTValue.mk 2445852.5 54.0536,
  DeltaTValue.mk 2445882.5 54.0856,
  DeltaTValue.mk 2445913.5 54.1084,
  DeltaTValue.mk 2445944.5 54.1463,
  DeltaTValue.mk 2445974.5 54.1914,
  DeltaTValue.mk 2446005.5 54.2452,
  DeltaTValue.mk 2446035.5 54.2958,
  DeltaTValue.mk 2446066.5 54.3427,
  DeltaTValue.mk 2446097.5 54.3911,
  DeltaTValue.mk 2446125.5 54.4320,
  DeltaTValue.mk 2446156.5 54.4898,
  DeltaTValue.mk 2446186.5 54.5456,
  DeltaTValue.mk 2446217.5 54.5977,
  DeltaTValue.mk 2446247.5 54.6355,
  DeltaTValue.mk 2446278.5 54.6532,
  DeltaTValue.mk 2446309.5 54.6776,
  DeltaTValue.mk 2446339.5 54.7174,
  DeltaTValue.mk 2446370.5 54.7741,
  DeltaTValue.mk 2446400.5 54.8253,
  DeltaTValue.mk 2446431.5 54.8713,
  DeltaTValue.mk 2446462.5 54.9161,
  DeltaTValue.mk 2446490.5 54.9581,
  DeltaTValue.mk 2446521.5 54.9997,
  DeltaTValue.mk 2446551.5 55.0476,
  DeltaTValue.mk 2446582.5 55.0912,
  DeltaTValue.mk 2446612.5 55.1132,
  DeltaTValue.mk 2446643.5 55.1328,
  DeltaTValue.mk 2446674.5 55.1532,
  DeltaTValue.mk 2446704.5 55.1898,
  DeltaTValue.mk 2446735.5 55.2416,
  DeltaTValue.mk 2446765.5 55.2838,
  DeltaTValue.mk 2446796.5 55.3222,
  DeltaTValue.mk 2446827.5 55.3613,
  DeltaTValue.mk 2446855.5 55.4063,
  DeltaTValue.mk 2446886.5 55.4629,
  DeltaTValue.mk 2446916.5 55.5111,
  DeltaTValue.mk 2446947.5 55.5524,
  DeltaTValue.mk 2446977.5 55.5812,
  DeltaTValue.mk 2447008.5 55.6004,
  DeltaTValue.mk 2447039.5 55.6262,
  DeltaTValue.mk 2447069.5 55.6656,
  DeltaTValue.mk 2447100.5 55.7168,
  DeltaTValue.mk 2447130.5 55.7698,
  DeltaTValue.mk 2447161.5 55.8197,
  DeltaTValue.mk 2447192.5 55.8615,
  DeltaTValue.mk 2447221.5 55.9130,
  DeltaTValue.mk 2447252.5 55.9663,
  DeltaTValue.mk 2447282.5 56.0220,
  DeltaTValue.mk 2447313.5 56.0700,
  DeltaTValue.mk 2447343.5 56.0939,
  DeltaTValue.mk 2447374.5 56.1105,
  DeltaTValue.mk 2447405.5 56.1314,
  DeltaTValue.mk 2447435.5 56.1611,
  DeltaTValue.mk 2447466.5 56.2068,
  DeltaTValue.mk 2447496.5 56.2583,
  DeltaTValue.mk 2447527.5 56.3000,
  DeltaTValue.mk 2447558.5 56.3399,
  DeltaTValue.mk 2447586.5 56.3790,
  DeltaTValue.mk 2447617.5 56.4283,
  DeltaTValue.mk 2447647.5 56.4804,
  DeltaTValue.mk 2447678.5 56.5352,
  DeltaTValue.mk 2447708.5 56.5697,
  DeltaTValue.mk 2447739.5 56.5983,
  DeltaTValue.mk 2447770.5 56.6328,
  DeltaTValue.mk 2447800.5 56.6739,
  DeltaTValue.mk 2447831.5 56.7332,
  DeltaTValue.mk 2447861.5 56.7972,
  DeltaTValue.mk 2447892.5 56.8553,
  DeltaTValue.mk 2447923.5 56.9111,
  DeltaTValue.mk 2447951.5 56.9755,
  DeltaTValue.mk 2447982.5 57.0471,
  DeltaTValue.mk 2448012.5 57.1136,
  DeltaTValue.mk 2448043.5 57.1738,
  DeltaTValue.mk 2448073.5 57.2226,
  DeltaTValue.mk 2448104.5 57.2597,
  DeltaTValue.mk 2448135.5 57.3073,
  DeltaTValue.mk 2448165.5 57.3643,
  DeltaTValue.mk 2448196.5 57.4334,
  DeltaTValue.mk 2448226.5 57.5016,
  DeltaTValue.mk 2448257.5 57.5653,
  DeltaTValue.mk 2448288.5 57.6333,
  DeltaTValue.mk 2448316.5 57.6973,
  DeltaTValue.mk 2448347.5 57.7711,
  DeltaTValue.mk 2448377.5 57.8407,
  DeltaTValue.mk 2448408.5 57.9058,
  DeltaTValue.mk 2448438.5 57.9576,
  DeltaTValue.mk 2448469.5 57.9975,
  DeltaTValue.mk 2448500.5 58.0426,
  DeltaTValue.mk 2448530.5 58.1043,
  DeltaTValue.mk 2448561.5 58.1679,
  DeltaTValue.mk 2448591.5 58.2389,
  DeltaTValue.mk 2448622.5 58.3092,
  DeltaTValue.mk 2448653.5 58.3833,
  DeltaTValue.mk 2448682.5 58.4537,
  DeltaTValue.mk 2448713.5 58.5401,
  DeltaTValue.mk 2448743.5 58.6228,
  DeltaTValue.mk 2448774.5 58.6917,
  DeltaTValue.mk 2448804.5 58.7410,
  DeltaTValue.mk 2448835.5 58.7836,
  DeltaTValue.mk 2448866.5 58.8406,
  DeltaTValue.mk 2448896.5 58.8986,
  DeltaTValue.mk 2448927.5 58.9714,
  DeltaTValue.mk 2448957.5 59.0438,
  DeltaTValue.mk 2448988.5 59.1218,
  DeltaTValue.mk 2449019.5 59.2003,
  DeltaTValue.mk 2449047.5 59.2747,
  DeltaTValue.mk 2449078.5 59.3574,
  DeltaTValue.mk 2449108.5 59.4434,
  DeltaTValue.mk 2449139.5 59.5242,
  DeltaTValue.mk 2449169.5 59.5850,
  DeltaTValue.mk 2449200.5 59.6344,
  DeltaTValue.mk 2449231.5 59.6928,
  DeltaTValue.mk 2449261.5 59.7588,
  DeltaTValue.mk 2449292.5 59.8386,
  DeltaTValue.mk 2449322.5 59.9111,
  DeltaTValue.mk 2449353.5 59.9845,
  DeltaTValue.mk 2449384.5 60.0564,
  DeltaTValue.mk 2449412.5 60.1231,
  DeltaTValue.mk 2449443.5 60.2042,
  DeltaTValue.mk 2449473.5 60.2804,
  DeltaTValue.mk 2449504.5 60.3530,
  DeltaTValue.mk 2449534.5 60.4012,
  DeltaTValue.mk 2449565.5 60.4440,
  DeltaTValue.mk 2449596.5 60.4900,
  DeltaTValue.mk 2449626.5 60.5578,
  DeltaTValue.mk 2449657.5 60.6324,
  DeltaTValue.mk 2449687.5 60.7059,
  DeltaTValue.mk 2449718.5 60.7853,
  DeltaTValue.mk 2449749.5 60.8664,
  DeltaTValue.mk 2449777.5 60.9387,
  DeltaTValue.mk 2449808.5 61.0277,
  DeltaTValue.mk 2449838.5 61.1103,
  DeltaTValue.mk 2449869.5 61.1870,
  DeltaTValue.mk 2449899.5 61.2454,
  DeltaTValue.mk 2449930.5 61.2881,
  DeltaTValue.mk 2449961.5 61.3378,
  DeltaTValue.mk 2449991.5 61.4036,
  DeltaTValue.mk 2450022.5 61.4760,
  DeltaTValue.mk 2450052.5 61.5525,
  DeltaTValue.mk 2450083.5 61.6287,
  DeltaTValue.mk 2450114.5 61.6846,
  DeltaTValue.mk 2450143.5 61.7433,
  DeltaTValue.mk 2450174.5 61.8132,
  DeltaTValue.mk 2450204.5 61.8823,
  DeltaTValue.mk 2450235.5 61.9497,
  DeltaTValue.mk 2450265.5 61.9969,
  DeltaTValue.mk 2450296.5 62.0343,
  DeltaTValue.mk 2450327.5 62.0714,
  DeltaTValue.mk 2450357.5 62.1202,
  DeltaTValue.mk 2450388.5 62.1810,
  DeltaTValue.mk 2450418.5 62.2382,
  DeltaTValue.mk 2450449.5 62.2950,
  DeltaTValue.mk 2450480.5 62.3506,
  DeltaTValue.mk 2450508.5 62.3995,
  DeltaTValue.mk 2450539.5 62.4754,
  DeltaTValue.mk 2450569.5 62.5463,
  DeltaTValue.mk 2450600.5 62.6136,
  DeltaTValue.mk 2450630.5 62.6571,
  DeltaTValue.mk 2450661.5 62.6942,
  DeltaTValue.mk 2450692.5 62.7383,
  DeltaTValue.mk 2450722.5 62.7926,
  DeltaTValue.mk 2450753.5 62.8567,
  DeltaTValue.mk 2450783.5 62.9146,
  DeltaTValue.mk 2450814.5 62.9659,
  DeltaTValue.mk 2450845.5 63.0217,
  DeltaTValue.mk 2450873.5 63.0807,
  DeltaTValue.mk 2450904.5 63.1462,
  DeltaTValue.mk 2450934.5 63.2053,
  DeltaTValue.mk 2450965.5 63.2599,
  DeltaTValue.mk 2450995.5 63.2844,
  DeltaTValue.mk 2451026.5 63.2961,
  DeltaTValue.mk 2451057.5 63.3126,
  DeltaTValue.mk 2451087.5 63.3422,
  DeltaTValue.mk 2451118.5 63.3871,
  DeltaTValue.mk 2451148.5 63.4339,
  DeltaTValue.mk 2451179.5 63.4673,
  DeltaTValue.mk 2451210.5 63.4979,
  DeltaTValue.mk 2451238.5 63.5319,
  DeltaTValue.mk 2451269.5 63.5679,
  DeltaTValue.mk 2451299.5 63.6104,
  DeltaTValue.mk 2451330.5 63.6444,
  DeltaTValue.mk 2451360.5 63.6642,
  DeltaTValue.mk 2451391.5 63.6739,
  DeltaTValue.mk 2451422.5 63.6926,
  DeltaTValue.mk 2451452.5 63.7147,
  DeltaTValue.mk 2451483.5 63.7518,
  DeltaTValue.mk 2451513.5 63.7927,
  DeltaTValue.mk 2451544.5 63.8285,
  DeltaTValue.mk 2451575.5 63.8557,
  DeltaTValue.mk 2451604.5 63.8804,
  DeltaTValue.mk 2451635.5 63.9075,
  DeltaTValue.mk 2451665.5 63.9393,
  DeltaTValue.mk 2451696.5 63.9691,
  DeltaTValue.mk 2451726.5 63.9799,
  DeltaTValue.mk 2451757.5 63.9833,
  DeltaTValue.mk 2451788.5 63.9938,
  DeltaTValue.mk 2451818.5 64.0093,
  DeltaTValue.mk 2451849.5 64.0400,
  DeltaTValue.mk 2451879.5 64.0670,
  DeltaTValue.mk 2451910.5 64.0908,
  DeltaTValue.mk 2451941.5 64.1068,
  DeltaTValue.mk 2451969.5 64.1282,
  DeltaTValue.mk 2452000.5 64.1584,
  DeltaTValue.mk 2452030.5 64.1833,
  DeltaTValue.mk 2452061.5 64.2094,
  DeltaTValue.mk 2452091.5 64.2117,
  DeltaTValue.mk 2452122.5 64.2073,
  DeltaTValue.mk 2452153.5 64.2116,
  DeltaTValue.mk 2452183.5 64.2223,
  DeltaTValue.mk 2452214.5 64.2500,
  DeltaTValue.mk 2452244.5 64.2761,
  DeltaTValue.mk 2452275.5 64.2998,
  DeltaTValue.mk 2452306.5 64.3192,
  DeltaTValue.mk 2452334.5 64.3450,
  DeltaTValue.mk 2452365.5 64.3735,
  DeltaTValue.mk 2452395.5 64.3943,
  DeltaTValue.mk 2452426.5 64.4151,
  DeltaTValue.mk 2452456.5 64.4132,
  DeltaTValue.mk 2452487.5 64.4118,
  DeltaTValue.mk 2452518.5 64.4097,
  DeltaTValue.mk 2452548.5 64.4168,
  DeltaTValue.mk 2452579.5 64.4329,
  DeltaTValue.mk 2452609.5 64.4511,
  DeltaTValue.mk 2452640.5 64.4734,
  DeltaTValue.mk 2452671.5 64.4893,
  DeltaTValue.mk 2452699.5 64.5053,
  DeltaTValue.mk 2452730.5 64.5269,
  DeltaTValue.mk 2452760.5 64.5471,
  DeltaTValue.mk 2452791.5 64.5597,
  DeltaTValue.mk 2452821.5 64.5512,
  DeltaTValue.mk 2452852.5 64.5371,
  DeltaTValue.mk 2452883.5 64.5359,
  DeltaTValue.mk 2452913.5 64.5415,
  DeltaTValue.mk 2452944.5 64.5544,
  DeltaTValue.mk 2452974.5 64.5654,
  DeltaTValue.mk 2453005.5 64.5736,
  DeltaTValue.mk 2453036.5 64.5891,
  DeltaTValue.mk 2453065.5 64.6015,
  DeltaTValue.mk 2453096.5 64.6176,
  DeltaTValue.mk 2453126.5 64.6374,
  DeltaTValue.mk 2453157.5 64.6549,
  DeltaTValue.mk 2453187.5 64.6530,
  DeltaTValue.mk 2453218.5 64.6379,
  DeltaTValue.mk 2453249.5 64.6372,
  DeltaTValue.mk 2453279.5 64.6400,
  DeltaTValue.mk 2453310.5 64.6543,
  DeltaTValue.mk 2453340.5 64.6723,
  DeltaTValue.mk 2453371.5 64.6876,
  DeltaTValue.mk 2453402.5 64.7052,
  DeltaTValue.mk 2453430.5 64.7313,
  DeltaTValue.mk 2453461.5 64.7575,
  DeltaTValue.mk 2453491.5 64.7811,
  DeltaTValue.mk 2453522.5 64.8001,
  DeltaTValue.mk 2453552.5 64.7995,
  DeltaTValue.mk 2453583.5 64.7876,
  DeltaTValue.mk 2453614.5 64.7831,
  DeltaTValue.mk 2453644.5 64.7921,
  DeltaTValue.mk 2453675.5 64.8096,
  DeltaTValue.mk 2453705.5 64.8311,
  DeltaTValue.mk 2453736.5 64.8452,
  DeltaTValue.mk 2453767.5 64.8597,
  DeltaTValue.mk 2453795.5 64.8850,
  DeltaTValue.mk 2453826.5 64.9175,
  DeltaTValue.mk 2453856.5 64.9480,
  DeltaTValue.mk 2453887.5 64.9794,
  DeltaTValue.mk 2453917.5 64.9895,
  DeltaTValue.mk 2453948.5 65.0028,
  DeltaTValue.mk 2453979.5 65.0138,
  DeltaTValue.mk 2454009.5 65.0371,
  DeltaTValue.mk 2454040.5 65.0773,
  DeltaTValue.mk 2454070.5 65.1122,
  DeltaTValue.mk 2454101.5 65.1464,
  DeltaTValue.mk 2454132.5 65.1833,
  DeltaTValue.mk 2454160.5 65.2145,
  DeltaTValue.mk 2454191.5 65.2494,
  DeltaTValue.mk 2454221.5 65.2921,
  DeltaTValue.mk 2454252.5 65.3279,
  DeltaTValue.mk 2454282.5 65.3413,
  DeltaTValue.mk 2454313.5 65.3452,
  DeltaTValue.mk 2454344.5 65.3496,
  DeltaTValue.mk 2454374.5 65.3711,
  DeltaTValue.mk 2454405.5 65.3972,
  DeltaTValue.mk 2454435.5 65.4296,
  DeltaTValue.mk 2454466.5 65.4573,
  DeltaTValue.mk 2454497.5 65.4868,
  DeltaTValue.mk 2454526.5 65.5152,
  DeltaTValue.mk 2454557.5 65.5450,
  DeltaTValue.mk 2454587.5 65.5781,
  DeltaTValue.mk 2454618.5 65.6127,
  DeltaTValue.mk 2454648.5 65.6288,
  DeltaTValue.mk 2454679.5 65.6370,
  DeltaTValue.mk 2454710.5 65.6493,
  DeltaTValue.mk 2454740.5 65.6760,
  DeltaTValue.mk 2454771.5 65.7097,
  DeltaTValue.mk 2454801.5 65.7461,
  DeltaTValue.mk 2454832.5 65.7768,
  DeltaTValue.mk 2454863.5 65.8025,
  DeltaTValue.mk 2454891.5 65.8237,
  DeltaTValue.mk 2454922.5 65.8595,
  DeltaTValue.mk 2454952.5 65.8973,
  DeltaTValue.mk 2454983.5 65.9323,
  DeltaTValue.mk 2455013.5 65.9509,
  DeltaTValue.mk 2455044.5 65.9534,
  DeltaTValue.mk 2455075.5 65.9628,
  DeltaTValue.mk 2455105.5 65.9839,
  DeltaTValue.mk 2455136.5 66.0147,
  DeltaTValue.mk 2455166.5 66.0420,
  DeltaTValue.mk 2455197.5 66.0699,
  DeltaTValue.mk 2455228.5 66.0961,
  DeltaTValue.mk 2455256.5 66.1310,
  DeltaTValue.mk 2455287.5 66.1683,
  DeltaTValue.mk 2455317.5 66.2072,
  DeltaTValue.mk 2455348.5 66.2356,
  DeltaTValue.mk 2455378.5 66.2409,
  DeltaTValue.mk 2455409.5 66.2335,
  DeltaTValue.mk 2455440.5 66.2349,
  DeltaTValue.mk 2455470.5 66.2441,
  DeltaTValue.mk 2455501.5 66.2751,
  DeltaTValue.mk 2455531.5 66.3054,
  DeltaTValue.mk 2455562.5 66.3246,
  DeltaTValue.mk 2455593.5 66.3406,
  DeltaTValue.mk 2455621.5 66.3624,
  DeltaTValue.mk 2455652.5 66.3957,
  DeltaTValue.mk 2455682.5 66.4289,
  DeltaTValue.mk 2455713.5 66.4619,
  DeltaTValue.mk 2455743.5 66.4749,
  DeltaTValue.mk 2455774.5 66.4751,
  DeltaTValue.mk 2455805.5 66.4829,
  DeltaTValue.mk 2455835.5 66.5056,
  DeltaTValue.mk 2455866.5 66.5383,
  DeltaTValue.mk 2455896.5 66.5706,
  DeltaTValue.mk 2455927.5 66.6030,
  DeltaTValue.mk 2455958.5 66.6340,
  DeltaTValue.mk 2455987.5 66.6569,
  DeltaTValue.mk 2456018.5 66.6925,
  DeltaTValue.mk 2456048.5 66.7289,
  DeltaTValue.mk 2456079.5 66.7579,
  DeltaTValue.mk 2456109.5 66.7708,
  DeltaTValue.mk 2456140.5 66.7740,
  DeltaTValue.mk 2456171.5 66.7846,
  DeltaTValue.mk 2456201.5 66.8103,
  DeltaTValue.mk 2456232.5 66.8400,
  DeltaTValue.mk 2456262.5 66.8779,
  DeltaTValue.mk 2456293.5 66.9069,
  DeltaTValue.mk 2456324.5 66.9443,
  DeltaTValue.mk 2456352.5 66.9763,
  DeltaTValue.mk 2456383.5 67.0258,
  DeltaTValue.mk 2456413.5 67.0716,
  DeltaTValue.mk 2456444.5 67.1100,
  DeltaTValue.mk 2456474.5 67.1266,
  DeltaTValue.mk 2456505.5 67.1331,
  DeltaTValue.mk 2456536.5 67.1458,
  DeltaTValue.mk 2456566.5 67.1717,
  DeltaTValue.mk 2456597.5 67.2091,
  DeltaTValue.mk 2456627.5 67.2460,
  DeltaTValue.mk 2456658.5 67.2810,
  DeltaTValue.mk 2456689.5 67.3136,
  DeltaTValue.mk 2456717.5 67.3457,
  DeltaTValue.mk 2456748.5 67.3890,
  DeltaTValue.mk 2456778.5 67.4318,
  DeltaTValue.mk 2456809.5 67.4666,
  DeltaTValue.mk 2456839.5 67.4858,
  DeltaTValue.mk 2456870.5 67.4989,
  DeltaTValue.mk 2456901.5 67.5111,
  DeltaTValue.mk 2456931.5 67.5353,
  DeltaTValue.mk 2456962.5 67.5711,
  DeltaTValue.mk 2456992.5 67.6070,
  DeltaTValue.mk 2457023.5 67.6439,
  DeltaTValue.mk 2457054.5 67.6765,
  DeltaTValue.mk 2457082.5 67.7117,
  DeltaTValue.mk 2457113.5 67.7591,
  DeltaTValue.mk 2457143.5 67.8012,
  DeltaTValue.mk 2457174.5 67.8402,
  DeltaTValue.mk 2457204.5 67.8606,
  DeltaTValue.mk 2457235.5 67.8822,
  DeltaTValue.mk 2457266.5 67.9120,
  DeltaTValue.mk 2457296.5 67.9546,
  DeltaTValue.mk 2457327.5 68.0055,
  DeltaTValue.mk 2457357.5 68.0514,
  DeltaTValue.mk 2457388.5 68.1024,
  DeltaTValue.mk 2457419.5 68.1577,
  DeltaTValue.mk 2457448.5 68.2044,
  DeltaTValue.mk 2457479.5 68.2665,
  DeltaTValue.mk 2457509.5 68.3188,
  DeltaTValue.mk 2457540.5 68.3703,
  DeltaTValue.mk 2457570.5 68.3964,
  DeltaTValue.mk 2457601.5 68.4094,
  DeltaTValue.mk 2457632.5 68.4305,
  DeltaTValue.mk 2457662.5 68.4630,
  DeltaTValue.mk 2457693.5 68.5078,
  DeltaTValue.mk 2457723.5 68.5537,
  DeltaTValue.mk 2457754.5 68.5928,
  DeltaTValue.mk 2457785.5 68.6298,
  DeltaTValue.mk 2457813.5 68.6671,
  DeltaTValue.mk 2457844.5 68.7135,
  DeltaTValue.mk 2457874.5 68.7623,
  DeltaTValue.mk 2457905.5 68.8033,
  DeltaTValue.mk 2457935.5 68.8245,
  DeltaTValue.mk 2457966.5 68.8373,
  DeltaTValue.mk 2457997.5 68.8477,
  DeltaTValue.mk 2458027.5 68.8689,
  DeltaTValue.mk 2458058.5 68.9006,
  DeltaTValue.mk 2458088.5 68.9355,
  DeltaTValue.mk 2458119.5 68.9676,
  DeltaTValue.mk 2458150.5 68.9875,
  DeltaTValue.mk 2458178.5 69.0175,
  DeltaTValue.mk 2458209.5 69.0499,
  DeltaTValue.mk 2458239.5 69.0823,
  DeltaTValue.mk 2458270.5 69.1070,
  DeltaTValue.mk 2458300.5 69.1134,
  DeltaTValue.mk 2458331.5 69.1142,
  DeltaTValue.mk 2458362.5 69.1207,
  DeltaTValue.mk 2458392.5 69.1356,
  DeltaTValue.mk 2458423.5 69.1646,
  DeltaTValue.mk 2458453.5 69.1964,
  DeltaTValue.mk 2458484.5 69.2201,
  DeltaTValue.mk 2458515.5 69.2452,
  DeltaTValue.mk 2458543.5 69.2733,
  DeltaTValue.mk 2458574.5 69.3032,
  DeltaTValue.mk 2458604.5 69.3326,
  DeltaTValue.mk 2458635.5 69.3540,
  DeltaTValue.mk 2458665.5 69.3582,
  DeltaTValue.mk 2458696.5 69.3442,
  DeltaTValue.mk 2458727.50 69.337633,
  DeltaTValue.mk 2458728.50 69.338265,
  DeltaTValue.mk 2458729.50 69.338814,
  DeltaTValue.mk 2458730.50 69.339264,
  DeltaTValue.mk 2458731.50 69.339524,
  DeltaTValue.mk 2458732.50 69.339542,
  DeltaTValue.mk 2458733.50 69.339368,
  DeltaTValue.mk 2458734.50 69.339106,
  DeltaTValue.mk 2458735.50 69.338717,
  DeltaTValue.mk 2458736.50 69.338301,
  DeltaTValue.mk 2458737.50 69.337939,
  DeltaTValue.mk 2458738.50 69.337596,
  DeltaTValue.mk 2458739.50 69.337369,
  DeltaTValue.mk 2458740.50 69.337299,
  DeltaTValue.mk 2458741.50 69.337325,
  DeltaTValue.mk 2458742.50 69.337337,
  DeltaTValue.mk 2458743.50 69.337324,
  DeltaTValue.mk 2458744.50 69.337282,
  DeltaTValue.mk 2458745.50 69.337151,
  DeltaTValue.mk 2458746.50 69.336911,
  DeltaTValue.mk 2458747.50 69.336552,
  DeltaTValue.mk 2458748.50 69.336108,
  DeltaTValue.mk 2458749.50 69.335646,
  DeltaTValue.mk 2458750.50 69.335209,
  DeltaTValue.mk 2458751.50 69.334915,
  DeltaTValue.mk 2458752.50 69.334903,
  DeltaTValue.mk 2458753.50 69.335215,
  DeltaTValue.mk 2458754.50 69.335802,
  DeltaTValue.mk 2458755.50 69.336506,
  DeltaTValue.mk 2458756.50 69.337197,
  DeltaTValue.mk 2458757.50 69.337742,
  DeltaTValue.mk 2458758.50 69.337982,
  DeltaTValue.mk 2458759.50 69.337930,
  DeltaTValue.mk 2458760.50 69.337687,
  DeltaTValue.mk 2458761.50 69.337299,
  DeltaTValue.mk 2458762.50 69.336834,
  DeltaTValue.mk 2458763.50 69.336374,
  DeltaTValue.mk 2458764.50 69.335972,
  DeltaTValue.mk 2458765.50 69.335646,
  DeltaTValue.mk 2458766.50 69.335433,
  DeltaTValue.mk 2458767.50 69.335374,
  DeltaTValue.mk 2458768.50 69.335478,
  DeltaTValue.mk 2458769.50 69.335673,
  DeltaTValue.mk 2458770.50 69.335935,
  DeltaTValue.mk 2458771.50 69.336240,
  DeltaTValue.mk 2458772.50 69.336573,
  DeltaTValue.mk 2458773.50 69.336884,
  DeltaTValue.mk 2458774.50 69.337135,
  DeltaTValue.mk 2458775.50 69.337321,
  DeltaTValue.mk 2458776.50 69.337419,
  DeltaTValue.mk 2458777.50 69.337490,
  DeltaTValue.mk 2458778.50 69.337599,
  DeltaTValue.mk 2458779.50 69.337818,
  DeltaTValue.mk 2458780.50 69.338240,
  DeltaTValue.mk 2458781.50 69.338915,
  DeltaTValue.mk 2458782.50 69.339816,
  DeltaTValue.mk 2458783.50 69.340812,
  DeltaTValue.mk 2458784.50 69.341742,
  DeltaTValue.mk 2458785.50 69.342452,
  DeltaTValue.mk 2458786.50 69.342919,
  DeltaTValue.mk 2458787.50 69.343150,
  DeltaTValue.mk 2458788.50 69.343219,
  DeltaTValue.mk 2458789.50 69.343203,
  DeltaTValue.mk 2458790.50 69.343177,
  DeltaTValue.mk 2458791.50 69.343217,
  DeltaTValue.mk 2458792.50 69.343284,
  DeltaTValue.mk 2458793.50 69.343451,
  DeltaTValue.mk 2458794.50 69.343776,
  DeltaTValue.mk 2458795.50 69.344251,
  DeltaTValue.mk 2458796.50 69.344864,
  DeltaTValue.mk 2458797.50 69.345559,
  DeltaTValue.mk 2458798.50 69.346267,
  DeltaTValue.mk 2458799.50 69.346901,
  DeltaTValue.mk 2458800.50 69.347435,
  DeltaTValue.mk 2458801.50 69.347865,
  DeltaTValue.mk 2458802.50 69.348175,
  DeltaTValue.mk 2458803.50 69.348388,
  DeltaTValue.mk 2458804.50 69.348470,
  DeltaTValue.mk 2458805.50 69.348518,
  DeltaTValue.mk 2458806.50 69.348658,
  DeltaTValue.mk 2458807.50 69.348964,
  DeltaTValue.mk 2458808.50 69.349553,
  DeltaTValue.mk 2458809.50 69.350340,
  DeltaTValue.mk 2458810.50 69.351211,
  DeltaTValue.mk 2458811.50 69.352096,
  DeltaTValue.mk 2458812.50 69.352901,
  DeltaTValue.mk 2458813.50 69.353475,
  DeltaTValue.mk 2458814.50 69.353787,
  DeltaTValue.mk 2458815.50 69.353946,
  DeltaTValue.mk 2458816.50 69.354020,
  DeltaTValue.mk 2458817.50 69.354032,
  DeltaTValue.mk 2458818.50 69.354014,
  DeltaTValue.mk 2458819.50 69.354067,
  DeltaTValue.mk 2458820.50 69.354205,
  DeltaTValue.mk 2458821.50 69.354424,
  DeltaTValue.mk 2458822.50 69.354692,
  DeltaTValue.mk 2458823.50 69.355027,
  DeltaTValue.mk 2458824.50 69.355423,
  DeltaTValue.mk 2458825.50 69.355864,
  DeltaTValue.mk 2458826.50 69.356268,
  DeltaTValue.mk 2458827.50 69.356535,
  DeltaTValue.mk 2458828.50 69.356624,
  DeltaTValue.mk 2458829.50 69.356599,
  DeltaTValue.mk 2458830.50 69.356460,
  DeltaTValue.mk 2458831.50 69.356275,
  DeltaTValue.mk 2458832.50 69.356102,
  DeltaTValue.mk 2458833.50 69.355998,
  DeltaTValue.mk 2458834.50 69.356034,
  DeltaTValue.mk 2458835.50 69.356248,
  DeltaTValue.mk 2458836.50 69.356718,
  DeltaTValue.mk 2458837.50 69.357355,
  DeltaTValue.mk 2458838.50 69.358038,
  DeltaTValue.mk 2458839.50 69.358719,
  DeltaTValue.mk 2458840.50 69.359312,
  DeltaTValue.mk 2458841.50 69.359757,
  DeltaTValue.mk 2458842.50 69.360024,
  DeltaTValue.mk 2458843.50 69.360146,
  DeltaTValue.mk 2458844.50 69.360209,
  DeltaTValue.mk 2458845.50 69.360251,
  DeltaTValue.mk 2458846.50 69.360326,
  DeltaTValue.mk 2458847.50 69.360492,
  DeltaTValue.mk 2458848.50 69.360769,
  DeltaTValue.mk 2458849.50 69.361155,
  DeltaTValue.mk 2458850.50 69.361627,
  DeltaTValue.mk 2458851.50 69.362115,
  DeltaTValue.mk 2458852.50 69.362589,
  DeltaTValue.mk 2458853.50 69.363082,
  DeltaTValue.mk 2458854.50 69.363428,
  DeltaTValue.mk 2458855.50 69.363551,
  DeltaTValue.mk 2458856.50 69.363530,
  DeltaTValue.mk 2458857.50 69.363375,
  DeltaTValue.mk 2458858.50 69.363117,
  DeltaTValue.mk 2458859.50 69.362879,
  DeltaTValue.mk 2458860.50 69.362790,
  DeltaTValue.mk 2458861.50 69.362938,
  DeltaTValue.mk 2458862.50 69.363328,
  DeltaTValue.mk 2458863.50 69.363964,
  DeltaTValue.mk 2458864.50 69.364793,
  DeltaTValue.mk 2458865.50 69.365743,
  DeltaTValue.mk 2458866.50 69.366785,
  DeltaTValue.mk 2458867.50 69.367757,
  DeltaTValue.mk 2458868.50 69.368602,
  DeltaTValue.mk 2458869.50 69.369284,
  DeltaTValue.mk 2458870.50 69.369801,
  DeltaTValue.mk 2458871.50 69.370164,
  DeltaTValue.mk 2458872.50 69.370469,
  DeltaTValue.mk 2458873.50 69.370784,
  DeltaTValue.mk 2458874.50 69.371192,
  DeltaTValue.mk 2458875.50 69.371708,
  DeltaTValue.mk 2458876.50 69.372327,
  DeltaTValue.mk 2458877.50 69.373052,
  DeltaTValue.mk 2458878.50 69.373813,
  DeltaTValue.mk 2458879.50 69.374520,
  DeltaTValue.mk 2458880.50 69.375170,
  DeltaTValue.mk 2458881.50 69.375720,
  DeltaTValue.mk 2458882.50 69.376187,
  DeltaTValue.mk 2458883.50 69.376514,
  DeltaTValue.mk 2458884.50 69.376715,
  DeltaTValue.mk 2458885.50 69.376845,
  DeltaTValue.mk 2458886.50 69.376930,
  DeltaTValue.mk 2458887.50 69.377019,
  DeltaTValue.mk 2458888.50 69.377268,
  DeltaTValue.mk 2458889.50 69.377793,
  DeltaTValue.mk 2458890.50 69.378581,
  DeltaTValue.mk 2458891.50 69.379552,
  DeltaTValue.mk 2458892.50 69.380540,
  DeltaTValue.mk 2458893.50 69.381428,
  DeltaTValue.mk 2458894.50 69.382113,
  DeltaTValue.mk 2458895.50 69.382629,
  DeltaTValue.mk 2458896.50 69.382940,
  DeltaTValue.mk 2458897.50 69.383076,
  DeltaTValue.mk 2458898.50 69.383126,
  DeltaTValue.mk 2458899.50 69.383152,
  DeltaTValue.mk 2458900.50 69.383237,
  DeltaTValue.mk 2458901.50 69.383508,
  DeltaTValue.mk 2458902.50 69.383974,
  DeltaTValue.mk 2458903.50 69.384575,
  DeltaTValue.mk 2458904.50 69.385249,
  DeltaTValue.mk 2458905.50 69.385971,
  DeltaTValue.mk 2458906.50 69.386736,
  DeltaTValue.mk 2458907.50 69.387521,
  DeltaTValue.mk 2458908.50 69.388280,
  DeltaTValue.mk 2458909.50 69.388990,
  DeltaTValue.mk 2458910.50 69.389625,
  DeltaTValue.mk 2458911.50 69.390169,
  DeltaTValue.mk 2458912.50 69.390666,
  DeltaTValue.mk 2458913.50 69.391141,
  DeltaTValue.mk 2458914.50 69.391683,
  DeltaTValue.mk 2458915.50 69.392381,
  DeltaTValue.mk 2458916.50 69.393258,
  DeltaTValue.mk 2458917.50 69.394358,
  DeltaTValue.mk 2458918.50 69.395715,
  DeltaTValue.mk 2458919.50 69.397267,
  DeltaTValue.mk 2458920.50 69.398795,
  DeltaTValue.mk 2458921.50 69.400140,
  DeltaTValue.mk 2458922.50 69.401282,
  DeltaTValue.mk 2458923.50 69.402166,
  DeltaTValue.mk 2458924.50 69.402794,
  DeltaTValue.mk 2458925.50 69.403272,
  DeltaTValue.mk 2458926.50 69.403647,
  DeltaTValue.mk 2458927.50 69.403942,
  DeltaTValue.mk 2458928.50 69.404242,
  DeltaTValue.mk 2458929.50 69.404585,
  DeltaTValue.mk 2458930.50 69.404949,
  DeltaTValue.mk 2458931.50 69.405378,
  DeltaTValue.mk 2458932.50 69.405931,
  DeltaTValue.mk 2458933.50 69.406494,
  DeltaTValue.mk 2458934.50 69.407053,
  DeltaTValue.mk 2458935.50 69.407573,
  DeltaTValue.mk 2458936.50 69.408033,
  DeltaTValue.mk 2458937.50 69.408433,
  DeltaTValue.mk 2458938.50 69.408710,
  DeltaTValue.mk 2458939.50 69.408943,
  DeltaTValue.mk 2458940.50 69.409164,
  DeltaTValue.mk 2458941.50 69.409438,
  DeltaTValue.mk 2458942.50 69.409815,
  DeltaTValue.mk 2458943.50 69.410426,
  DeltaTValue.mk 2458944.50 69.411327,
  DeltaTValue.mk 2458945.50 69.412545,
  DeltaTValue.mk 2458946.50 69.414009,
  DeltaTValue.mk 2458947.50 69.415621,
  DeltaTValue.mk 2458948.50 69.417204,
  DeltaTValue.mk 2458949.50 69.418632,
  DeltaTValue.mk 2458950.50 69.419776,
  DeltaTValue.mk 2458951.50 69.420627,
  DeltaTValue.mk 2458952.50 69.421231,
  DeltaTValue.mk 2458953.50 69.421621,
  DeltaTValue.mk 2458954.50 69.421856,
  DeltaTValue.mk 2458955.50 69.422017,
  DeltaTValue.mk 2458956.50 69.422233,
  DeltaTValue.mk 2458957.50 69.422573,
  DeltaTValue.mk 2458958.50 69.423014,
  DeltaTValue.mk 2458959.50 69.423515,
  DeltaTValue.mk 2458960.50 69.423995,
  DeltaTValue.mk 2458961.50 69.424481,
  DeltaTValue.mk 2458962.50 69.424961,
  DeltaTValue.mk 2458963.50 69.425370,
  DeltaTValue.mk 2458964.50 69.425680,
  DeltaTValue.mk 2458965.50 69.425868,
  DeltaTValue.mk 2458966.50 69.425977,
  DeltaTValue.mk 2458967.50 69.426069,
  DeltaTValue.mk 2458968.50 69.426135,
  DeltaTValue.mk 2458969.50 69.426237,
  DeltaTValue.mk 2458970.50 69.426466,
  DeltaTValue.mk 2458971.50 69.426919,
  DeltaTValue.mk 2458972.50 69.427644,
  DeltaTValue.mk 2458973.50 69.428598,
  DeltaTValue.mk 2458974.50 69.429674,
  DeltaTValue.mk 2458975.50 69.430782,
  DeltaTValue.mk 2458976.50 69.431845,
  DeltaTValue.mk 2458977.50 69.432699,
  DeltaTValue.mk 2458978.50 69.433290,
  DeltaTValue.mk 2458979.50 69.433739,
  DeltaTValue.mk 2458980.50 69.433995,
  DeltaTValue.mk 2458981.50 69.434153,
  DeltaTValue.mk 2458982.50 69.434330,
  DeltaTValue.mk 2458983.50 69.434535,
  DeltaTValue.mk 2458984.50 69.434752,
  DeltaTValue.mk 2458985.50 69.435076,
  DeltaTValue.mk 2458986.50 69.435486,
  DeltaTValue.mk 2458987.50 69.436004,
  DeltaTValue.mk 2458988.50 69.436609,
  DeltaTValue.mk 2458989.50 69.437142,
  DeltaTValue.mk 2458990.50 69.437620,
  DeltaTValue.mk 2458991.50 69.437967,
  DeltaTValue.mk 2458992.50 69.438144,
  DeltaTValue.mk 2458993.50 69.438153,
  DeltaTValue.mk 2458994.50 69.438012,
  DeltaTValue.mk 2458995.50 69.437832,
  DeltaTValue.mk 2458996.50 69.437679,
  DeltaTValue.mk 2458997.50 69.437550,
  DeltaTValue.mk 2458998.50 69.437550,
  DeltaTValue.mk 2458999.50 69.437714,
  DeltaTValue.mk 2459000.50 69.438087,
  DeltaTValue.mk 2459001.50 69.438633,
  DeltaTValue.mk 2459002.50 69.439252,
  DeltaTValue.mk 2459003.50 69.439800,
  DeltaTValue.mk 2459004.50 69.440136,
  DeltaTValue.mk 2459005.50 69.440208,
  DeltaTValue.mk 2459006.50 69.440053,
  DeltaTValue.mk 2459007.50 69.439689,
  DeltaTValue.mk 2459008.50 69.439185,
  DeltaTValue.mk 2459009.50 69.438626,
  DeltaTValue.mk 2459010.50 69.437981,
  DeltaTValue.mk 2459011.50 69.437376,
  DeltaTValue.mk 2459012.50 69.436731,
  DeltaTValue.mk 2459013.50 69.436098,
  DeltaTValue.mk 2459014.50 69.435564,
  DeltaTValue.mk 2459015.50 69.435133,
  DeltaTValue.mk 2459016.50 69.434749,
  DeltaTValue.mk 2459017.50 69.434280,
  DeltaTValue.mk 2459018.50 69.433709,
  DeltaTValue.mk 2459019.50 69.433032,
  DeltaTValue.mk 2459020.50 69.432102,
  DeltaTValue.mk 2459021.50 69.431045,
  DeltaTValue.mk 2459022.50 69.429886,
  DeltaTValue.mk 2459023.50 69.428702,
  DeltaTValue.mk 2459024.50 69.427573,
  DeltaTValue.mk 2459025.50 69.426600,
  DeltaTValue.mk 2459026.50 69.425866,
  DeltaTValue.mk 2459027.50 69.425362,
  DeltaTValue.mk 2459028.50 69.425025,
  DeltaTValue.mk 2459029.50 69.424810,
  DeltaTValue.mk 2459030.50 69.424568,
  DeltaTValue.mk 2459031.50 69.424133,
  DeltaTValue.mk 2459032.50 69.423485,
  DeltaTValue.mk 2459033.50 69.422600,
  DeltaTValue.mk 2459034.50 69.421499,
  DeltaTValue.mk 2459035.50 69.420218,
  DeltaTValue.mk 2459036.50 69.418878,
  DeltaTValue.mk 2459037.50 69.417601,
  DeltaTValue.mk 2459038.50 69.416395,
  DeltaTValue.mk 2459039.50 69.415266,
  DeltaTValue.mk 2459040.50 69.414208,
  DeltaTValue.mk 2459041.50 69.413242,
  DeltaTValue.mk 2459042.50 69.412237,
  DeltaTValue.mk 2459043.50 69.411192,
  DeltaTValue.mk 2459044.50 69.410120,
  DeltaTValue.mk 2459045.50 69.408965,
  DeltaTValue.mk 2459046.50 69.407756,
  DeltaTValue.mk 2459047.50 69.406474,
  DeltaTValue.mk 2459048.50 69.405122,
  DeltaTValue.mk 2459049.50 69.403697,
  DeltaTValue.mk 2459050.50 69.402223,
  DeltaTValue.mk 2459051.50 69.400857,
  DeltaTValue.mk 2459052.50 69.399693,
  DeltaTValue.mk 2459053.50 69.398740,
  DeltaTValue.mk 2459054.50 69.397989,
  DeltaTValue.mk 2459055.50 69.397428,
  DeltaTValue.mk 2459056.50 69.396964,
  DeltaTValue.mk 2459057.50 69.396451,
  DeltaTValue.mk 2459058.50 69.395825,
  DeltaTValue.mk 2459059.50 69.395086,
  DeltaTValue.mk 2459060.50 69.394185,
  DeltaTValue.mk 2459061.50 69.393173,
  DeltaTValue.mk 2459062.50 69.392124,
  DeltaTValue.mk 2459063.50 69.391052,
  DeltaTValue.mk 2459064.50 69.390068,
  DeltaTValue.mk 2459065.50 69.389219,
  DeltaTValue.mk 2459066.50 69.388463,
  DeltaTValue.mk 2459067.50 69.387881,
  DeltaTValue.mk 2459068.50 69.387420,
  DeltaTValue.mk 2459069.50 69.387041,
  DeltaTValue.mk 2459070.50 69.386727,
  DeltaTValue.mk 2459071.50 69.386337,
  DeltaTValue.mk 2459072.50 69.385832,
  DeltaTValue.mk 2459073.50 69.385197,
  DeltaTValue.mk 2459074.50 69.384391,
  DeltaTValue.mk 2459075.50 69.383493,
  DeltaTValue.mk 2459076.50 69.382461,
  DeltaTValue.mk 2459077.50 69.381279,
  DeltaTValue.mk 2459078.50 69.380107,
  DeltaTValue.mk 2459079.50 69.379096,
  DeltaTValue.mk 2459080.50 69.378295,
  DeltaTValue.mk 2459081.50 69.377665,
  DeltaTValue.mk 2459082.50 69.377349,
  DeltaTValue.mk 2459083.50 69.377238,
  DeltaTValue.mk 2459084.50 69.377178,
  DeltaTValue.mk 2459085.50 69.377031,
  DeltaTValue.mk 2459086.50 69.376704,
  DeltaTValue.mk 2459087.50 69.376095,
  DeltaTValue.mk 2459088.50 69.375202,
  DeltaTValue.mk 2459089.50 69.374122,
  DeltaTValue.mk 2459090.50 69.372891,
  DeltaTValue.mk 2459091.50 69.371601,
  DeltaTValue.mk 2459092.50 69.370382,
  DeltaTValue.mk 2459093.50 69.369342,
  DeltaTValue.mk 2459094.50 69.368421,
  DeltaTValue.mk 2459095.50 69.367644,
  DeltaTValue.mk 2459096.50 69.367008,
  DeltaTValue.mk 2459097.50 69.366438,
  DeltaTValue.mk 2459098.50 69.365864,
  DeltaTValue.mk 2459099.50 69.365304,
  DeltaTValue.mk 2459100.50 69.364675,
  DeltaTValue.mk 2459101.50 69.363960,
  DeltaTValue.mk 2459102.50 69.363144,
  DeltaTValue.mk 2459103.50 69.362349,
  DeltaTValue.mk 2459104.50 69.361533,
  DeltaTValue.mk 2459105.50 69.360742,
  DeltaTValue.mk 2459106.50 69.360111,
  DeltaTValue.mk 2459107.50 69.359711,
  DeltaTValue.mk 2459108.50 69.359555,
  DeltaTValue.mk 2459109.50 69.359676,
  DeltaTValue.mk 2459110.50 69.359978,
  DeltaTValue.mk 2459111.50 69.360403,
  DeltaTValue.mk 2459112.50 69.360789,
  DeltaTValue.mk 2459113.50 69.361006,
  DeltaTValue.mk 2459114.50 69.361019,
  DeltaTValue.mk 2459115.50 69.360811,
  DeltaTValue.mk 2459116.50 69.360457,
  DeltaTValue.mk 2459117.50 69.360008,
  DeltaTValue.mk 2459118.50 69.359564,
  DeltaTValue.mk 2459119.50 69.359037,
  DeltaTValue.mk 2459120.50 69.358483,
  DeltaTValue.mk 2459121.50 69.358055,
  DeltaTValue.mk 2459122.50 69.357718,
  DeltaTValue.mk 2459123.50 69.357478,
  DeltaTValue.mk 2459124.50 69.357252,
  DeltaTValue.mk 2459125.50 69.357089,
  DeltaTValue.mk 2459126.50 69.356952,
  DeltaTValue.mk 2459127.50 69.356781,
  DeltaTValue.mk 2459128.50 69.356508,
  DeltaTValue.mk 2459129.50 69.356119,
  DeltaTValue.mk 2459130.50 69.355606,
  DeltaTValue.mk 2459131.50 69.354953,
  DeltaTValue.mk 2459132.50 69.354345,
  DeltaTValue.mk 2459133.50 69.353833,
  DeltaTValue.mk 2459134.50 69.353429,
  DeltaTValue.mk 2459135.50 69.353290,
  DeltaTValue.mk 2459136.50 69.353485,
  DeltaTValue.mk 2459137.50 69.353928,
  DeltaTValue.mk 2459138.50 69.354637,
  DeltaTValue.mk 2459139.50 69.355433,
  DeltaTValue.mk 2459140.50 69.356209,
  DeltaTValue.mk 2459141.50 69.356737,
  DeltaTValue.mk 2459142.50 69.357014,
  DeltaTValue.mk 2459143.50 69.357091,
  DeltaTValue.mk 2459144.50 69.357076,
  DeltaTValue.mk 2459145.50 69.357119,
  DeltaTValue.mk 2459146.50 69.357193,
  DeltaTValue.mk 2459147.50 69.357321,
  DeltaTValue.mk 2459148.50 69.357498,
  DeltaTValue.mk 2459149.50 69.357762,
  DeltaTValue.mk 2459150.50 69.358107,
  DeltaTValue.mk 2459151.50 69.358464,
  DeltaTValue.mk 2459152.50 69.358771,
  DeltaTValue.mk 2459153.50 69.359062,
  DeltaTValue.mk 2459154.50 69.359324,
  DeltaTValue.mk 2459155.50 69.359492,
  DeltaTValue.mk 2459156.50 69.359538,
  DeltaTValue.mk 2459157.50 69.359484,
  DeltaTValue.mk 2459158.50 69.359309,
  DeltaTValue.mk 2459159.50 69.359030,
  DeltaTValue.mk 2459160.50 69.358723,
  DeltaTValue.mk 2459161.50 69.358517,
  DeltaTValue.mk 2459162.50 69.358566,
  DeltaTValue.mk 2459163.50 69.358925,
  DeltaTValue.mk 2459164.50 69.359491,
  DeltaTValue.mk 2459165.50 69.360261,
  DeltaTValue.mk 2459166.50 69.361147,
  DeltaTValue.mk 2459167.50 69.361973,
  DeltaTValue.mk 2459168.50 69.362636,
  DeltaTValue.mk 2459169.50 69.363014,
  DeltaTValue.mk 2459170.50 69.363119,
  DeltaTValue.mk 2459171.50 69.363020,
  DeltaTValue.mk 2459172.50 69.362745,
  DeltaTValue.mk 2459173.50 69.362450,
  DeltaTValue.mk 2459174.50 69.362194,
  DeltaTValue.mk 2459175.50 69.362074,
  DeltaTValue.mk 2459176.50 69.362147,
  DeltaTValue.mk 2459177.50 69.362355,
  DeltaTValue.mk 2459178.50 69.362641,
  DeltaTValue.mk 2459179.50 69.362963,
  DeltaTValue.mk 2459180.50 69.363135,
  DeltaTValue.mk 2459181.50 69.363286,
  DeltaTValue.mk 2459182.50 69.363305,
  DeltaTValue.mk 2459183.50 69.363212,
  DeltaTValue.mk 2459184.50 69.363024,
  DeltaTValue.mk 2459185.50 69.362717,
  DeltaTValue.mk 2459186.50 69.362321,
  DeltaTValue.mk 2459187.50 69.361923,
  DeltaTValue.mk 2459188.50 69.361628,
  DeltaTValue.mk 2459189.50 69.361540,
  DeltaTValue.mk 2459190.50 69.361646,
  DeltaTValue.mk 2459191.50 69.361974,
  DeltaTValue.mk 2459192.50 69.362494,
  DeltaTValue.mk 2459193.50 69.363104,
  DeltaTValue.mk 2459194.50 69.363735,
  DeltaTValue.mk 2459195.50 69.364180,
  DeltaTValue.mk 2459196.50 69.364399,
  DeltaTValue.mk 2459197.50 69.364377,
  DeltaTValue.mk 2459198.50 69.364117,
  DeltaTValue.mk 2459199.50 69.363684,
  DeltaTValue.mk 2459200.50 69.363165,
  DeltaTValue.mk 2459201.50 69.362769,
  DeltaTValue.mk 2459202.50 69.362462,
  DeltaTValue.mk 2459203.50 69.362312,
  DeltaTValue.mk 2459204.50 69.362298,
  DeltaTValue.mk 2459205.50 69.362394,
  DeltaTValue.mk 2459206.50 69.362563,
  DeltaTValue.mk 2459207.50 69.362636,
  DeltaTValue.mk 2459208.50 69.362635,
  DeltaTValue.mk 2459209.50 69.362503,
  DeltaTValue.mk 2459210.50 69.362208,
  DeltaTValue.mk 2459211.50 69.361772,
  DeltaTValue.mk 2459212.50 69.361239,
  DeltaTValue.mk 2459213.50 69.360642,
  DeltaTValue.mk 2459214.50 69.359981,
  DeltaTValue.mk 2459215.50 69.359334,
  DeltaTValue.mk 2459216.50 69.358812,
  DeltaTValue.mk 2459217.50 69.358473,
  DeltaTValue.mk 2459218.50 69.358326,
  DeltaTValue.mk 2459219.50 69.358380,
  DeltaTValue.mk 2459220.50 69.358574,
  DeltaTValue.mk 2459221.50 69.358835,
  DeltaTValue.mk 2459222.50 69.359060,
  DeltaTValue.mk 2459223.50 69.359087,
  DeltaTValue.mk 2459224.50 69.358867,
  DeltaTValue.mk 2459225.50 69.358463,
  DeltaTValue.mk 2459226.50 69.357966,
  DeltaTValue.mk 2459227.50 69.357417,
  DeltaTValue.mk 2459228.50 69.356884,
  DeltaTValue.mk 2459229.50 69.356469,
  DeltaTValue.mk 2459230.50 69.356040,
  DeltaTValue.mk 2459231.50 69.355766,
  DeltaTValue.mk 2459232.50 69.355586,
  DeltaTValue.mk 2459233.50 69.355416,
  DeltaTValue.mk 2459234.50 69.355273,
  DeltaTValue.mk 2459235.50 69.355090,
  DeltaTValue.mk 2459236.50 69.354796,
  DeltaTValue.mk 2459237.50 69.354479,
  DeltaTValue.mk 2459238.50 69.354010,
  DeltaTValue.mk 2459239.50 69.353415,
  DeltaTValue.mk 2459240.50 69.352720,
  DeltaTValue.mk 2459241.50 69.351955,
  DeltaTValue.mk 2459242.50 69.351309,
  DeltaTValue.mk 2459243.50 69.350911,
  DeltaTValue.mk 2459244.50 69.350682,
  DeltaTValue.mk 2459245.50 69.350688,
  DeltaTValue.mk 2459246.50 69.351013,
  DeltaTValue.mk 2459247.50 69.351560,
  DeltaTValue.mk 2459248.50 69.352217,
  DeltaTValue.mk 2459249.50 69.352836,
  DeltaTValue.mk 2459250.50 69.353284,
  DeltaTValue.mk 2459251.50 69.353532,
  DeltaTValue.mk 2459252.50 69.353577,
  DeltaTValue.mk 2459253.50 69.353478,
  DeltaTValue.mk 2459254.50 69.353330,
  DeltaTValue.mk 2459255.50 69.353252,
  DeltaTValue.mk 2459256.50 69.353258,
  DeltaTValue.mk 2459257.50 69.353410,
  DeltaTValue.mk 2459258.50 69.353718,
  DeltaTValue.mk 2459259.50 69.354183,
  DeltaTValue.mk 2459260.50 69.354735,
  DeltaTValue.mk 2459261.50 69.355227,
  DeltaTValue.mk 2459262.50 69.355658,
  DeltaTValue.mk 2459263.50 69.355934,
  DeltaTValue.mk 2459264.50 69.355996,
  DeltaTValue.mk 2459265.50 69.355895,
  DeltaTValue.mk 2459266.50 69.355559,
  DeltaTValue.mk 2459267.50 69.355042,
  DeltaTValue.mk 2459268.50 69.354454,
  DeltaTValue.mk 2459269.50 69.353816,
  DeltaTValue.mk 2459270.50 69.353332,
  DeltaTValue.mk 2459271.50 69.353052,
  DeltaTValue.mk 2459272.50 69.353042,
  DeltaTValue.mk 2459273.50 69.353289,
  DeltaTValue.mk 2459274.50 69.353792,
  DeltaTValue.mk 2459275.50 69.354408,
  DeltaTValue.mk 2459276.50 69.355007,
  DeltaTValue.mk 2459277.50 69.355574,
  DeltaTValue.mk 2459278.50 69.355908,
  DeltaTValue.mk 2459279.50 69.355959,
  DeltaTValue.mk 2459280.50 69.355830,
  DeltaTValue.mk 2459281.50 69.355596,
  DeltaTValue.mk 2459282.50 69.355314,
  DeltaTValue.mk 2459283.50 69.355105,
  DeltaTValue.mk 2459284.50 69.355021,
  DeltaTValue.mk 2459285.50 69.355074,
  DeltaTValue.mk 2459286.50 69.355282,
  DeltaTValue.mk 2459287.50 69.355605,
  DeltaTValue.mk 2459288.50 69.355944,
  DeltaTValue.mk 2459289.50 69.356229,
  DeltaTValue.mk 2459290.50 69.356371,
  DeltaTValue.mk 2459291.50 69.356377,
  DeltaTValue.mk 2459292.50 69.356285,
  DeltaTValue.mk 2459293.50 69.356014,
  DeltaTValue.mk 2459294.50 69.355668,
  DeltaTValue.mk 2459295.50 69.355311,
  DeltaTValue.mk 2459296.50 69.354963,
  DeltaTValue.mk 2459297.50 69.354673,
  DeltaTValue.mk 2459298.50 69.354525,
  DeltaTValue.mk 2459299.50 69.354584,
  DeltaTValue.mk 2459300.50 69.354926,
  DeltaTValue.mk 2459301.50 69.355480,
  DeltaTValue.mk 2459302.50 69.356252,
  DeltaTValue.mk 2459303.50 69.357046,
  DeltaTValue.mk 2459304.50 69.357725,
  DeltaTValue.mk 2459305.50 69.358222,
  DeltaTValue.mk 2459306.50 69.358484,
  DeltaTValue.mk 2459307.50 69.358553,
  DeltaTValue.mk 2459308.50 69.358477,
  DeltaTValue.mk 2459309.50 69.358371,
  DeltaTValue.mk 2459310.50 69.358407,
  DeltaTValue.mk 2459311.50 69.358601,
  DeltaTValue.mk 2459312.50 69.358863,
  DeltaTValue.mk 2459313.50 69.359281,
  DeltaTValue.mk 2459314.50 69.359755,
  DeltaTValue.mk 2459315.50 69.360284,
  DeltaTValue.mk 2459316.50 69.360834,
  DeltaTValue.mk 2459317.50 69.361252,
  DeltaTValue.mk 2459318.50 69.361616,
  DeltaTValue.mk 2459319.50 69.361857,
  DeltaTValue.mk 2459320.50 69.361991,
  DeltaTValue.mk 2459321.50 69.362019,
  DeltaTValue.mk 2459322.50 69.361975,
  DeltaTValue.mk 2459323.50 69.361868,
  DeltaTValue.mk 2459324.50 69.361842,
  DeltaTValue.mk 2459325.50 69.361860,
  DeltaTValue.mk 2459326.50 69.362044,
  DeltaTValue.mk 2459327.50 69.362525,
  DeltaTValue.mk 2459328.50 69.363155,
  DeltaTValue.mk 2459329.50 69.363962,
  DeltaTValue.mk 2459330.50 69.364887,
  DeltaTValue.mk 2459331.50 69.365898,
  DeltaTValue.mk 2459332.50 69.366703,
  DeltaTValue.mk 2459333.50 69.367201,
  DeltaTValue.mk 2459334.50 69.367369,
  DeltaTValue.mk 2459335.50 69.367300,
  DeltaTValue.mk 2459336.50 69.367085,
  DeltaTValue.mk 2459337.50 69.366789,
  DeltaTValue.mk 2459338.50 69.366519,
  DeltaTValue.mk 2459339.50 69.366387,
  DeltaTValue.mk 2459340.50 69.366396,
  DeltaTValue.mk 2459341.50 69.366557,
  DeltaTValue.mk 2459342.50 69.366822,
  DeltaTValue.mk 2459343.50 69.367047,
  DeltaTValue.mk 2459344.50 69.367223,
  DeltaTValue.mk 2459345.50 69.367354,
  DeltaTValue.mk 2459346.50 69.367441,
  DeltaTValue.mk 2459347.50 69.367301,
  DeltaTValue.mk 2459348.50 69.367098,
  DeltaTValue.mk 2459349.50 69.366823,
  DeltaTValue.mk 2459350.50 69.366535,
  DeltaTValue.mk 2459351.50 69.366260,
  DeltaTValue.mk 2459352.50 69.366023,
  DeltaTValue.mk 2459353.50 69.365971,
  DeltaTValue.mk 2459354.50 69.366072,
  DeltaTValue.mk 2459355.50 69.366507,
  DeltaTValue.mk 2459356.50 69.367026,
  DeltaTValue.mk 2459357.50 69.367716,
  DeltaTValue.mk 2459358.50 69.368435,
  DeltaTValue.mk 2459359.50 69.369041,
  DeltaTValue.mk 2459360.50 69.369417,
  DeltaTValue.mk 2459361.50 69.369542,
  DeltaTValue.mk 2459362.50 69.369404,
  DeltaTValue.mk 2459363.50 69.369050,
  DeltaTValue.mk 2459364.50 69.368589,
  DeltaTValue.mk 2459365.50 69.368161,
  DeltaTValue.mk 2459366.50 69.367863,
  DeltaTValue.mk 2459367.50 69.367703,
  DeltaTValue.mk 2459368.50 69.367660,
  DeltaTValue.mk 2459369.50 69.367711,
  DeltaTValue.mk 2459370.50 69.367739,
  DeltaTValue.mk 2459371.50 69.367666,
  DeltaTValue.mk 2459372.50 69.367471,
  DeltaTValue.mk 2459373.50 69.367129,
  DeltaTValue.mk 2459374.50 69.366574,
  DeltaTValue.mk 2459375.50 69.365901,
  DeltaTValue.mk 2459376.50 69.365101,
  DeltaTValue.mk 2459377.50 69.364170,
  DeltaTValue.mk 2459378.50 69.363267,
  DeltaTValue.mk 2459379.50 69.362346,
  DeltaTValue.mk 2459380.50 69.361572,
  DeltaTValue.mk 2459381.50 69.360975,
  DeltaTValue.mk 2459382.50 69.360506,
  DeltaTValue.mk 2459383.50 69.360282,
  DeltaTValue.mk 2459384.50 69.360208,
  DeltaTValue.mk 2459385.50 69.360239,
  DeltaTValue.mk 2459386.50 69.360206,
  DeltaTValue.mk 2459387.50 69.359952,
  DeltaTValue.mk 2459388.50 69.359471,
  DeltaTValue.mk 2459389.50 69.358663,
  DeltaTValue.mk 2459390.50 69.357579,
  DeltaTValue.mk 2459391.50 69.356387,
  DeltaTValue.mk 2459392.50 69.355140,
  DeltaTValue.mk 2459393.50 69.353970,
  DeltaTValue.mk 2459394.50 69.352983,
  DeltaTValue.mk 2459395.50 69.352193,
  DeltaTValue.mk 2459396.50 69.351419,
  DeltaTValue.mk 2459397.50 69.350723,
  DeltaTValue.mk 2459398.50 69.349989,
  DeltaTValue.mk 2459399.50 69.349172,
  DeltaTValue.mk 2459400.50 69.348162,
  DeltaTValue.mk 2459401.50 69.346978,
  DeltaTValue.mk 2459402.50 69.345807,
  DeltaTValue.mk 2459403.50 69.344451,
  DeltaTValue.mk 2459404.50 69.343025,
  DeltaTValue.mk 2459405.50 69.341565,
  DeltaTValue.mk 2459406.50 69.340220,
  DeltaTValue.mk 2459407.50 69.338968,
  DeltaTValue.mk 2459408.50 69.337897,
  DeltaTValue.mk 2459409.50 69.337008,
  DeltaTValue.mk 2459410.50 69.336398,
  DeltaTValue.mk 2459411.50 69.335991,
  DeltaTValue.mk 2459412.50 69.335746,
  DeltaTValue.mk 2459413.50 69.335531,
  DeltaTValue.mk 2459414.50 69.335189,
  DeltaTValue.mk 2459415.50 69.334703,
  DeltaTValue.mk 2459416.50 69.334077,
  DeltaTValue.mk 2459417.50 69.333301,
  DeltaTValue.mk 2459418.50 69.332386,
  DeltaTValue.mk 2459419.50 69.331474,
  DeltaTValue.mk 2459420.50 69.330703,
  DeltaTValue.mk 2459421.50 69.330074,
  DeltaTValue.mk 2459422.50 69.329535,
  DeltaTValue.mk 2459423.50 69.329122,
  DeltaTValue.mk 2459424.50 69.328761,
  DeltaTValue.mk 2459425.50 69.328366,
  DeltaTValue.mk 2459426.50 69.327925,
  DeltaTValue.mk 2459427.50 69.327343,
  DeltaTValue.mk 2459428.50 69.326648,
  DeltaTValue.mk 2459429.50 69.325831,
  DeltaTValue.mk 2459430.50 69.324889,
  DeltaTValue.mk 2459431.50 69.323859,
  DeltaTValue.mk 2459432.50 69.322767,
  DeltaTValue.mk 2459433.50 69.321752,
  DeltaTValue.mk 2459434.50 69.320744,
  DeltaTValue.mk 2459435.50 69.319826,
  DeltaTValue.mk 2459436.50 69.319082,
  DeltaTValue.mk 2459437.50 69.318512,
  DeltaTValue.mk 2459438.50 69.318100,
  DeltaTValue.mk 2459439.50 69.317837,
  DeltaTValue.mk 2459440.50 69.317510,
  DeltaTValue.mk 2459441.50 69.317126,
  DeltaTValue.mk 2459442.50 69.316560,
  DeltaTValue.mk 2459443.50 69.315756,
  DeltaTValue.mk 2459444.50 69.314714,
  DeltaTValue.mk 2459445.50 69.313564,
  DeltaTValue.mk 2459446.50 69.312361,
  DeltaTValue.mk 2459447.50 69.311232,
  DeltaTValue.mk 2459448.50 69.310319,
  DeltaTValue.mk 2459449.50 69.309574,
  DeltaTValue.mk 2459450.50 69.308966,
  DeltaTValue.mk 2459451.50 69.308453,
  DeltaTValue.mk 2459452.50 69.308009,
  DeltaTValue.mk 2459453.50 69.307491,
  DeltaTValue.mk 2459454.50 69.306891,
  DeltaTValue.mk 2459455.50 69.306107,
  DeltaTValue.mk 2459456.50 69.305266,
  DeltaTValue.mk 2459457.50 69.304326,
  DeltaTValue.mk 2459458.50 69.303330,
  DeltaTValue.mk 2459459.50 69.302274,
  DeltaTValue.mk 2459460.50 69.301218,
  DeltaTValue.mk 2459461.50 69.300339,
  DeltaTValue.mk 2459462.50 69.299528,
  DeltaTValue.mk 2459463.50 69.298925,
  DeltaTValue.mk 2459464.50 69.298567,
  DeltaTValue.mk 2459465.50 69.298429,
  DeltaTValue.mk 2459466.50 69.298456,
  DeltaTValue.mk 2459467.50 69.298497,
  DeltaTValue.mk 2459468.50 69.298514,
  DeltaTValue.mk 2459469.50 69.298322,
  DeltaTValue.mk 2459470.50 69.297908,
  DeltaTValue.mk 2459471.50 69.297240,
  DeltaTValue.mk 2459472.50 69.296449,
  DeltaTValue.mk 2459473.50 69.295575,
  DeltaTValue.mk 2459474.50 69.294783,
  DeltaTValue.mk 2459475.50 69.294152,
  DeltaTValue.mk 2459476.50 69.293794,
  DeltaTValue.mk 2459477.50 69.293503,
  DeltaTValue.mk 2459478.50 69.293376,
  DeltaTValue.mk 2459479.50 69.293244,
  DeltaTValue.mk 2459480.50 69.293181,
  DeltaTValue.mk 2459481.50 69.293067,
  DeltaTValue.mk 2459482.50 69.292850,
  DeltaTValue.mk 2459483.50 69.292505,
  DeltaTValue.mk 2459484.50 69.292037,
  DeltaTValue.mk 2459485.50 69.291398,
  DeltaTValue.mk 2459486.50 69.290720,
  DeltaTValue.mk 2459487.50 69.289991,
  DeltaTValue.mk 2459488.50 69.289249,
  DeltaTValue.mk 2459489.50 69.288698,
  DeltaTValue.mk 2459490.50 69.288323,
  DeltaTValue.mk 2459491.50 69.288115,
  DeltaTValue.mk 2459492.50 69.288161,
  DeltaTValue.mk 2459493.50 69.288493,
  DeltaTValue.mk 2459494.50 69.289040,
  DeltaTValue.mk 2459495.50 69.289552,
  DeltaTValue.mk 2459496.50 69.289930,
  DeltaTValue.mk 2459497.50 69.290053,
  DeltaTValue.mk 2459498.50 69.289956,
  DeltaTValue.mk 2459499.50 69.289707,
  DeltaTValue.mk 2459500.50 69.289372,
  DeltaTValue.mk 2459501.50 69.289050,
  DeltaTValue.mk 2459502.50 69.288816,
  DeltaTValue.mk 2459503.50 69.288714,
  DeltaTValue.mk 2459504.50 69.288781,
  DeltaTValue.mk 2459505.50 69.288975,
  DeltaTValue.mk 2459506.50 69.289321,
  DeltaTValue.mk 2459507.50 69.289645,
  DeltaTValue.mk 2459508.50 69.289935,
  DeltaTValue.mk 2459509.50 69.290146,
  DeltaTValue.mk 2459510.50 69.290165,
  DeltaTValue.mk 2459511.50 69.289934,
  DeltaTValue.mk 2459512.50 69.289563,
  DeltaTValue.mk 2459513.50 69.289070,
  DeltaTValue.mk 2459514.50 69.288559,
  DeltaTValue.mk 2459515.50 69.288128,
  DeltaTValue.mk 2459516.50 69.287764,
  DeltaTValue.mk 2459517.50 69.287563,
  DeltaTValue.mk 2459518.50 69.287638,
  DeltaTValue.mk 2459519.50 69.288039,
  DeltaTValue.mk 2459520.50 69.288679,
  DeltaTValue.mk 2459521.50 69.289524,
  DeltaTValue.mk 2459522.50 69.290341,
  DeltaTValue.mk 2459523.50 69.291034,
  DeltaTValue.mk 2459524.50 69.291421,
  DeltaTValue.mk 2459525.50 69.291484,
  DeltaTValue.mk 2459526.50 69.291368,
  DeltaTValue.mk 2459527.50 69.291173,
  DeltaTValue.mk 2459528.50 69.290969,
  DeltaTValue.mk 2459529.50 69.290868,
  DeltaTValue.mk 2459530.50 69.290989,
  DeltaTValue.mk 2459531.50 69.291249,
  DeltaTValue.mk 2459532.50 69.291641,
  DeltaTValue.mk 2459533.50 69.292005,
  DeltaTValue.mk 2459534.50 69.292269,
  DeltaTValue.mk 2459535.50 69.292462,
  DeltaTValue.mk 2459536.50 69.292531,
  DeltaTValue.mk 2459537.50 69.292462,
  DeltaTValue.mk 2459538.50 69.292189,
  DeltaTValue.mk 2459539.50 69.291770,
  DeltaTValue.mk 2459540.50 69.291312,
  DeltaTValue.mk 2459541.50 69.290739,
  DeltaTValue.mk 2459542.50 69.290211,
  DeltaTValue.mk 2459543.50 69.289727,
  DeltaTValue.mk 2459544.50 69.289380,
  DeltaTValue.mk 2459545.50 69.289317,
  DeltaTValue.mk 2459546.50 69.289510,
  DeltaTValue.mk 2459547.50 69.289846,
  DeltaTValue.mk 2459548.50 69.290250,
  DeltaTValue.mk 2459549.50 69.290807,
  DeltaTValue.mk 2459550.50 69.291335,
  DeltaTValue.mk 2459551.50 69.291760,
  DeltaTValue.mk 2459552.50 69.291887,
  DeltaTValue.mk 2459553.50 69.291759,
  DeltaTValue.mk 2459554.50 69.291523,
  DeltaTValue.mk 2459555.50 69.291278,
  DeltaTValue.mk 2459556.50 69.291059,
  DeltaTValue.mk 2459557.50 69.291089,
  DeltaTValue.mk 2459558.50 69.291391,
  DeltaTValue.mk 2459559.50 69.291747,
  DeltaTValue.mk 2459560.50 69.292188,
  DeltaTValue.mk 2459561.50 69.292639,
  DeltaTValue.mk 2459562.50 69.292959,
  DeltaTValue.mk 2459563.50 69.293194,
  DeltaTValue.mk 2459564.50 69.293294,
  DeltaTValue.mk 2459565.50 69.293265,
  DeltaTValue.mk 2459566.50 69.293035,
  DeltaTValue.mk 2459567.50 69.292734,
  DeltaTValue.mk 2459568.50 69.292393,
  DeltaTValue.mk 2459569.50 69.291998,
  DeltaTValue.mk 2459570.50 69.291592,
  DeltaTValue.mk 2459571.50 69.291320,
  DeltaTValue.mk 2459572.50 69.291254,
  DeltaTValue.mk 2459573.50 69.291358,
  DeltaTValue.mk 2459574.50 69.291713,
  DeltaTValue.mk 2459575.50 69.292291,
  DeltaTValue.mk 2459576.50 69.292922,
  DeltaTValue.mk 2459577.50 69.293553,
  DeltaTValue.mk 2459578.50 69.294094,
  DeltaTValue.mk 2459579.50 69.294420,
  DeltaTValue.mk 2459580.50 69.294493,
  DeltaTValue.mk 2459581.50 69.294361,
  DeltaTValue.mk 2459582.50 69.294124,
  DeltaTValue.mk 2459583.50 69.293936,
  DeltaTValue.mk 2459584.50 69.293852,
  DeltaTValue.mk 2459585.50 69.294065,
  DeltaTValue.mk 2459586.50 69.294374,
  DeltaTValue.mk 2459587.50 69.294775,
  DeltaTValue.mk 2459588.50 69.295220,
  DeltaTValue.mk 2459589.50 69.295607,
  DeltaTValue.mk 2459590.50 69.295865,
  DeltaTValue.mk 2459591.50 69.295924,
  DeltaTValue.mk 2459592.50 69.295867,
  DeltaTValue.mk 2459593.50 69.295607,
  DeltaTValue.mk 2459594.50 69.295118,
  DeltaTValue.mk 2459595.50 69.294575,
  DeltaTValue.mk 2459596.50 69.294000,
  DeltaTValue.mk 2459597.50 69.293336,
  DeltaTValue.mk 2459598.50 69.292814,
  DeltaTValue.mk 2459599.50 69.292420,
  DeltaTValue.mk 2459600.50 69.292278,
  DeltaTValue.mk 2459601.50 69.292305,
  DeltaTValue.mk 2459602.50 69.292483,
  DeltaTValue.mk 2459603.50 69.292744,
  DeltaTValue.mk 2459604.50 69.293015,
  DeltaTValue.mk 2459605.50 69.293203,
  DeltaTValue.mk 2459606.50 69.293265,
  DeltaTValue.mk 2459607.50 69.293123,
  DeltaTValue.mk 2459608.50 69.292804,
  DeltaTValue.mk 2459609.50 69.292341,
  DeltaTValue.mk 2459610.50 69.291834,
  DeltaTValue.mk 2459611.50 69.291395,
  DeltaTValue.mk 2459612.50 69.291123,
  DeltaTValue.mk 2459613.50 69.291075,
  DeltaTValue.mk 2459614.50 69.291219,
  DeltaTValue.mk 2459615.50 69.291423,
  DeltaTValue.mk 2459616.50 69.291576,
  DeltaTValue.mk 2459617.50 69.291661,
  DeltaTValue.mk 2459618.50 69.291588,
  DeltaTValue.mk 2459619.50 69.291294,
  DeltaTValue.mk 2459620.50 69.290813,
  DeltaTValue.mk 2459621.50 69.290122,
  DeltaTValue.mk 2459622.50 69.289248,
  DeltaTValue.mk 2459623.50 69.288413,
  DeltaTValue.mk 2459624.50 69.287644,
  DeltaTValue.mk 2459625.50 69.286993,
  DeltaTValue.mk 2459626.50 69.286541,
  DeltaTValue.mk 2459627.50 69.286276,
  DeltaTValue.mk 2459628.50 69.286271,
  DeltaTValue.mk 2459629.50 69.286465,
  DeltaTValue.mk 2459630.50 69.286814,
  DeltaTValue.mk 2459631.50 69.287212,
  DeltaTValue.mk 2459632.50 69.287512,
  DeltaTValue.mk 2459633.50 69.287723,
  DeltaTValue.mk 2459634.50 69.287697,
  DeltaTValue.mk 2459635.50 69.287470,
  DeltaTValue.mk 2459636.50 69.287080,
  DeltaTValue.mk 2459637.50 69.286644,
  DeltaTValue.mk 2459638.50 69.286326,
  DeltaTValue.mk 2459639.50 69.286147,
  DeltaTValue.mk 2459640.50 69.286156,
  DeltaTValue.mk 2459641.50 69.286457,
  DeltaTValue.mk 2459642.50 69.286866,
  DeltaTValue.mk 2459643.50 69.287245,
  DeltaTValue.mk 2459644.50 69.287543,
  DeltaTValue.mk 2459645.50 69.287798,
  DeltaTValue.mk 2459646.50 69.287656,
  DeltaTValue.mk 2459647.50 69.287367,
  DeltaTValue.mk 2459648.50 69.286917,
  DeltaTValue.mk 2459649.50 69.286304,
  DeltaTValue.mk 2459650.50 69.285652,
  DeltaTValue.mk 2459651.50 69.285009,
  DeltaTValue.mk 2459652.50 69.284351,
  DeltaTValue.mk 2459653.50 69.283798,
  DeltaTValue.mk 2459654.50 69.283473,
  DeltaTValue.mk 2459655.50 69.283393,
  DeltaTValue.mk 2459656.50 69.283522,
  DeltaTValue.mk 2459657.50 69.283819,
  DeltaTValue.mk 2459658.50 69.284203,
  DeltaTValue.mk 2459659.50 69.284543,
  DeltaTValue.mk 2459660.50 69.284715,
  DeltaTValue.mk 2459661.50 69.284663,
  DeltaTValue.mk 2459662.50 69.284398,
  DeltaTValue.mk 2459663.50 69.283971,
  DeltaTValue.mk 2459664.50 69.283464,
  DeltaTValue.mk 2459665.50 69.282981,
  DeltaTValue.mk 2459666.50 69.282642,
  DeltaTValue.mk 2459667.50 69.282504,
  DeltaTValue.mk 2459668.50 69.282582,
  DeltaTValue.mk 2459669.50 69.282820,
  DeltaTValue.mk 2459670.50 69.283153,
  DeltaTValue.mk 2459671.50 69.283471,
  DeltaTValue.mk 2459672.50 69.283681,
  DeltaTValue.mk 2459673.50 69.283739,
  DeltaTValue.mk 2459674.50 69.283614,
  DeltaTValue.mk 2459675.50 69.283316,
  DeltaTValue.mk 2459676.50 69.282872,
  DeltaTValue.mk 2459677.50 69.282338,
  DeltaTValue.mk 2459678.50 69.281782,
  DeltaTValue.mk 2459679.50 69.281277,
  DeltaTValue.mk 2459680.50 69.280890,
  DeltaTValue.mk 2459681.50 69.280683,
  DeltaTValue.mk 2459682.50 69.280700,
  DeltaTValue.mk 2459683.50 69.280953,
  DeltaTValue.mk 2459684.50 69.281406,
  DeltaTValue.mk 2459685.50 69.281974,
  DeltaTValue.mk 2459686.50 69.282543,
  DeltaTValue.mk 2459687.50 69.282982,
  DeltaTValue.mk 2459688.50 69.283191,
  DeltaTValue.mk 2459689.50 69.283138,
  DeltaTValue.mk 2459690.50 69.282865,
  DeltaTValue.mk 2459691.50 69.282479,
  DeltaTValue.mk 2459692.50 69.282103,
  DeltaTValue.mk 2459693.50 69.281842,
  DeltaTValue.mk 2459694.50 69.281766,
  DeltaTValue.mk 2459695.50 69.281894,
  DeltaTValue.mk 2459696.50 69.282190,
  DeltaTValue.mk 2459697.50 69.282584,
  DeltaTValue.mk 2459698.50 69.282985,
  DeltaTValue.mk 2459699.50 69.283308,
  DeltaTValue.mk 2459700.50 69.283483,
  DeltaTValue.mk 2459701.50 69.283471,
  DeltaTValue.mk 2459702.50 69.283262,
  DeltaTValue.mk 2459703.50 69.282881,
  DeltaTValue.mk 2459704.50 69.282371,
  DeltaTValue.mk 2459705.50 69.281797,
  DeltaTValue.mk 2459706.50 69.281234,
  DeltaTValue.mk 2459707.50 69.280752,
  DeltaTValue.mk 2459708.50 69.280417,
  DeltaTValue.mk 2459709.50 69.280277,
  DeltaTValue.mk 2459710.50 69.280360,
  DeltaTValue.mk 2459711.50 69.280660,
  DeltaTValue.mk 2459712.50 69.281125,
  DeltaTValue.mk 2459713.50 69.281653,
  DeltaTValue.mk 2459714.50 69.282108,
  DeltaTValue.mk 2459715.50 69.282368,
  DeltaTValue.mk 2459716.50 69.282359,
  DeltaTValue.mk 2459717.50 69.282086,
  DeltaTValue.mk 2459718.50 69.281632,
  DeltaTValue.mk 2459719.50 69.281123,
  DeltaTValue.mk 2459720.50 69.280684,
  DeltaTValue.mk 2459721.50 69.280396,
  DeltaTValue.mk 2459722.50 69.280285,
  DeltaTValue.mk 2459723.50 69.280321,
  DeltaTValue.mk 2459724.50 69.280432,
  DeltaTValue.mk 2459725.50 69.280534,
  DeltaTValue.mk 2459726.50 69.280543,
  DeltaTValue.mk 2459727.50 69.280392,
  DeltaTValue.mk 2459728.50 69.280038,
  DeltaTValue.mk 2459729.50 69.279469,
  DeltaTValue.mk 2459730.50 69.278700,
  DeltaTValue.mk 2459731.50 69.277769,
  DeltaTValue.mk 2459732.50 69.276735,
  DeltaTValue.mk 2459733.50 69.275668,
  DeltaTValue.mk 2459734.50 69.274642,
  DeltaTValue.mk 2459735.50 69.273724,
  DeltaTValue.mk 2459736.50 69.272964,
  DeltaTValue.mk 2459737.50 69.272389,
  DeltaTValue.mk 2459738.50 69.272005,
  DeltaTValue.mk 2459739.50 69.271783,
  DeltaTValue.mk 2459740.50 69.271656,
  DeltaTValue.mk 2459741.50 69.271517,
  DeltaTValue.mk 2459742.50 69.271242,
  DeltaTValue.mk 2459743.50 69.270731,
  DeltaTValue.mk 2459744.50 69.269949,
  DeltaTValue.mk 2459745.50 69.268948,
  DeltaTValue.mk 2459746.50 69.267848,
  DeltaTValue.mk 2459747.50 69.266790,
  DeltaTValue.mk 2459748.50 69.265884,
  DeltaTValue.mk 2459749.50 69.265173,
  DeltaTValue.mk 2459750.50 69.264630,
  DeltaTValue.mk 2459751.50 69.264182,
  DeltaTValue.mk 2459752.50 69.263737,
  DeltaTValue.mk 2459753.50 69.263209,
  DeltaTValue.mk 2459754.50 69.262531,
  DeltaTValue.mk 2459755.50 69.261662,
  DeltaTValue.mk 2459756.50 69.260584,
  DeltaTValue.mk 2459757.50 69.259308,
  DeltaTValue.mk 2459758.50 69.257867,
  DeltaTValue.mk 2459759.50 69.256315,
  DeltaTValue.mk 2459760.50 69.254721,
  DeltaTValue.mk 2459761.50 69.253160,
  DeltaTValue.mk 2459762.50 69.251699,
  DeltaTValue.mk 2459763.50 69.250389,
  DeltaTValue.mk 2459764.50 69.249236,
  DeltaTValue.mk 2459765.50 69.248274,
  DeltaTValue.mk 2459766.50 69.247481,
  DeltaTValue.mk 2459767.50 69.246804,
  DeltaTValue.mk 2459768.50 69.246162,
  DeltaTValue.mk 2459769.50 69.245451,
  DeltaTValue.mk 2459770.50 69.244572,
  DeltaTValue.mk 2459771.50 69.243466,
  DeltaTValue.mk 2459772.50 69.242143,
  DeltaTValue.mk 2459773.50 69.240693,
  DeltaTValue.mk 2459774.50 69.239254,
  DeltaTValue.mk 2459775.50 69.237962,
  DeltaTValue.mk 2459776.50 69.236899,
  DeltaTValue.mk 2459777.50 69.236068,
  DeltaTValue.mk 2459778.50 69.235397,
  DeltaTValue.mk 2459779.50 69.234779,
  DeltaTValue.mk 2459780.50 69.234106,
  DeltaTValue.mk 2459781.50 69.233295,
  DeltaTValue.mk 2459782.50 69.232301,
  DeltaTValue.mk 2459783.50 69.231107,
  DeltaTValue.mk 2459784.50 69.229725,
  DeltaTValue.mk 2459785.50 69.228188,
  DeltaTValue.mk 2459786.50 69.226546,
  DeltaTValue.mk 2459787.50 69.224866,
  DeltaTValue.mk 2459788.50 69.223220,
  DeltaTValue.mk 2459789.50 69.221679,
  DeltaTValue.mk 2459790.50 69.220299,
  DeltaTValue.mk 2459791.50 69.219117,
  DeltaTValue.mk 2459792.50 69.218139,
  DeltaTValue.mk 2459793.50 69.217342,
  DeltaTValue.mk 2459794.50 69.216673,
  DeltaTValue.mk 2459795.50 69.216057,
  DeltaTValue.mk 2459796.50 69.215404,
  DeltaTValue.mk 2459797.50 69.214626,
  DeltaTValue.mk 2459798.50 69.213663,
  DeltaTValue.mk 2459799.50 69.212504,
  DeltaTValue.mk 2459800.50 69.211207,
  DeltaTValue.mk 2459801.50 69.209890,
  DeltaTValue.mk 2459802.50 69.208693,
  DeltaTValue.mk 2459803.50 69.207729,
  DeltaTValue.mk 2459804.50 69.207043,
  DeltaTValue.mk 2459805.50 69.206593,
  DeltaTValue.mk 2459806.50 69.206278,
  DeltaTValue.mk 2459807.50 69.205969,
  DeltaTValue.mk 2459808.50 69.205555,
  DeltaTValue.mk 2459809.50 69.204966,
  DeltaTValue.mk 2459810.50 69.204173,
  DeltaTValue.mk 2459811.50 69.203186,
  DeltaTValue.mk 2459812.50 69.202037,
  DeltaTValue.mk 2459813.50 69.200780,
  DeltaTValue.mk 2459814.50 69.199480,
  DeltaTValue.mk 2459815.50 69.198210,
  DeltaTValue.mk 2459816.50 69.197040,
  DeltaTValue.mk 2459817.50 69.196034,
  DeltaTValue.mk 2459818.50 69.195234,
  DeltaTValue.mk 2459819.50 69.194656,
  DeltaTValue.mk 2459820.50 69.194281,
  DeltaTValue.mk 2459821.50 69.194055,
  DeltaTValue.mk 2459822.50 69.193896,
  DeltaTValue.mk 2459823.50 69.193709,
  DeltaTValue.mk 2459824.50 69.193406,
  DeltaTValue.mk 2459825.50 69.192925,
  DeltaTValue.mk 2459826.50 69.192252,
  DeltaTValue.mk 2459827.50 69.191428,
  DeltaTValue.mk 2459828.50 69.190549,
  DeltaTValue.mk 2459829.50 69.189745,
  DeltaTValue.mk 2459830.50 69.189138,
  DeltaTValue.mk 2459831.50 69.188803,
  DeltaTValue.mk 2459832.50 69.188740,
  DeltaTValue.mk 2459833.50 69.188873,
  DeltaTValue.mk 2459834.50 69.189077,
  DeltaTValue.mk 2459835.50 69.189220,
  DeltaTValue.mk 2459836.50 69.189199,
  DeltaTValue.mk 2459837.50 69.188955,
  DeltaTValue.mk 2459838.50 69.188478,
  DeltaTValue.mk 2459839.50 69.187793,
  DeltaTValue.mk 2459840.50 69.186947,
  DeltaTValue.mk 2459841.50 69.186004,
  DeltaTValue.mk 2459842.50 69.185033,
  DeltaTValue.mk 2459843.50 69.184107,
  DeltaTValue.mk 2459844.50 69.183293,
  DeltaTValue.mk 2459845.50 69.182647,
  DeltaTValue.mk 2459846.50 69.182206,
  DeltaTValue.mk 2459847.50 69.181978,
  DeltaTValue.mk 2459848.50 69.181930,
  DeltaTValue.mk 2459849.50 69.181992,
  DeltaTValue.mk 2459850.50 69.182061,
  DeltaTValue.mk 2459851.50 69.182030,
  DeltaTValue.mk 2459852.50 69.181822,
  DeltaTValue.mk 2459853.50 69.181408,
  DeltaTValue.mk 2459854.50 69.180821,
  DeltaTValue.mk 2459855.50 69.180148,
  DeltaTValue.mk 2459856.50 69.179511,
  DeltaTValue.mk 2459857.50 69.179030,
  DeltaTValue.mk 2459858.50 69.178795,
  DeltaTValue.mk 2459859.50 69.178837,
  DeltaTValue.mk 2459860.50 69.179117,
  DeltaTValue.mk 2459861.50 69.179542,
  DeltaTValue.mk 2459862.50 69.179988,
  DeltaTValue.mk 2459863.50 69.180339,
  DeltaTValue.mk 2459864.50 69.180512,
  DeltaTValue.mk 2459865.50 69.180474,
  DeltaTValue.mk 2459866.50 69.180240,
  DeltaTValue.mk 2459867.50 69.179852,
  DeltaTValue.mk 2459868.50 69.179370,
  DeltaTValue.mk 2459869.50 69.178855,
  DeltaTValue.mk 2459870.50 69.178368,
  DeltaTValue.mk 2459871.50 69.177966,
  DeltaTValue.mk 2459872.50 69.177700,
  DeltaTValue.mk 2459873.50 69.177618,
  DeltaTValue.mk 2459874.50 69.177753,
  DeltaTValue.mk 2459875.50 69.178080,
  DeltaTValue.mk 2459876.50 69.178524,
  DeltaTValue.mk 2459877.50 69.178997,
  DeltaTValue.mk 2459878.50 69.179409,
  DeltaTValue.mk 2459879.50 69.179661,
  DeltaTValue.mk 2459880.50 69.179647,
  DeltaTValue.mk 2459881.50 69.179440,
  DeltaTValue.mk 2459882.50 69.179147,
  DeltaTValue.mk 2459883.50 69.178839,
  DeltaTValue.mk 2459884.50 69.178689,
  DeltaTValue.mk 2459885.50 69.178765,
  DeltaTValue.mk 2459886.50 69.179078,
  DeltaTValue.mk 2459887.50 69.179560,
  DeltaTValue.mk 2459888.50 69.180251,
  DeltaTValue.mk 2459889.50 69.180939,
  DeltaTValue.mk 2459890.50 69.181591,
  DeltaTValue.mk 2459891.50 69.182143,
  DeltaTValue.mk 2459892.50 69.182537,
  DeltaTValue.mk 2459893.50 69.182797,
  DeltaTValue.mk 2459894.50 69.182963,
  DeltaTValue.mk 2459895.50 69.182941,
  DeltaTValue.mk 2459896.50 69.182871,
  DeltaTValue.mk 2459897.50 69.182799,
  DeltaTValue.mk 2459898.50 69.182798,
  DeltaTValue.mk 2459899.50 69.182908,
  DeltaTValue.mk 2459900.50 69.183166,
  DeltaTValue.mk 2459901.50 69.183645,
  DeltaTValue.mk 2459902.50 69.184284,
  DeltaTValue.mk 2459903.50 69.185091,
  DeltaTValue.mk 2459904.50 69.185971,
  DeltaTValue.mk 2459905.50 69.186816,
  DeltaTValue.mk 2459906.50 69.187592,
  DeltaTValue.mk 2459907.50 69.188170,
  DeltaTValue.mk 2459908.50 69.188480,
  DeltaTValue.mk 2459909.50 69.188619,
  DeltaTValue.mk 2459910.50 69.188728,
  DeltaTValue.mk 2459911.50 69.188863,
  DeltaTValue.mk 2459912.50 69.189086,
  DeltaTValue.mk 2459913.50 69.189476,
  DeltaTValue.mk 2459914.50 69.190079,
  DeltaTValue.mk 2459915.50 69.190776,
  DeltaTValue.mk 2459916.50 69.191438,
  DeltaTValue.mk 2459917.50 69.192002,
  DeltaTValue.mk 2459918.50 69.192349,
  DeltaTValue.mk 2459919.50 69.192523,
  DeltaTValue.mk 2459920.50 69.192473,
  DeltaTValue.mk 2459921.50 69.192236,
  DeltaTValue.mk 2459922.50 69.191761,
  DeltaTValue.mk 2459923.50 69.191188,
  DeltaTValue.mk 2459924.50 69.190565,
  DeltaTValue.mk 2459925.50 69.190041,
  DeltaTValue.mk 2459926.50 69.189460,
  DeltaTValue.mk 2459927.50 69.189057,
  DeltaTValue.mk 2459928.50 69.188893,
  DeltaTValue.mk 2459929.50 69.188897,
  DeltaTValue.mk 2459930.50 69.189047,
  DeltaTValue.mk 2459931.50 69.189230,
  DeltaTValue.mk 2459932.50 69.189486,
  DeltaTValue.mk 2459933.50 69.189583,
  DeltaTValue.mk 2459934.50 69.189462,
  DeltaTValue.mk 2459935.50 69.189151,
  DeltaTValue.mk 2459936.50 69.188724,
  DeltaTValue.mk 2459937.50 69.188213,
  DeltaTValue.mk 2459938.50 69.187815,
  DeltaTValue.mk 2459939.50 69.187647,
  DeltaTValue.mk 2459940.50 69.187695,
  DeltaTValue.mk 2459941.50 69.188032,
  DeltaTValue.mk 2459942.50 69.188549,
  DeltaTValue.mk 2459943.50 69.189089,
  DeltaTValue.mk 2459944.50 69.189585,
  DeltaTValue.mk 2459945.50 69.189898,
  DeltaTValue.mk 2459946.50 69.190091,
  DeltaTValue.mk 2459947.50 69.190062,
  DeltaTValue.mk 2459948.50 69.189799,
  DeltaTValue.mk 2459949.50 69.189434,
  DeltaTValue.mk 2459950.50 69.188907,
  DeltaTValue.mk 2459951.50 69.188384,
  DeltaTValue.mk 2459952.50 69.187887,
  DeltaTValue.mk 2459953.50 69.187448,
  DeltaTValue.mk 2459954.50 69.187210,
  DeltaTValue.mk 2459955.50 69.187152,
  DeltaTValue.mk 2459956.50 69.187287,
  DeltaTValue.mk 2459957.50 69.187619,
  DeltaTValue.mk 2459958.50 69.188074,
  DeltaTValue.mk 2459959.50 69.188521,
  DeltaTValue.mk 2459960.50 69.188904,
  DeltaTValue.mk 2459961.50 69.189138,
  DeltaTValue.mk 2459962.50 69.189164,
  DeltaTValue.mk 2459963.50 69.189012,
  DeltaTValue.mk 2459964.50 69.188785,
  DeltaTValue.mk 2459965.50 69.188596,
  DeltaTValue.mk 2459966.50 69.188547,
  DeltaTValue.mk 2459967.50 69.188706,
  DeltaTValue.mk 2459968.50 69.189143,
  DeltaTValue.mk 2459969.50 69.189811,
  DeltaTValue.mk 2459970.50 69.190595,
  DeltaTValue.mk 2459971.50 69.191341,
  DeltaTValue.mk 2459972.50 69.192088,
  DeltaTValue.mk 2459973.50 69.192529,
  DeltaTValue.mk 2459974.50 69.192783,
  DeltaTValue.mk 2459975.50 69.192774,
  DeltaTValue.mk 2459976.50 69.192617,
  DeltaTValue.mk 2459977.50 69.192325,
  DeltaTValue.mk 2459978.50 69.191929,
  DeltaTValue.mk 2459979.50 69.191506,
  DeltaTValue.mk 2459980.50 69.191085,
  DeltaTValue.mk 2459981.50 69.190879,
  DeltaTValue.mk 2459982.50 69.190751,
  DeltaTValue.mk 2459983.50 69.190744,
  DeltaTValue.mk 2459984.50 69.190887,
  DeltaTValue.mk 2459985.50 69.191177,
  DeltaTValue.mk 2459986.50 69.191456,
  DeltaTValue.mk 2459987.50 69.191643,
  DeltaTValue.mk 2459988.50 69.191700,
  DeltaTValue.mk 2459989.50 69.191568,
  DeltaTValue.mk 2459990.50 69.191301,
  DeltaTValue.mk 2459991.50 69.190958,
  DeltaTValue.mk 2459992.50 69.190596,
  DeltaTValue.mk 2459993.50 69.190337,
  DeltaTValue.mk 2459994.50 69.190344,
  DeltaTValue.mk 2459995.50 69.190681,
  DeltaTValue.mk 2459996.50 69.191332,
  DeltaTValue.mk 2459997.50 69.192052,
  DeltaTValue.mk 2459998.50 69.192817,
  DeltaTValue.mk 2459999.50 69.193531,
  DeltaTValue.mk 2460000.50 69.194159,
  DeltaTValue.mk 2460001.50 69.194486,
  DeltaTValue.mk 2460002.50 69.194585,
  DeltaTValue.mk 2460003.50 69.194543,
  DeltaTValue.mk 2460004.50 69.194305,
  DeltaTValue.mk 2460005.50 69.194021,
  DeltaTValue.mk 2460006.50 69.193719,
  DeltaTValue.mk 2460007.50 69.193466,
  DeltaTValue.mk 2460008.50 69.193308,
  DeltaTValue.mk 2460009.50 69.193310,
  DeltaTValue.mk 2460010.50 69.193446,
  DeltaTValue.mk 2460011.50 69.193825,
  DeltaTValue.mk 2460012.50 69.194306,
  DeltaTValue.mk 2460013.50 69.194842,
  DeltaTValue.mk 2460014.50 69.195397,
  DeltaTValue.mk 2460015.50 69.195819,
  DeltaTValue.mk 2460016.50 69.196140,
  DeltaTValue.mk 2460017.50 69.196213,
  DeltaTValue.mk 2460018.50 69.196011,
  DeltaTValue.mk 2460019.50 69.195689,
  DeltaTValue.mk 2460020.50 69.195380,
  DeltaTValue.mk 2460021.50 69.195185,
  DeltaTValue.mk 2460022.50 69.195223,
  DeltaTValue.mk 2460023.50 69.195522,
  DeltaTValue.mk 2460024.50 69.196079,
  DeltaTValue.mk 2460025.50 69.196783,
  DeltaTValue.mk 2460026.50 69.197422,
  DeltaTValue.mk 2460027.50 69.197947,
  DeltaTValue.mk 2460028.50 69.198219,
  DeltaTValue.mk 2460036.75 69.82,
  DeltaTValue.mk 2460128.00 69.87,
  DeltaTValue.mk 2460219.25 69.89,
  DeltaTValue.mk 2460310.50 69.97,
  DeltaTValue.mk 2460402.00 70.05,
  DeltaTValue.mk 2460493.50 70.11,
  DeltaTValue.mk 2460585.00 70.12,
  DeltaTValue.mk 2460676.50 70.20,
  DeltaTValue.mk 2460767.75 70.29,
  DeltaTValue.mk 2460859.00 70.34,
  DeltaTValue.mk 2460950.25 70.35,
  DeltaTValue.mk 2461041.50 70.43,
  DeltaTValue.mk 2461132.75 70.52,
  DeltaTValue.mk 2461224.00 70.57,
  DeltaTValue.mk 2461315.25 70.59,
  DeltaTValue.mk 2461406.50 70.67,
  DeltaTValue.mk 2461497.75 70.75,
  DeltaTValue.mk 2461589.00 70.81,
  DeltaTValue.mk 2461680.25 70.83,
  DeltaTValue.mk 2461771.50 70.91,
  DeltaTValue.mk 2461863.00 71.00,
  DeltaTValue.mk 2461954.50 71.07,
  DeltaTValue.mk 2462046.00 71.09,
  DeltaTValue.mk 2462137.50 71.18,
  DeltaTValue.mk 2462228.75 71.27,
  DeltaTValue.mk 2462320.00 71.34,
  DeltaTValue.mk 2462411.25 71.36,
  DeltaTValue.mk 2462502.50 71.46,
  DeltaTValue.mk 2462593.75 71.56,
  DeltaTValue.mk 2462685.00 71.63,
  DeltaTValue.mk 2462776.25 71.66,
  DeltaTValue.mk 2462867.50 71.76,
  DeltaTValue.mk 2462958.75 71.86,
  DeltaTValue.mk 2463050.00 71.94,
  DeltaTValue.mk 2463141.25 71.97,
  DeltaTValue.mk 2463232.50 72.07
]

/-- The source's `struct LeapSecondCoefficient`. -/
structure LeapSecondCoefficient where
  JD : ℚ
  LeapSeconds : ℚ
  BaseMJD : ℚ
  Coefficient : ℚ
deriving DecidableEq

/-- The source's table `g_LeapSecondCoefficients`. -/
def g_LeapSecondCoefficients : List LeapSecondCoefficient := [
  LeapSecondCoefficient.mk 2437300.5 1.4228180 37300 0.001296,
  LeapSecondCoefficient.mk 2437512.5 1.3728180 37300 0.001296,
  LeapSecondCoefficient.mk 2437665.5 1.8458580 37665 0.0011232,
  LeapSecondCoefficient.mk 2438334.5 1.9458580 37665 0.0011232,
  LeapSecondCoefficient.mk 2438395.5 3.2401300 38761 0.001296,
  LeapSecondCoefficient.mk 2438486.5 3.3401300 38761 0.001296,
  LeapSecondCoefficient.mk 2438639.5 3.4401300 38761 0.001296,
  LeapSecondCoefficient.mk 2438761.5 3.5401300 38761 0.001296,
  LeapSecondCoefficient.mk 2438820.5 3.6401300 38761 0.001296,
  LeapSecondCoefficient.mk 2438942.5 3.7401300 38761 0.001296,
  LeapSecondCoefficient.mk 2439004.5 3.8401300 38761 0.001296,
  LeapSecondCoefficient.mk 2439126.5 4.3131700 39126 0.002592,
  LeapSecondCoefficient.mk 2439887.5 4.2131700 39126 0.002592,
  LeapSecondCoefficient.mk 2441317.5 10.0 41317 0.0,
  LeapSecondCoefficient.mk 2441499.5 11.0 41317 0.0,
  LeapSecondCoefficient.mk 2441683.5 12.0 41317 0.0,
  LeapSecondCoefficient.mk 2442048.5 13.0 41317 0.0,
  LeapSecondCoefficient.mk 2442413.5 14.0 41317 0.0,
  LeapSecondCoefficient.mk 2442778.5 15.0 41317 0.0,
  LeapSecondCoefficient.mk 2443144.5 16.0 41317 0.0,
  LeapSecondCoefficient.mk 2443509.5 17.0 41317 0.0,
  LeapSecondCoefficient.mk 2443874.5 18.0 41317 0.0,
  LeapSecondCoefficient.mk 2444239.5 19.0 41317 0.0,
  LeapSecondCoefficient.mk 2444786.5 20.0 41317 0.0,
  LeapSecondCoefficient.mk 2445151.5 21.0 41317 0.0,
  LeapSecondCoefficient.mk 2445516.5 22.0 41317 0.0,
  LeapSecondCoefficient.mk 2446247.5 23.0 41317 0.0,
  LeapSecondCoefficient.mk 2447161.5 24.0 41317 0.0,
  LeapSecondCoefficient.mk 2447892.5 25.0 41317 0.0,
  LeapSecondCoefficient.mk 2448257.5 26.0 41317 0.0,
  LeapSecondCoefficient.mk 2448804.5 27.0 41317 0.0,
  LeapSecondCoefficient.mk 2449169.5 28.0 41317 0.0,
  LeapSecondCoefficient.mk 2449534.5 29.0 41317 0.0,
  LeapSecondCoefficient.mk 2450083.5 30.0 41317 0.0,
  LeapSecondCoefficient.mk 2450630.5 31.0 41317 0.0,
  LeapSecondCoefficient.mk 2451179.5 32.0 41317 0.0,
  LeapSecondCoefficient.mk 2453736.5 33.0 41317 0.0,
  LeapSecondCoefficient.mk 2454832.5 34.0 41317 0.0,
  LeapSecondCoefficient.mk 2456109.5 35.0 41317 0.0,
  LeapSecondCoefficient.mk 2457204.5 36.0 41317 0.0,
  LeapSecondCoefficient.mk 2457754.5 37.0 41317 0.0
]

/-- The value of `n - 1` for a `size_t` value `n`: unsigned 64-bit arithmetic, so that
`0 - 1` is `2^64 - 1`. -/
def size_t_pred (n : Nat) : Nat := (n + 18446744073709551615) % 18446744073709551616

/-- The `while (!bFound)` loop of `DeltaT`, over a table `tbl`, from the loop state
`nFoundIndex`. A table read outside the table (the loop's `assert` fails) is `none`. -/
def DeltaT.scan (tbl : List DeltaTValue) (JD : ℚ) : Nat → Nat → Option ℚ
  | 0, _ => none
  | fuel + 1, nFoundIndex =>
    match tbl[nFoundIndex]? with
    | none => none
    | some hi =>
      if hi.JD > JD then
        match tbl[size_t_pred nFoundIndex]? with
        | none => none
        | some lo =>
          some ((JD - lo.JD) / (hi.JD - lo.JD) * (hi.DeltaT - lo.DeltaT) + lo.DeltaT)
      else
        DeltaT.scan tbl JD fuel (nFoundIndex + 1)

/-- The polynomial expressions of `DeltaT` (Espenak and Meeus 2006), the `else` branch of
the source, as a function of the fractional year `y`. -/
def DeltaT.polynomial (y : ℚ) : ℚ :=
  if y < -500 then
    let u := (y - 1820)/100.0
    let u2 := u*u;
    -20 + (32*u2)
  else if y < 500 then
    let u := y/100.0
    let u2 := u*u
    let u3 := u2*u
    let u4 := u3*u
    let u5 := u4*u
    let u6 := u5*u
    10583.6 + (-1014.41*u) + (33.78311*u2) + (-5.952053*u3) + (-0.1798452*u4) + (0.022174192*u5) + (0.0090316521*u6)
  else if y < 1600 then
    let u := (y - 1000)/100.0
    let u2 := u*u
    let u3 := u2*u
    let u4 := u3*u
    let u5 := u4*u
    let u6 := u5*u
    1574.2 + (-556.01*u) + (71.23472*u2) + (0.319781*u3) + (-0.8503463*u4) + (-0.005050998*u5) + (0.0083572073*u6)
  else if y < 1700 then
    let u := (y - 1600)/100.0
    let u2 := u*u
    let u3 := u2*u
    120 + (-98.08*u) + (-153.2*u2) + (u3/0.007129)
  else if y < 1800 then
    let u := (y - 1700)/100.0
    let u2 := u*u
    let u3 := u2*u
    let u4 := u3*u
    8.83 + (16.03*u) + (-59.285*u2) + (133.36*u3) + (-u4/0.01174)
  else if y < 1860 then
    let u := (y - 1800)/100.0
    let u2 := u*u
    let u3 := u2*u
    let u4 := u3*u
    let u5 := u4*u
    let u6 := u5*u
    let u7 := u6*u
    13.72 + (-33.2447*u) + (68.612*u2) + (4111.6*u3) + (-37436*u4) + (121272*u5) + (-169900*u6) + (87500*u7)
  else if y < 1900 then
    let u := (y - 1860)/100.0
    let u2 := u*u
    let u3 := u2*u
    let u4 := u3*u
    let u5 := u4*u
    7.62 + (57.37*u) + (-2517.54*u2) + (16806.68*u3) + (-44736.24*u4) + (u5/0.0000233174)
  else if y < 1920 then
    let u := (y - 1900)/100.0
    let u2 := u*u
    let u3 := u2*u
    let u4 := u3*u;
    -2.79 + (149.4119*u) + (-598.939*u2) + (6196.6*u3) + (-19700*u4)
  else if y < 1941 then
    let u := (y - 1920)/100.0
    let u2 := u*u
    let u3 := u2*u
    21.20 + (84.493*u) + (-761.00*u2) + (2093.6*u3)
  else if y < 1961 then
    let u := (y - 1950)/100.0
    let u2 := u*u
    let u3 := u2*u
    29.07 + (40.7*u) + (-u2/0.0233) + (u3/0.002547)
  else if y < 1986 then
    let u := (y - 1975)/100.0
    let u2 := u*u
    let u3 := u2*u
    45.45 + 106.7*u - u2/0.026 - u3/0.000718
  else if y < 2005 then
    let u := (y - 2000)/100.0
    let u2 := u*u
    let u3 := u2*u
    let u4 := u3*u
    let u5 := u4*u
    63.86 + (33.45*u) + (-603.74*u2) + (1727.5*u3) + (65181.4*u4) + (237359.9*u5)
  else if y < 2050 then
    let u := (y - 2000)/100.0
    let u2 := u*u
    62.92 + (32.217*u) + (55.89*u2)
  else if y < 2150 then
    let u := (y - 1820)/100.0
    let u2 := u*u;
    -205.72 + (56.28*u) + (32*u2)
  else
    let u := (y - 1820)/100.0
    let u2 := u*u;
    -20 + (32*u2)

/-- The source's `CAADynamicalTime::DeltaT`. `FractionalYear JD` stands for
`CAADate(JD, CAADate::AfterPapalReform(JD)).FractionalYear()`. -/
def DeltaT (FractionalYear : ℚ → ℚ) (JD : ℚ) : Option ℚ :=
  let nLookupElements := g_DeltaTValues.length
  match g_DeltaTValues[0]?, g_DeltaTValues[size_t_pred nLookupElements]? with
  | some first, some last =>
    if (JD ≥ first.JD) ∧ (JD < last.JD) then
      DeltaT.scan g_DeltaTValues JD (nLookupElements + 1) 0
    else
      some (DeltaT.polynomial (FractionalYear JD))
  | _, _ => none

/-- The `while (bContinue)` loop of `CumulativeLeapSeconds`, over a table `tbl`, from the
loop state `nIndex`. -/
def CumulativeLeapSeconds.scan (tbl : List LeapSecondCoefficient) (JD : ℚ) :
    Nat → Nat → Option ℚ
  | 0, _ => none
  | fuel + 1, nIndex =>
    if nIndex ≥ tbl.length then
      match tbl[size_t_pred tbl.length]? with
      | none => none
      | some e => some (e.LeapSeconds + (JD - 2400000.5 - e.BaseMJD) * e.Coefficient)
    else
      match tbl[nIndex]? with
      | none => none
      | some next =>
        if JD < next.JD then
          match tbl[size_t_pred nIndex]? with
          | none => none
          | some e => some (e.LeapSeconds + (JD - 2400000.5 - e.BaseMJD) * e.Coefficient)
        else
          CumulativeLeapSeconds.scan tbl JD fuel (nIndex + 1)

/-- The source's `CAADynamicalTime::CumulativeLeapSeconds`. -/
def CumulativeLeapSeconds (JD : ℚ) : Option ℚ :=
  let nLookupElements := g_LeapSecondCoefficients.length
  match g_LeapSecondCoefficients[0]? with
  | none => none
  | some first =>
    if JD ≥ first.JD then
      CumulativeLeapSeconds.scan g_LeapSecondCoefficients JD (nLookupElements + 1) 1
    else
      some 0

/-- The source's `CAADynamicalTime::TT2UT1`. -/
def TT2UT1 (FractionalYear : ℚ → ℚ) (JD : ℚ) : Option ℚ :=
  match DeltaT FractionalYear JD with
  | none => none
  | some DT => some (JD - (DT / 86400.0))

/-- The source's `CAADynamicalTime::UT12TT`. -/
def UT12TT (FractionalYear : ℚ → ℚ) (JD : ℚ) : Option ℚ :=
  match DeltaT FractionalYear JD with
  | none => none
  | some DT => some (JD + (DT / 86400.0))

/-- The test of the `if` that opens `TT2UTC`,
`(JD < g_LeapSecondCoefficients[0].JD) || (JD > (g_LeapSecondCoefficients[nLookupElements - 1].JD + 500))`:
`true` outside of the range 1 January 1961 to 500 days after the last leap second. -/
def TT2UTC.outOfRange (JD : ℚ) : Option Bool :=
  let nLookupElements := g_LeapSecondCoefficients.length
  match g_LeapSecondCoefficients[0]?, g_LeapSecondCoefficients[size_t_pred nLookupElements]? with
  | some first, some last => some (decide (JD < first.JD) || decide (JD > (last.JD + 500)))
  | _, _ => none

/-- The source's `CAADynamicalTime::TT2UTC`: when its test holds it returns `TT2UT1(JD)`. -/
def TT2UTC (FractionalYear : ℚ → ℚ) (JD : ℚ) : Option ℚ :=
  match TT2UTC.outOfRange JD with
  | none => none
  | some true => TT2UT1 FractionalYear JD
  | some false =>
    match DeltaT FractionalYear JD, CumulativeLeapSeconds JD with
    | some DT, some LeapSeconds =>
      let UT1 := JD - (DT / 86400.0)
      some (((DT - LeapSeconds - 32.184) / 86400.0) + UT1)
    | _, _ => none

/-- The test of the `if` that opens `UTC2TT`,
`(JD < g_LeapSecondCoefficients[0].JD) || (JD >(g_LeapSecondCoefficients[nLookupElements - 1].JD + 500))`. -/
def UTC2TT.outOfRange (JD : ℚ) : Option Bool :=
  let nLookupElements := g_LeapSecondCoefficients.length
  match g_LeapSecondCoefficients[0]?, g_LeapSecondCoefficients[size_t_pred nLookupElements]? with
  | some first, some last => some (decide (JD < first.JD) || decide (JD > (last.JD + 500)))
  | _, _ => none

/-- The source's `CAADynamicalTime::UTC2TT`: when its test holds it returns `UT12TT(JD)`. -/
def UTC2TT (FractionalYear : ℚ → ℚ) (JD : ℚ) : Option ℚ :=
  match UTC2TT.outOfRange JD with
  | none => none
  | some true => UT12TT FractionalYear JD
  | some false =>
    match DeltaT FractionalYear JD, CumulativeLeapSeconds JD with
    | some DT, some LeapSeconds =>
      let UT1 := JD - ((DT - LeapSeconds - 32.184) / 86400.0)
      some (UT1 + (DT / 86400.0))
    | _, _ => none

/-- The source's `CAADynamicalTime::UT1MinusUTC`. -/
def UT1MinusUTC (FractionalYear : ℚ → ℚ) (JD : ℚ) : Option ℚ :=
  match DeltaT FractionalYear JD, CumulativeLeapSeconds JD with
  | some DT, some LeapSeconds =>
    let JDUTC := JD + ((DT - LeapSeconds - 32.184) / 86400)
    some ((JD - JDUTC) * 86400)
  | _, _ => none

/-- Every number of the list is strictly below the next one. -/
def strictlyAscending : List ℚ → Bool
  | [] => true
  | [_] => true
  | a :: b :: rest => decide (a < b) && strictlyAscending (b :: rest)

/-- The `while (!bFound)` loop of `DeltaT`, over a table `tbl`, from the loop state
`nFoundIndex`: the value of `nFoundIndex` when the loop ends with `bFound` set. A failed
`assert(nFoundIndex < nLookupElements)` is `none`. -/
def DeltaT.foundIndex (tbl : List DeltaTValue) (JD : ℚ) : Nat → Nat → Option Nat
  | 0, _ => none
  | fuel + 1, nFoundIndex =>
    match tbl[nFoundIndex]? with
    | none => none
    | some hi =>
      if hi.JD > JD then
        some nFoundIndex
      else
        DeltaT.foundIndex tbl JD fuel (nFoundIndex + 1)

/-- The `while (!bFound)` loop of `DeltaT`: the values of `nFoundIndex` at the `assert` of
the successive iterations, up to the iteration that sets `bFound` or fails the `assert`. -/
def DeltaT.visited (tbl : List DeltaTValue) (JD : ℚ) : Nat → Nat → List Nat
  | 0, _ => []
  | fuel + 1, nFoundIndex =>
    match tbl[nFoundIndex]? with
    | none => [nFoundIndex]
    | some hi =>
      if hi.JD > JD then
        [nFoundIndex]
      else
        nFoundIndex :: DeltaT.visited tbl JD fuel (nFoundIndex + 1)

/-- The branch of the `if` chain of the polynomial expressions of `DeltaT` that is taken for
the fractional year `y`, numbered from `0` (`y < -500`) to `14` (the final `else`). -/
def DeltaT.regime (y : ℚ) : Nat :=
  if y < -500 then 0
  else if y < 500 then 1
  else if y < 1600 then 2
  else if y < 1700 then 3
  else if y < 1800 then 4
  else if y < 1860 then 5
  else if y < 1900 then 6
  else if y < 1920 then 7
  else if y < 1941 then 8
  else if y < 1961 then 9
  else if y < 1986 then 10
  else if y < 2005 then 11
  else if y < 2050 then 12
  else if y < 2150 then 13
  else 14

/-- The values of `y` tested by the `if` chain of the polynomial expressions of `DeltaT`, in
the order of the chain. -/
def DeltaT.breakpoints : List ℚ :=
  [-500, 500, 1600, 1700, 1800, 1860, 1900, 1920, 1941, 1961, 1986, 2005, 2050, 2150]

/-- The expression assigned to `Delta` in the branch number `k` of the `if` chain of the
polynomial expressions of `DeltaT`, as a function of the fractional year `y`. -/
def DeltaT.regimePolynomial (k : Nat) (y : ℚ) : ℚ :=
  match k with
  | 0 =>
    let u := (y - 1820)/100.0
    let u2 := u*u;
    -20 + (32*u2)
  | 1 =>
    let u := y/100.0
    let u2 := u*u
    let u3 := u2*u
    let u4 := u3*u
    let u5 := u4*u
    let u6 := u5*u
    10583.6 + (-1014.41*u) + (33.78311*u2) + (-5.952053*u3) + (-0.1798452*u4) + (0.022174192*u5) + (0.0090316521*u6)
  | 2 =>
    let u := (y - 1000)/100.0
    let u2 := u*u
    let u3 := u2*u
    let u4 := u3*u
    let u5 := u4*u
    let u6 := u5*u
    1574.2 + (-556.01*u) + (71.23472*u2) + (0.319781*u3) + (-0.8503463*u4) + (-0.005050998*u5) + (0.0083572073*u6)
  | 3 =>
    let u := (y - 1600)/100.0
    let u2 := u*u
    let u3 := u2*u
    120 + (-98.08*u) + (-153.2*u2) + (u3/0.007129)
  | 4 =>
    let u := (y - 1700)/100.0
    let u2 := u*u
    let u3 := u2*u
    let u4 := u3*u
    8.83 + (16.03*u) + (-59.285*u2) + (133.36*u3) + (-u4/0.01174)
  | 5 =>
    let u := (y - 1800)/100.0
    let u2 := u*u
    let u3 := u2*u
    let u4 := u3*u
    let u5 := u4*u
    let u6 := u5*u
    let u7 := u6*u
    13.72 + (-33.2447*u) + (68.612*u2) + (4111.6*u3) + (-37436*u4) + (121272*u5) + (-169900*u6) + (87500*u7)
  | 6 =>
    let u := (y - 1860)/100.0
    let u2 := u*u
    let u3 := u2*u
    let u4 := u3*u
    let u5 := u4*u
    7.62 + (57.37*u) + (-2517.54*u2) + (16806.68*u3) + (-44736.24*u4) + (u5/0.0000233174)
  | 7 =>
    let u := (y - 1900)/100.0
    let u2 := u*u
    let u3 := u2*u
    let u4 := u3*u;
    -2.79 + (149.4119*u) + (-598.939*u2) + (6196.6*u3) + (-19700*u4)
  | 8 =>
    let u := (y - 1920)/100.0
    let u2 := u*u
    let u3 := u2*u
    21.20 + (84.493*u) + (-761.00*u2) + (2093.6*u3)
  | 9 =>
    let u := (y - 1950)/100.0
    let u2 := u*u
    let u3 := u2*u
    29.07 + (40.7*u) + (-u2/0.0233) + (u3/0.002547)
  | 10 =>
    let u := (y - 1975)/100.0
    let u2 := u*u
    let u3 := u2*u
    45.45 + 106.7*u - u2/0.026 - u3/0.000718
  | 11 =>
    let u := (y - 2000)/100.0
    let u2 := u*u
    let u3 := u2*u
    let u4 := u3*u
    let u5 := u4*u
    63.86 + (33.45*u) + (-603.74*u2) + (1727.5*u3) + (65181.4*u4) + (237359.9*u5)
  | 12 =>
    let u := (y - 2000)/100.0
    let u2 := u*u
    62.92 + (32.217*u) + (55.89*u2)
  | 13 =>
    let u := (y - 1820)/100.0
    let u2 := u*u;
    -205.72 + (56.28*u) + (32*u2)
  | _ =>
    let u := (y - 1820)/100.0
    let u2 := u*u;
    -20 + (32*u2)

/-- The check behind the bound on `UT1MinusUTC`: a walk along the rows of the delta-T table,
`c` being the leap seconds of the last row of the leap-second table not after the current
row `lo`, and `leaps` the rows of the leap-second table that follow it. At each interval
`[lo.JD, hi.JD)`: the next row of the leap-second table, when it is not after `lo`, becomes
the current one; the one after it is not before `hi`; and with the current leap seconds
`LeapSeconds + 32.184 - DeltaT` is strictly between `-0.9` and `0.9` at both tabulated values
of `DeltaT`. -/
def UT1MinusUTC.check : List LeapSecondCoefficient → ℚ → List DeltaTValue → Bool
  | leaps, c, lo :: hi :: rest =>
    match leaps with
    | r :: rs =>
      if r.JD ≤ lo.JD then
        (match rs with
          | [] => true
          | r2 :: _ => decide (hi.JD ≤ r2.JD)) &&
        decide (r.Coefficient = 0) && decide (lo.JD ≤ hi.JD) &&
        decide (-0.9 < r.LeapSeconds + 32.184 - max lo.DeltaT hi.DeltaT) &&
        decide (r.LeapSeconds + 32.184 - min lo.DeltaT hi.DeltaT < 0.9) &&
        UT1MinusUTC.check rs r.LeapSeconds (hi :: rest)
      else
        decide (hi.JD ≤ r.JD) && decide (lo.JD ≤ hi.JD) &&
        decide (-0.9 < c + 32.184 - max lo.DeltaT hi.DeltaT) &&
        decide (c + 32.184 - min lo.DeltaT hi.DeltaT < 0.9) &&
        UT1MinusUTC.check leaps c (hi :: rest)
    | [] =>
      decide (lo.JD ≤ hi.JD) &&
      decide (-0.9 < c + 32.184 - max lo.DeltaT hi.DeltaT) &&
      decide (c + 32.184 - min lo.DeltaT hi.DeltaT < 0.9) &&
      UT1MinusUTC.check [] c (hi :: rest)
  | _, _, _ => true

/-- The branch of the `if` chain of the polynomial expressions that a call of `DeltaT`
evaluates, numbered as in `DeltaT.regime`: `none` when the test of the lookup table holds and
the call is answered from the table, without a call of `FractionalYear`. -/
def DeltaT.evaluatedRegime (FractionalYear : ℚ → ℚ) (JD : ℚ) : Option Nat :=
  let nLookupElements := g_DeltaTValues.length
  match g_DeltaTValues[0]?, g_DeltaTValues[size_t_pred nLookupElements]? with
  | some first, some last =>
    if (JD ≥ first.JD) ∧ (JD < last.JD) then none
    else some (DeltaT.regime (FractionalYear JD))
  | _, _ => none

/-- The integer nearest to `n / d`; when two integers are equally near, the even one. -/
def Double.nearestEven (n d : Nat) : Nat :=
  let q := n / d
  let r := n % d
  if 2 * r < d then q
  else if 2 * r > d then q + 1
  else if q % 2 = 0 then q
  else q + 1

/-- The number of halvings that take `n` below 2: for `0 < n` and `fuel ≥ n`, the greatest `k`
with `2 ^ k ≤ n`. -/
def Double.log2 : Nat → Nat → Nat
  | 0, _ => 0
  | fuel + 1, n => if n < 2 then 0 else Double.log2 fuel (n / 2) + 1

/-- Rounding of a rational number to IEEE 754 binary64, to nearest, ties to even: with `e` the
exponent of `x` (`2 ^ e ≤ |x| < 2 ^ (e + 1)`, and `e = -1022` below that), the result is the
multiple of `2 ^ (e - 52)` nearest to `x`. A result of magnitude `2 ^ 1024` or more, which is
an infinity in the source, is not told apart from a finite one. -/
def Double.round (x : ℚ) : ℚ :=
  if x = 0 then 0
  else
    let n := x.num.natAbs
    let d := x.den
    let e0 : Int := (Double.log2 n n : Int) - (Double.log2 d d : Int)
    let above : Bool :=
      if e0 ≥ 0 then decide (2 ^ e0.toNat * d ≤ n) else decide (d ≤ n * 2 ^ (-e0).toNat)
    let e : Int := if above then e0 else e0 - 1
    let p : Int := max e (-1022) - 52
    let v : ℚ :=
      if p ≥ 0 then ((Double.nearestEven n (d * 2 ^ p.toNat) * 2 ^ p.toNat : Nat) : ℚ)
      else ((Double.nearestEven (n * 2 ^ (-p).toNat) d : Nat) : ℚ) / ((2 ^ (-p).toNat : Nat) : ℚ)
    if x.num < 0 then -v else v

/-- The source's `double` with its rounding: a value of the type is the rational number that
a finite binary64 holds, and every literal and every arithmetic operation is rounded to
binary64 (`Double.round`). -/
structure Double where
  val : ℚ
deriving DecidableEq

/-- The `double` nearest to a rational number: the value of a decimal literal of the source
or of an entry of a table. -/
def Double.ofRat (x : ℚ) : Double := Double.mk (Double.round x)

instance : OfScientific Double :=
  ⟨fun m s e => Double.ofRat (OfScientific.ofScientific m s e)⟩

instance (n : Nat) : OfNat Double n := ⟨Double.ofRat n⟩

instance : Add Double := ⟨fun a b => Double.ofRat (a.val + b.val)⟩

instance : Sub Double := ⟨fun a b => Double.ofRat (a.val - b.val)⟩

instance : Mul Double := ⟨fun a b => Double.ofRat (a.val * b.val)⟩

instance : Div Double := ⟨fun a b => Double.ofRat (a.val / b.val)⟩

instance : Neg Double := ⟨fun a => Double.mk (-a.val)⟩

instance : LT Double := ⟨fun a b => a.val < b.val⟩

instance : LE Double := ⟨fun a b => a.val ≤ b.val⟩

instance (a b : Double) : Decidable (a < b) := inferInstanceAs (Decidable (a.val < b.val))

instance (a b : Double) : Decidable (a ≤ b) := inferInstanceAs (Decidable (a.val ≤ b.val))

/-- The `while (!bFound)` loop of `DeltaT` in `double` arithmetic: `DeltaT.scan` with every
entry of the table, and every operation of the interpolation, rounded to binary64. -/
def Rounded.DeltaT.scan (tbl : List DeltaTValue) (JD : Double) : Nat → Nat → Option Double
  | 0, _ => none
  | fuel + 1, nFoundIndex =>
    match tbl[nFoundIndex]? with
    | none => none
    | some hi =>
      if Double.ofRat hi.JD > JD then
        match tbl[size_t_pred nFoundIndex]? with
        | none => none
        | some lo =>
          some ((JD - Double.ofRat lo.JD) / (Double.ofRat hi.JD - Double.ofRat lo.JD) *
            (Double.ofRat hi.DeltaT - Double.ofRat lo.DeltaT) + Double.ofRat lo.DeltaT)
      else
        Rounded.DeltaT.scan tbl JD fuel (nFoundIndex + 1)

/-- The polynomial expressions of `DeltaT` in `double` arithmetic: the text of
`DeltaT.polynomial`, every literal and every operation rounded to binary64. -/
def Rounded.DeltaT.polynomial (y : Double) : Double :=
  if y < -500 then
    let u := (y - 1820)/100.0
    let u2 := u*u;
    -20 + (32*u2)
  else if y < 500 then
    let u := y/100.0
    let u2 := u*u
    let u3 := u2*u
    let u4 := u3*u
    let u5 := u4*u
    let u6 := u5*u
    10583.6 + (-1014.41*u) + (33.78311*u2) + (-5.952053*u3) + (-0.1798452*u4) + (0.022174192*u5) + (0.0090316521*u6)
  else if y < 1600 then
    let u := (y - 1000)/100.0
    let u2 := u*u
    let u3 := u2*u
    let u4 := u3*u
    let u5 := u4*u
    let u6 := u5*u
    1574.2 + (-556.01*u) + (71.23472*u2) + (0.319781*u3) + (-0.8503463*u4) + (-0.005050998*u5) + (0.0083572073*u6)
  else if y < 1700 then
    let u := (y - 1600)/100.0
    let u2 := u*u
    let u3 := u2*u
    120 + (-98.08*u) + (-153.2*u2) + (u3/0.007129)
  else if y < 1800 then
    let u := (y - 1700)/100.0
    let u2 := u*u
    let u3 := u2*u
    let u4 := u3*u
    8.83 + (16.03*u) + (-59.285*u2) + (133.36*u3) + (-u4/0.01174)
  else if y < 1860 then
    let u := (y - 1800)/100.0
    let u2 := u*u
    let u3 := u2*u
    let u4 := u3*u
    let u5 := u4*u
    let u6 := u5*u
    let u7 := u6*u
    13.72 + (-33.2447*u) + (68.612*u2) + (4111.6*u3) + (-37436*u4) + (121272*u5) + (-169900*u6) + (87500*u7)
  else if y < 1900 then
    let u := (y - 1860)/100.0
    let u2 := u*u
    let u3 := u2*u
    let u4 := u3*u
    let u5 := u4*u
    7.62 + (57.37*u) + (-2517.54*u2) + (16806.68*u3) + (-44736.24*u4) + (u5/0.0000233174)
  else if y < 1920 then
    let u := (y - 1900)/100.0
    let u2 := u*u
    let u3 := u2*u
    let u4 := u3*u;
    -2.79 + (149.4119*u) + (-598.939*u2) + (6196.6*u3) + (-19700*u4)
  else if y < 1941 then
    let u := (y - 1920)/100.0
    let u2 := u*u
    let u3 := u2*u
    21.20 + (84.493*u) + (-761.00*u2) + (2093.6*u3)
  else if y < 1961 then
    let u := (y - 1950)/100.0
    let u2 := u*u
    let u3 := u2*u
    29.07 + (40.7*u) + (-u2/0.0233) + (u3/0.002547)
  else if y < 1986 then
    let u := (y - 1975)/100.0
    let u2 := u*u
    let u3 := u2*u
    45.45 + 106.7*u - u2/0.026 - u3/0.000718
  else if y < 2005 then
    let u := (y - 2000)/100.0
    let u2 := u*u
    let u3 := u2*u
    let u4 := u3*u
    let u5 := u4*u
    63.86 + (33.45*u) + (-603.74*u2) + (1727.5*u3) + (65181.4*u4) + (237359.9*u5)
  else if y < 2050 then
    let u := (y - 2000)/100.0
    let u2 := u*u
    62.92 + (32.217*u) + (55.89*u2)
  else if y < 2150 then
    let u := (y - 1820)/100.0
    let u2 := u*u;
    -205.72 + (56.28*u) + (32*u2)
  else
    let u := (y - 1820)/100.0
    let u2 := u*u;
    -20 + (32*u2)

/-- The source's `CAADynamicalTime::DeltaT` in `double` arithmetic. `FractionalYear JD` stands
for `CAADate(JD, CAADate::AfterPapalReform(JD)).FractionalYear()`. -/
def Rounded.DeltaT (FractionalYear : Double → Double) (JD : Double) : Option Double :=
  let nLookupElements := g_DeltaTValues.length
  match g_DeltaTValues[0]?, g_DeltaTValues[size_t_pred nLookupElements]? with
  | some first, some last =>
    if (JD ≥ Double.ofRat first.JD) ∧ (JD < Double.ofRat last.JD) then
      Rounded.DeltaT.scan g_DeltaTValues JD (nLookupElements + 1) 0
    else
      some (Rounded.DeltaT.polynomial (FractionalYear JD))
  | _, _ => none

/-- The `while (bContinue)` loop of `CumulativeLeapSeconds` in `double` arithmetic. -/
def Rounded.CumulativeLeapSeconds.scan (tbl : List LeapSecondCoefficient) (JD : Double) :
    Nat → Nat → Option Double
  | 0, _ => none
  | fuel + 1, nIndex =>
    if nIndex ≥ tbl.length then
      match tbl[size_t_pred tbl.length]? with
      | none => none
      | some e =>
        some (Double.ofRat e.LeapSeconds +
          (JD - 2400000.5 - Double.ofRat e.BaseMJD) * Double.ofRat e.Coefficient)
    else
      match tbl[nIndex]? with
      | none => none
      | some next =>
        if JD < Double.ofRat next.JD then
          match tbl[size_t_pred nIndex]? with
          | none => none
          | some e =>
            some (Double.ofRat e.LeapSeconds +
              (JD - 2400000.5 - Double.ofRat e.BaseMJD) * Double.ofRat e.Coefficient)
        else
          Rounded.CumulativeLeapSeconds.scan tbl JD fuel (nIndex + 1)

/-- The source's `CAADynamicalTime::CumulativeLeapSeconds` in `double` arithmetic. -/
def Rounded.CumulativeLeapSeconds (JD : Double) : Option Double :=
  let nLookupElements := g_LeapSecondCoefficients.length
  match g_LeapSecondCoefficients[0]? with
  | none => none
  | some first =>
    if JD ≥ Double.ofRat first.JD then
      Rounded.CumulativeLeapSeconds.scan g_LeapSecondCoefficients JD (nLookupElements + 1) 1
    else
      some 0

/-- The source's `CAADynamicalTime::TT2UT1` in `double` arithmetic. -/
def Rounded.TT2UT1 (FractionalYear : Double → Double) (JD : Double) : Option Double :=
  match Rounded.DeltaT FractionalYear JD with
  | none => none
  | some DT => some (JD - (DT / 86400.0))

/-- The source's `CAADynamicalTime::UT12TT` in `double` arithmetic. -/
def Rounded.UT12TT (FractionalYear : Double → Double) (JD : Double) : Option Double :=
  match Rounded.DeltaT FractionalYear JD with
  | none => none
  | some DT => some (JD + (DT / 86400.0))

/-- The test of the `if` that opens `TT2UTC` and `UTC2TT`, in `double` arithmetic. -/
def Rounded.outOfRange (JD : Double) : Option Bool :=
  let nLookupElements := g_LeapSecondCoefficients.length
  match g_LeapSecondCoefficients[0]?, g_LeapSecondCoefficients[size_t_pred nLookupElements]? with
  | some first, some last =>
    some (decide (JD < Double.ofRat first.JD) || decide (JD > (Double.ofRat last.JD + 500)))
  | _, _ => none

/-- The source's `CAADynamicalTime::TT2UTC` in `double` arithmetic. -/
def Rounded.TT2UTC (FractionalYear : Double → Double) (JD : Double) : Option Double :=
  match Rounded.outOfRange JD with
  | none => none
  | some true => Rounded.TT2UT1 FractionalYear JD
  | some false =>
    match Rounded.DeltaT FractionalYear JD, Rounded.CumulativeLeapSeconds JD with
    | some DT, some LeapSeconds =>
      let UT1 := JD - (DT / 86400.0)
      some (((DT - LeapSeconds - 32.184) / 86400.0) + UT1)
    | _, _ => none

/-- The source's `CAADynamicalTime::UTC2TT` in `double` arithmetic. -/
def Rounded.UTC2TT (FractionalYear : Double → Double) (JD : Double) : Option Double :=
  match Rounded.outOfRange JD with
  | none => none
  | some true => Rounded.UT12TT FractionalYear JD
  | some false =>
    match Rounded.DeltaT FractionalYear JD, Rounded.CumulativeLeapSeconds JD with
    | some DT, some LeapSeconds =>
      let UT1 := JD - ((DT - LeapSeconds - 32.184) / 86400.0)
      some (UT1 + (DT / 86400.0))
    | _, _ => none

theorem size_t_pred_of_pos (n : Nat) (h0 : 0 < n) (h : n < 18446744073709551616) :
    size_t_pred n = n - 1 := by
  unfold size_t_pred
  omega

theorem g_DeltaTValues_length : g_DeltaTValues.length = 1897 := by
  decide!

set_option maxRecDepth 100000 in
theorem g_DeltaTValues_first :
    g_DeltaTValues[0]? = some (DeltaTValue.mk 2441714.5 43.4724) := by
  decide!

set_option maxRecDepth 100000 in
theorem g_DeltaTValues_last :
    g_DeltaTValues[1896]? = some (DeltaTValue.mk 2463232.5 72.07) := by
  decide!

set_option maxRecDepth 100000 in
theorem g_DeltaTValues_strictlyAscending :
    strictlyAscending (g_DeltaTValues.map DeltaTValue.JD) = true := by
  decide!

/-- The body of `DeltaT` with the reads of the first and the last row of the table done. -/
theorem DeltaT_unfold (FractionalYear : ℚ → ℚ) (JD : ℚ) :
    DeltaT FractionalYear JD =
      if (JD ≥ 2441714.5) ∧ (JD < 2463232.5) then DeltaT.scan g_DeltaTValues JD 1898 0
      else some (DeltaT.polynomial (FractionalYear JD)) := by
  have hp : size_t_pred 1897 = 1896 := by decide
  unfold DeltaT
  simp only [g_DeltaTValues_length, hp, g_DeltaTValues_first, g_DeltaTValues_last]

theorem DeltaT_scan_found (tbl : List DeltaTValue) (JD : ℚ) (k : Nat) (hi lo : DeltaTValue)
    (hk0 : 0 < k) (hkb : k < 18446744073709551616)
    (hhi : tbl[k]? = some hi) (hlo : tbl[k - 1]? = some lo) (hgt : JD < hi.JD)
    (hbelow : ∀ j e, j < k → tbl[j]? = some e → e.JD ≤ JD) :
    ∀ fuel i, i ≤ k → k - i < fuel →
      DeltaT.scan tbl JD fuel i =
        some ((JD - lo.JD) / (hi.JD - lo.JD) * (hi.DeltaT - lo.DeltaT) + lo.DeltaT) := by
  intro fuel
  induction fuel with
  | zero => intro i _ h; omega
  | succ fuel ih =>
    intro i hik hf
    rcases Nat.lt_or_ge i k with hlt | hge
    · obtain ⟨hklen, _⟩ := List.getElem?_eq_some.mp hhi
      have hilen : i < tbl.length := by omega
      have hie : tbl[i]? = some tbl[i] := List.getElem?_eq_getElem hilen
      have hle : tbl[i].JD ≤ JD := hbelow i tbl[i] hlt hie
      have hng : ¬ (tbl[i].JD > JD) := not_lt.mpr hle
      rw [DeltaT.scan, hie]
      simp only [hng, if_false]
      exact ih (i + 1) (by omega) (by omega)
    · have hik2 : i = k := by omega
      subst hik2
      have hp : size_t_pred i = i - 1 := size_t_pred_of_pos i hk0 hkb
      have hg : hi.JD > JD := hgt
      rw [DeltaT.scan, hhi]
      simp only [hg, if_true, hp, hlo]

/-- In a table whose first row is not after `JD` and whose last row is after `JD`, there is
a least row after `JD`; it is not the first row. -/
theorem DeltaT_exists_least_above (tbl : List DeltaTValue) (JD : ℚ) (first last : DeltaTValue)
    (hfirst : tbl[0]? = some first) (hlast : tbl[tbl.length - 1]? = some last)
    (h1 : first.JD ≤ JD) (h2 : JD < last.JD) :
    ∃ k hi lo, 0 < k ∧ k < tbl.length ∧ tbl[k]? = some hi ∧ tbl[k - 1]? = some lo ∧
      JD < hi.JD ∧ ∀ j e, j < k → tbl[j]? = some e → e.JD ≤ JD := by
  classical
  have hex : ∃ k, ∃ e : DeltaTValue, tbl[k]? = some e ∧ JD < e.JD := ⟨tbl.length - 1, last, hlast, h2⟩
  obtain ⟨hi, hhi, hgt⟩ := Nat.find_spec hex
  have hmin : ∀ j, j < Nat.find hex → ¬ ∃ e : DeltaTValue, tbl[j]? = some e ∧ JD < e.JD :=
    fun j hj => Nat.find_min hex hj
  obtain ⟨hklen, _⟩ := List.getElem?_eq_some.mp hhi
  have hk0 : 0 < Nat.find hex := by
    rcases Nat.eq_zero_or_pos (Nat.find hex) with h0 | hpos
    · rw [h0, hfirst] at hhi
      cases hhi
      exact absurd hgt (not_lt.mpr h1)
    · exact hpos
  have hplen : Nat.find hex - 1 < tbl.length := by omega
  refine ⟨Nat.find hex, hi, tbl[Nat.find hex - 1], hk0, hklen, hhi,
    List.getElem?_eq_getElem hplen, hgt, ?_⟩
  intro j e hj hje
  exact not_lt.mp (fun hlt => hmin j hj ⟨e, hje, hlt⟩)

theorem strictlyAscending_tail (a : ℚ) (l : List ℚ)
    (h : strictlyAscending (a :: l) = true) : strictlyAscending l = true := by
  cases l with
  | nil => rfl
  | cons b rest =>
    simp only [strictlyAscending, Bool.and_eq_true] at h
    exact h.2

theorem strictlyAscending_head_lt (l : List ℚ) :
    ∀ a : ℚ, strictlyAscending (a :: l) = true → ∀ e ∈ l, a < e := by
  induction l with
  | nil => intro a _ e he; cases he
  | cons b rest ih =>
    intro a h e he
    simp only [strictlyAscending, Bool.and_eq_true, decide_eq_true_eq] at h
    rcases List.mem_cons.mp he with rfl | hmem
    · exact h.1
    · exact lt_trans h.1 (ih b h.2 e hmem)

theorem strictlyAscending_pairwise (l : List ℚ) (h : strictlyAscending l = true) :
    l.Pairwise (fun a b => a < b) := by
  induction l with
  | nil => exact List.Pairwise.nil
  | cons a rest ih =>
    exact List.Pairwise.cons (strictlyAscending_head_lt rest a h)
      (ih (strictlyAscending_tail a rest h))

/-- In a strictly ascending list the number at a smaller index is smaller. -/
theorem strictlyAscending_lt (l : List ℚ) (h : strictlyAscending l = true)
    (i j : Nat) (a b : ℚ) (hij : i < j)
    (hi : l[i]? = some a) (hj : l[j]? = some b) : a < b := by
  obtain ⟨hil, rfl⟩ := List.getElem?_eq_some.mp hi
  obtain ⟨hjl, rfl⟩ := List.getElem?_eq_some.mp hj
  exact List.pairwise_iff_getElem.mp (strictlyAscending_pairwise l h) i j hil hjl hij

/-- In the delta-T table a row at a smaller index has a smaller `JD`. -/
theorem g_DeltaTValues_lt (i j : Nat) (e e2 : DeltaTValue) (hij : i < j)
    (hi : g_DeltaTValues[i]? = some e) (hj : g_DeltaTValues[j]? = some e2) : e.JD < e2.JD := by
  apply strictlyAscending_lt _ g_DeltaTValues_strictlyAscending i j _ _ hij
  · rw [List.getElem?_map, hi]; rfl
  · rw [List.getElem?_map, hj]; rfl

/-- Inside the span of the delta-T table `DeltaT` interpolates between the least row after
`JD` and the row before it. -/
theorem DeltaT_in_table (FractionalYear : ℚ → ℚ) (JD : ℚ)
    (h1 : 2441714.5 ≤ JD) (h2 : JD < 2463232.5) :
    ∃ (hiIdx : Nat) (hi lo : DeltaTValue),
      0 < hiIdx ∧ g_DeltaTValues[hiIdx]? = some hi ∧ g_DeltaTValues[hiIdx - 1]? = some lo ∧
      JD < hi.JD ∧
      (∀ j e, j < hiIdx → g_DeltaTValues[j]? = some e → e.JD ≤ JD) ∧
      (∀ e ∈ g_DeltaTValues, e.JD = JD → e = lo) ∧
      DeltaT FractionalYear JD =
        some ((JD - lo.JD) / (hi.JD - lo.JD) * (hi.DeltaT - lo.DeltaT) + lo.DeltaT) := by
  have hlast : g_DeltaTValues[g_DeltaTValues.length - 1]? =
      some (DeltaTValue.mk 2463232.5 72.07) := by
    rw [g_DeltaTValues_length]
    exact g_DeltaTValues_last
  obtain ⟨k, hi, lo, hk0, hklen, hhi, hlo, hgt, hbelow⟩ :=
    DeltaT_exists_least_above g_DeltaTValues JD _ _ g_DeltaTValues_first hlast h1 h2
  rw [g_DeltaTValues_length] at hklen
  refine ⟨k, hi, lo, hk0, hhi, hlo, hgt, hbelow, ?_, ?_⟩
  · intro e he heq
    obtain ⟨m, hm⟩ := List.mem_iff_getElem?.mp he
    have hasc := g_DeltaTValues_lt
    have hloJD : lo.JD ≤ JD := hbelow (k - 1) lo (by omega) hlo
    rcases Nat.lt_trichotomy m (k - 1) with hlt | heq2 | hgt2
    · have := hasc m (k - 1) e lo hlt hm hlo
      rw [heq] at this
      exact absurd this (not_lt.mpr hloJD)
    · rw [heq2, hlo] at hm
      exact (Option.some.inj hm).symm
    · rcases Nat.eq_or_lt_of_le (show k ≤ m by omega) with hkm | hkm
      · rw [← hkm, hhi] at hm
        have : hi = e := Option.some.inj hm
        rw [← this] at heq
        rw [heq] at hgt
        exact absurd hgt (lt_irrefl _)
      · have := hasc k m hi e hkm hhi hm
        rw [heq] at this
        exact absurd (lt_trans hgt this) (lt_irrefl _)
  · rw [DeltaT_unfold, if_pos ⟨h1, h2⟩]
    exact DeltaT_scan_found g_DeltaTValues JD k hi lo hk0 (by omega) hhi hlo hgt hbelow
      1898 0 (Nat.zero_le _) (by omega)

/-- C1: for every `JD` with `2441714.5 ≤ JD < 2463232.5` (first row to last row of the
delta-T table), `DeltaT JD` is `(JD - JD_lo)/(JD_hi - JD_lo) * (DT_hi - DT_lo) + DT_lo`, where
`hi` is the row at the least index whose `JD` is strictly greater than the input and `lo`
is the row before it; a row whose `JD` equals the input is the lower endpoint `lo`. -/
theorem DeltaT_table_interpolation (FractionalYear : ℚ → ℚ) (JD : ℚ)
    (h1 : 2441714.5 ≤ JD) (h2 : JD < 2463232.5) :
    ∃ (hiIdx : Nat) (hi lo : DeltaTValue),
      0 < hiIdx ∧ g_DeltaTValues[hiIdx]? = some hi ∧ g_DeltaTValues[hiIdx - 1]? = some lo ∧
      JD < hi.JD ∧
      (∀ j e, j < hiIdx → g_DeltaTValues[j]? = some e → e.JD ≤ JD) ∧
      (∀ e ∈ g_DeltaTValues, e.JD = JD → e = lo) ∧
      DeltaT FractionalYear JD =
        some ((JD - lo.JD) / (hi.JD - lo.JD) * (hi.DeltaT - lo.DeltaT) + lo.DeltaT) :=
  DeltaT_in_table FractionalYear JD h1 h2

/-- C1 at the input `JD = 2451545` (J2000.0). -/
theorem DeltaT_table_interpolation_witness :
    ((2441714.5 : ℚ) ≤ 2451545 ∧ (2451545 : ℚ) < 2463232.5) ∧
    ∃ (hiIdx : Nat) (hi lo : DeltaTValue),
      0 < hiIdx ∧ g_DeltaTValues[hiIdx]? = some hi ∧ g_DeltaTValues[hiIdx - 1]? = some lo ∧
      (2451545 : ℚ) < hi.JD ∧
      (∀ j e, j < hiIdx → g_DeltaTValues[j]? = some e → e.JD ≤ 2451545) ∧
      (∀ e ∈ g_DeltaTValues, e.JD = 2451545 → e = lo) ∧
      DeltaT (fun _ => 2000) 2451545 =
        some ((2451545 - lo.JD) / (hi.JD - lo.JD) * (hi.DeltaT - lo.DeltaT) + lo.DeltaT) :=
  ⟨⟨by norm_num, by norm_num⟩,
    DeltaT_table_interpolation (fun _ => 2000) 2451545 (by norm_num) (by norm_num)⟩

/-- At the `JD` of a row of the delta-T table other than the last, `DeltaT` is the row's
`DeltaT`. -/
theorem DeltaT_at_row (FractionalYear : ℚ → ℚ) (i : Nat) (e : DeltaTValue)
    (hi : i + 1 < g_DeltaTValues.length) (he : g_DeltaTValues[i]? = some e) :
    DeltaT FractionalYear e.JD = some e.DeltaT := by
  have hlen := g_DeltaTValues_length
  have h1 : (2441714.5 : ℚ) ≤ e.JD := by
    rcases Nat.eq_zero_or_pos i with h0 | hpos
    · rw [h0, g_DeltaTValues_first] at he
      rw [← Option.some.inj he]
    · exact le_of_lt (g_DeltaTValues_lt 0 i _ e hpos g_DeltaTValues_first he)
  have h2 : e.JD < 2463232.5 :=
    g_DeltaTValues_lt i 1896 e _ (by omega) he g_DeltaTValues_last
  obtain ⟨k, hi2, lo, _, _, _, _, _, hlo, hD⟩ :=
    DeltaT_in_table FractionalYear e.JD h1 h2
  have hmem : e ∈ g_DeltaTValues := List.mem_iff_getElem?.mpr ⟨i, he⟩
  have heq : e = lo := hlo e hmem rfl
  rw [hD, ← heq]
  simp

/-- C2: `DeltaT` at the `JD` of the first row of the table, `2441714.5`, is that row's value
`43.4724`, and for every row of the delta-T table except the last, `DeltaT` at the row's `JD`
is the row's `DeltaT` (in exact arithmetic). -/
theorem DeltaT_at_table_entry (FractionalYear : ℚ → ℚ) :
    DeltaT FractionalYear 2441714.5 = some 43.4724 ∧
    ∀ (i : Nat) (e : DeltaTValue), i + 1 < g_DeltaTValues.length →
      g_DeltaTValues[i]? = some e → DeltaT FractionalYear e.JD = some e.DeltaT :=
  ⟨DeltaT_at_row FractionalYear 0 (DeltaTValue.mk 2441714.5 43.4724)
      (by rw [g_DeltaTValues_length]; omega) g_DeltaTValues_first,
    DeltaT_at_row FractionalYear⟩

set_option maxRecDepth 100000 in
theorem g_DeltaTValues_row_323 :
    g_DeltaTValues[323]? = some (DeltaTValue.mk 2451544.5 63.8285) := by
  decide!

/-- C2 at the row of 1 January 2000, `{ 2451544.5, 63.8285 }`. -/
theorem DeltaT_at_table_entry_witness :
    DeltaT (fun _ => 2000) 2451544.5 = some 63.8285 :=
  (DeltaT_at_table_entry (fun _ => 2000)).2 323 (DeltaTValue.mk 2451544.5 63.8285)
    (by rw [g_DeltaTValues_length]; omega) g_DeltaTValues_row_323

theorem g_LeapSecondCoefficients_length : g_LeapSecondCoefficients.length = 41 := by
  decide!

theorem g_LeapSecondCoefficients_first :
    g_LeapSecondCoefficients[0]? =
      some (LeapSecondCoefficient.mk 2437300.5 1.4228180 37300 0.001296) := by
  decide!

theorem g_LeapSecondCoefficients_last :
    g_LeapSecondCoefficients[40]? =
      some (LeapSecondCoefficient.mk 2457754.5 37.0 41317 0.0) := by
  decide!

theorem g_LeapSecondCoefficients_strictlyAscending :
    strictlyAscending (g_LeapSecondCoefficients.map LeapSecondCoefficient.JD) = true := by
  decide!

/-- In the leap-second table a row at a smaller index has a smaller `JD`. -/
theorem g_LeapSecondCoefficients_lt (i j : Nat) (e e2 : LeapSecondCoefficient) (hij : i < j)
    (hi : g_LeapSecondCoefficients[i]? = some e)
    (hj : g_LeapSecondCoefficients[j]? = some e2) : e.JD < e2.JD := by
  apply strictlyAscending_lt _ g_LeapSecondCoefficients_strictlyAscending i j _ _ hij
  · rw [List.getElem?_map, hi]; rfl
  · rw [List.getElem?_map, hj]; rfl

/-- The loop of `CumulativeLeapSeconds` stops at the index `k` when no row from its start to
`k` is after `JD` and row `k` is after `JD` or is past the end of the table; the result is
computed from row `k - 1`. -/
theorem CumulativeLeapSeconds_scan_found (tbl : List LeapSecondCoefficient) (JD : ℚ) (k : Nat)
    (e : LeapSecondCoefficient) (hk0 : 0 < k) (hkl : k ≤ tbl.length)
    (hbound : tbl.length < 18446744073709551616)
    (he : tbl[k - 1]? = some e)
    (hstop : ∀ x : LeapSecondCoefficient, tbl[k]? = some x → JD < x.JD)
    (hbelow : ∀ (j : Nat) (x : LeapSecondCoefficient), j < k → tbl[j]? = some x → x.JD ≤ JD) :
    ∀ fuel i, 0 < i → i ≤ k → k - i < fuel →
      CumulativeLeapSeconds.scan tbl JD fuel i =
        some (e.LeapSeconds + (JD - 2400000.5 - e.BaseMJD) * e.Coefficient) := by
  intro fuel
  induction fuel with
  | zero => intro i _ _ h; omega
  | succ fuel ih =>
    intro i hi0 hik hf
    rcases Nat.lt_or_ge i k with hlt | hge
    · have hilen : i < tbl.length := by omega
      have hie : tbl[i]? = some tbl[i] := List.getElem?_eq_getElem hilen
      have hle : tbl[i].JD ≤ JD := hbelow i tbl[i] hlt hie
      have hng : ¬ (JD < tbl[i].JD) := not_lt.mpr hle
      have hnl : ¬ (i ≥ tbl.length) := by omega
      rw [CumulativeLeapSeconds.scan]
      simp only [hnl, if_false, hie, hng]
      exact ih (i + 1) (by omega) (by omega) (by omega)
    · have hik2 : i = k := by omega
      subst hik2
      rw [CumulativeLeapSeconds.scan]
      rcases Nat.lt_or_ge i tbl.length with hl | hl
      · have hnl : ¬ (i ≥ tbl.length) := by omega
        have hie : tbl[i]? = some tbl[i] := List.getElem?_eq_getElem hl
        have hlt : JD < tbl[i].JD := hstop tbl[i] hie
        have hp : size_t_pred i = i - 1 := size_t_pred_of_pos i hi0 (by omega)
        simp only [hnl, if_false, hie, hlt, if_true, hp, he]
      · have heq : i = tbl.length := by omega
        have hp : size_t_pred tbl.length = i - 1 := by
          rw [← heq]
          exact size_t_pred_of_pos i hi0 (by omega)
        simp only [hl, if_true, hp, he]

/-- When the first row of a leap-second table is not after `JD`, there is a least index
`k ≥ 1` whose row is after `JD` or that is past the end of the table. -/
theorem CumulativeLeapSeconds_exists_stop (tbl : List LeapSecondCoefficient) (JD : ℚ)
    (first : LeapSecondCoefficient) (hfirst : tbl[0]? = some first) (h1 : first.JD ≤ JD) :
    ∃ (k : Nat) (e : LeapSecondCoefficient), 0 < k ∧ k ≤ tbl.length ∧ tbl[k - 1]? = some e ∧
      (∀ x : LeapSecondCoefficient, tbl[k]? = some x → JD < x.JD) ∧
      ∀ (j : Nat) (x : LeapSecondCoefficient), j < k → tbl[j]? = some x → x.JD ≤ JD := by
  classical
  have hex : ∃ k : Nat, ∀ x : LeapSecondCoefficient, tbl[k]? = some x → JD < x.JD := by
    refine ⟨tbl.length, fun x hx => ?_⟩
    obtain ⟨hlt, _⟩ := List.getElem?_eq_some.mp hx
    exact absurd hlt (lt_irrefl _)
  have hspec := Nat.find_spec hex
  have hk0 : 0 < Nat.find hex := by
    rcases Nat.eq_zero_or_pos (Nat.find hex) with h0 | hpos
    · rw [h0] at hspec
      exact absurd (hspec first hfirst) (not_lt.mpr h1)
    · exact hpos
  have hkl : Nat.find hex ≤ tbl.length := by
    apply Nat.find_min' hex
    intro x hx
    obtain ⟨hlt, _⟩ := List.getElem?_eq_some.mp hx
    exact absurd hlt (lt_irrefl _)
  have hplen : Nat.find hex - 1 < tbl.length := by omega
  refine ⟨Nat.find hex, tbl[Nat.find hex - 1], hk0, hkl, List.getElem?_eq_getElem hplen,
    hspec, ?_⟩
  intro j x hj hjx
  have hnot := Nat.find_min hex hj
  by_contra hcon
  apply hnot
  intro y hy
  rw [hjx] at hy
  rw [← Option.some.inj hy]
  exact not_le.mp hcon

/-- The body of `CumulativeLeapSeconds` with the read of the first row of the table done. -/
theorem CumulativeLeapSeconds_unfold (JD : ℚ) :
    CumulativeLeapSeconds JD =
      if JD ≥ 2437300.5 then CumulativeLeapSeconds.scan g_LeapSecondCoefficients JD 42 1
      else some 0 := by
  unfold CumulativeLeapSeconds
  simp only [g_LeapSecondCoefficients_length, g_LeapSecondCoefficients_first]

/-- From the first row of the leap-second table on, `CumulativeLeapSeconds` is computed from
the last row of the table that is not after `JD`. -/
theorem CumulativeLeapSeconds_in_table (JD : ℚ) (h : 2437300.5 ≤ JD) :
    ∃ (i : Nat) (e : LeapSecondCoefficient), g_LeapSecondCoefficients[i]? = some e ∧
      (∀ (j : Nat) (x : LeapSecondCoefficient), j ≤ i →
        g_LeapSecondCoefficients[j]? = some x → x.JD ≤ JD) ∧
      (∀ (j : Nat) (x : LeapSecondCoefficient), i < j →
        g_LeapSecondCoefficients[j]? = some x → JD < x.JD) ∧
      CumulativeLeapSeconds JD =
        some (e.LeapSeconds + (JD - 2400000.5 - e.BaseMJD) * e.Coefficient) := by
  obtain ⟨k, e, hk0, hkl, he, hstop, hbelow⟩ :=
    CumulativeLeapSeconds_exists_stop g_LeapSecondCoefficients JD _
      g_LeapSecondCoefficients_first h
  have hlen := g_LeapSecondCoefficients_length
  refine ⟨k - 1, e, he, ?_, ?_, ?_⟩
  · intro j x hj hx
    exact hbelow j x (by omega) hx
  · intro j x hj hx
    obtain ⟨hjl, _⟩ := List.getElem?_eq_some.mp hx
    have hkl2 : k < g_LeapSecondCoefficients.length := by omega
    have hkx := hstop _ (List.getElem?_eq_getElem hkl2)
    rcases Nat.eq_or_lt_of_le (show k ≤ j by omega) with hkj | hkj
    · subst hkj
      exact hstop x hx
    · exact lt_trans hkx
        (g_LeapSecondCoefficients_lt k j _ x hkj (List.getElem?_eq_getElem hkl2) hx)
  · rw [CumulativeLeapSeconds_unfold, if_pos h]
    exact CumulativeLeapSeconds_scan_found g_LeapSecondCoefficients JD k e hk0 hkl
      (by omega) he hstop hbelow 42 1 (by omega) (by omega) (by omega)

/-- C3: for every `JD ≥ 2437300.5` (the first row of the leap-second table),
`CumulativeLeapSeconds JD` is `e.LeapSeconds + (JD - 2400000.5 - e.BaseMJD) * e.Coefficient`
where `e` is the last row whose `JD` is not after the input: every row up to `e` has a `JD` at
most the input and every later row has a `JD` strictly greater, so that `e` is the row before
the first row exceeding the input, and the last row of the table when no row exceeds it. -/
theorem CumulativeLeapSeconds_formula (JD : ℚ) (h : 2437300.5 ≤ JD) :
    ∃ (i : Nat) (e : LeapSecondCoefficient), g_LeapSecondCoefficients[i]? = some e ∧
      (∀ (j : Nat) (x : LeapSecondCoefficient), j ≤ i →
        g_LeapSecondCoefficients[j]? = some x → x.JD ≤ JD) ∧
      (∀ (j : Nat) (x : LeapSecondCoefficient), i < j →
        g_LeapSecondCoefficients[j]? = some x → JD < x.JD) ∧
      CumulativeLeapSeconds JD =
        some (e.LeapSeconds + (JD - 2400000.5 - e.BaseMJD) * e.Coefficient) :=
  CumulativeLeapSeconds_in_table JD h

/-- C3 at the input `JD = 2440000` (May 1968, in the linear-drift rows). -/
theorem CumulativeLeapSeconds_formula_witness :
    (2437300.5 : ℚ) ≤ 2440000 ∧
    ∃ (i : Nat) (e : LeapSecondCoefficient), g_LeapSecondCoefficients[i]? = some e ∧
      (∀ (j : Nat) (x : LeapSecondCoefficient), j ≤ i →
        g_LeapSecondCoefficients[j]? = some x → x.JD ≤ 2440000) ∧
      (∀ (j : Nat) (x : LeapSecondCoefficient), i < j →
        g_LeapSecondCoefficients[j]? = some x → (2440000 : ℚ) < x.JD) ∧
      CumulativeLeapSeconds 2440000 =
        some (e.LeapSeconds + (2440000 - 2400000.5 - e.BaseMJD) * e.Coefficient) :=
  ⟨by norm_num, CumulativeLeapSeconds_formula 2440000 (by norm_num)⟩

/-- C4: for every `JD` strictly before the first row of the leap-second table
(`JD < 2437300.5`), `CumulativeLeapSeconds JD` is `0`. -/
theorem CumulativeLeapSeconds_before_table (JD : ℚ) (h : JD < 2437300.5) :
    CumulativeLeapSeconds JD = some 0 := by
  rw [CumulativeLeapSeconds_unfold, if_neg (not_le.mpr h)]

/-- C4 at the input `JD = 2437300` (half a day before 1 January 1961). -/
theorem CumulativeLeapSeconds_before_table_witness :
    (2437300 : ℚ) < 2437300.5 ∧ CumulativeLeapSeconds 2437300 = some 0 :=
  ⟨by norm_num, CumulativeLeapSeconds_before_table 2437300 (by norm_num)⟩

/-- C5: `CumulativeLeapSeconds 2457754.5` (1 January 2017) is `37`. -/
theorem CumulativeLeapSeconds_2017 : CumulativeLeapSeconds 2457754.5 = some 37.0 := by
  decide!

/-- From the last row of the leap-second table on, `CumulativeLeapSeconds` is `37`. -/
theorem CumulativeLeapSeconds_after_last (JD : ℚ) (h : 2457754.5 ≤ JD) :
    CumulativeLeapSeconds JD = some 37 := by
  obtain ⟨i, e, he, _, habove, hres⟩ :=
    CumulativeLeapSeconds_in_table JD (le_trans (by norm_num) h)
  obtain ⟨hil, _⟩ := List.getElem?_eq_some.mp he
  rw [g_LeapSecondCoefficients_length] at hil
  have hi40 : i = 40 := by
    by_contra hne
    have := habove 40 _ (by omega) g_LeapSecondCoefficients_last
    exact absurd this (not_lt.mpr h)
  rw [hi40, g_LeapSecondCoefficients_last] at he
  rw [hres, ← Option.some.inj he]
  norm_num

/-- C6: for every `JD` at or beyond the last row of the leap-second table
(`JD ≥ 2457754.5`), `CumulativeLeapSeconds JD` is the constant `37`, the `LeapSeconds` of the
last row: the `Coefficient` of the last row is zero, so the extrapolation adds no drift. -/
theorem CumulativeLeapSeconds_extrapolation (JD : ℚ) (h : 2457754.5 ≤ JD) :
    ∃ last : LeapSecondCoefficient,
      g_LeapSecondCoefficients[g_LeapSecondCoefficients.length - 1]? = some last ∧
      last.Coefficient = 0 ∧ last.LeapSeconds = 37 ∧
      CumulativeLeapSeconds JD = some 37 := by
  refine ⟨LeapSecondCoefficient.mk 2457754.5 37.0 41317 0.0, ?_, ?_, ?_,
    CumulativeLeapSeconds_after_last JD h⟩
  · rw [g_LeapSecondCoefficients_length]
    exact g_LeapSecondCoefficients_last
  · norm_num
  · norm_num

/-- C6 at the input `JD = 2488070` (year 2100). -/
theorem CumulativeLeapSeconds_extrapolation_witness :
    (2457754.5 : ℚ) ≤ 2488070 ∧
    ∃ last : LeapSecondCoefficient,
      g_LeapSecondCoefficients[g_LeapSecondCoefficients.length - 1]? = some last ∧
      last.Coefficient = 0 ∧ last.LeapSeconds = 37 ∧
      CumulativeLeapSeconds 2488070 = some 37 :=
  ⟨by norm_num, CumulativeLeapSeconds_extrapolation 2488070 (by norm_num)⟩

/-- `DeltaT` returns a value for every input: in the table branch the loop finds a row. -/
theorem DeltaT_total (FractionalYear : ℚ → ℚ) (JD : ℚ) :
    ∃ DT : ℚ, DeltaT FractionalYear JD = some DT := by
  by_cases h : (JD ≥ 2441714.5) ∧ (JD < 2463232.5)
  · obtain ⟨_, hi, lo, _, _, _, _, _, _, hD⟩ := DeltaT_in_table FractionalYear JD h.1 h.2
    exact ⟨_, hD⟩
  · rw [DeltaT_unfold, if_neg h]
    exact ⟨_, rfl⟩

/-- `CumulativeLeapSeconds` returns a value for every input. -/
theorem CumulativeLeapSeconds_total (JD : ℚ) : ∃ L : ℚ, CumulativeLeapSeconds JD = some L := by
  by_cases h : JD ≥ 2437300.5
  · obtain ⟨_, e, _, _, _, hL⟩ := CumulativeLeapSeconds_in_table JD h
    exact ⟨_, hL⟩
  · rw [CumulativeLeapSeconds_unfold, if_neg h]
    exact ⟨_, rfl⟩

theorem TT2UTC_outOfRange_eq (JD : ℚ) :
    TT2UTC.outOfRange JD = some (decide (JD < 2437300.5) || decide (JD > 2458254.5)) := by
  have hp : size_t_pred 41 = 40 := by decide
  have h500 : (2457754.5 : ℚ) + 500 = 2458254.5 := by norm_num
  unfold TT2UTC.outOfRange
  simp only [g_LeapSecondCoefficients_length, hp, g_LeapSecondCoefficients_first,
    g_LeapSecondCoefficients_last, h500]

theorem UTC2TT_outOfRange_eq (JD : ℚ) :
    UTC2TT.outOfRange JD = some (decide (JD < 2437300.5) || decide (JD > 2458254.5)) := by
  have hp : size_t_pred 41 = 40 := by decide
  have h500 : (2457754.5 : ℚ) + 500 = 2458254.5 := by norm_num
  unfold UTC2TT.outOfRange
  simp only [g_LeapSecondCoefficients_length, hp, g_LeapSecondCoefficients_first,
    g_LeapSecondCoefficients_last, h500]

theorem TT2UTC_outOfRange_outside (JD : ℚ) (h : JD < 2437300.5 ∨ JD > 2458254.5) :
    TT2UTC.outOfRange JD = some true := by
  rw [TT2UTC_outOfRange_eq]
  rcases h with h | h <;> simp [h]

theorem TT2UTC_outOfRange_inside (JD : ℚ) (h1 : 2437300.5 ≤ JD) (h2 : JD ≤ 2458254.5) :
    TT2UTC.outOfRange JD = some false := by
  rw [TT2UTC_outOfRange_eq]
  simp [not_lt.mpr h1, not_lt.mpr h2]

theorem UTC2TT_outOfRange_outside (JD : ℚ) (h : JD < 2437300.5 ∨ JD > 2458254.5) :
    UTC2TT.outOfRange JD = some true := by
  rw [UTC2TT_outOfRange_eq]
  rcases h with h | h <;> simp [h]

theorem UTC2TT_outOfRange_inside (JD : ℚ) (h1 : 2437300.5 ≤ JD) (h2 : JD ≤ 2458254.5) :
    UTC2TT.outOfRange JD = some false := by
  rw [UTC2TT_outOfRange_eq]
  simp [not_lt.mpr h1, not_lt.mpr h2]

/-- Inside the leap-second window `TT2UTC` runs the statements after its test. -/
theorem TT2UTC_in_range (FractionalYear : ℚ → ℚ) (JD DT L : ℚ)
    (h1 : 2437300.5 ≤ JD) (h2 : JD ≤ 2458254.5)
    (hDT : DeltaT FractionalYear JD = some DT) (hL : CumulativeLeapSeconds JD = some L) :
    TT2UTC FractionalYear JD =
      some (((DT - L - 32.184) / 86400.0) + (JD - (DT / 86400.0))) := by
  unfold TT2UTC
  simp only [TT2UTC_outOfRange_inside JD h1 h2, hDT, hL]

/-- Inside the leap-second window `UTC2TT` runs the statements after its test. -/
theorem UTC2TT_in_range (FractionalYear : ℚ → ℚ) (JD DT L : ℚ)
    (h1 : 2437300.5 ≤ JD) (h2 : JD ≤ 2458254.5)
    (hDT : DeltaT FractionalYear JD = some DT) (hL : CumulativeLeapSeconds JD = some L) :
    UTC2TT FractionalYear JD =
      some ((JD - ((DT - L - 32.184) / 86400.0)) + (DT / 86400.0)) := by
  unfold UTC2TT
  simp only [UTC2TT_outOfRange_inside JD h1 h2, hDT, hL]

/-- C7: for every `JD` outside the closed window `[2437300.5, 2458254.5]` (first row of the
leap-second table to 500 days after its last row), `TT2UTC JD` is `TT2UT1 JD`. -/
theorem TT2UTC_fallback (FractionalYear : ℚ → ℚ) (JD : ℚ)
    (h : JD < 2437300.5 ∨ JD > 2458254.5) :
    TT2UTC FractionalYear JD = TT2UT1 FractionalYear JD := by
  unfold TT2UTC
  simp only [TT2UTC_outOfRange_outside JD h]

/-- C7 at `JD = 2086302.5` (1 January 1000) and at `JD = 2524593.5` (1 January 2200). -/
theorem TT2UTC_fallback_witness :
    ((2086302.5 : ℚ) < 2437300.5 ∨ (2086302.5 : ℚ) > 2458254.5) ∧
    TT2UTC (fun _ => 1000) 2086302.5 = TT2UT1 (fun _ => 1000) 2086302.5 ∧
    TT2UTC (fun _ => 2200) 2524593.5 = TT2UT1 (fun _ => 2200) 2524593.5 :=
  ⟨Or.inl (by norm_num),
    TT2UTC_fallback (fun _ => 1000) 2086302.5 (Or.inl (by norm_num)),
    TT2UTC_fallback (fun _ => 2200) 2524593.5 (Or.inr (by norm_num))⟩

/-- C8: `UTC2TT` applies the same test as `TT2UTC`; for every `JD` with `JD < 2437300.5` or
`JD > 2458254.5` the test holds and `UTC2TT JD` is `UT12TT JD`, and for every `JD` inside the
closed window `[2437300.5, 2458254.5]` the test fails, so that the fallback is not taken: the
result is the one of the statements after the test. -/
theorem UTC2TT_domain_test (FractionalYear : ℚ → ℚ) (JD : ℚ) :
    UTC2TT.outOfRange JD = TT2UTC.outOfRange JD ∧
    ((JD < 2437300.5 ∨ JD > 2458254.5) →
      UTC2TT.outOfRange JD = some true ∧
      UTC2TT FractionalYear JD = UT12TT FractionalYear JD) ∧
    ((2437300.5 ≤ JD ∧ JD ≤ 2458254.5) →
      UTC2TT.outOfRange JD = some false ∧
      ∀ DT L : ℚ, DeltaT FractionalYear JD = some DT → CumulativeLeapSeconds JD = some L →
        UTC2TT FractionalYear JD =
          some ((JD - ((DT - L - 32.184) / 86400.0)) + (DT / 86400.0))) := by
  refine ⟨?_, ?_, ?_⟩
  · rw [UTC2TT_outOfRange_eq, TT2UTC_outOfRange_eq]
  · intro h
    refine ⟨UTC2TT_outOfRange_outside JD h, ?_⟩
    unfold UTC2TT
    simp only [UTC2TT_outOfRange_outside JD h]
  · intro h
    exact ⟨UTC2TT_outOfRange_inside JD h.1 h.2,
      fun DT L hDT hL => UTC2TT_in_range FractionalYear JD DT L h.1 h.2 hDT hL⟩

/-- C8 at `JD = 2086302.5` (1 January 1000, outside) and at `JD = 2458254.5` (the last day
of the window, inside). -/
theorem UTC2TT_domain_test_witness :
    (UTC2TT.outOfRange 2086302.5 = some true ∧
      UTC2TT (fun _ => 1000) 2086302.5 = UT12TT (fun _ => 1000) 2086302.5) ∧
    UTC2TT.outOfRange 2458254.5 = some false :=
  ⟨(UTC2TT_domain_test (fun _ => 1000) 2086302.5).2.1 (Or.inl (by norm_num)),
    ((UTC2TT_domain_test (fun _ => 1000) 2458254.5).2.2 ⟨by norm_num, le_refl _⟩).1⟩

/-- C9: for every `JD` inside the closed window `[2437300.5, 2458254.5]`, both endpoints
included, `TT2UTC JD` is `UT1 + (DT - L - 32.184)/86400` with `DT = DeltaT JD`,
`UT1 = JD - DT/86400` and `L = CumulativeLeapSeconds JD`. -/
theorem TT2UTC_formula (FractionalYear : ℚ → ℚ) (JD : ℚ)
    (h1 : 2437300.5 ≤ JD) (h2 : JD ≤ 2458254.5) :
    ∃ DT L : ℚ, DeltaT FractionalYear JD = some DT ∧ CumulativeLeapSeconds JD = some L ∧
      TT2UTC FractionalYear JD = some ((JD - DT / 86400) + (DT - L - 32.184) / 86400) := by
  obtain ⟨DT, hDT⟩ := DeltaT_total FractionalYear JD
  obtain ⟨L, hL⟩ := CumulativeLeapSeconds_total JD
  refine ⟨DT, L, hDT, hL, ?_⟩
  rw [TT2UTC_in_range FractionalYear JD DT L h1 h2 hDT hL]
  apply congrArg some
  norm_num
  ring

/-- C9 at the two endpoints of the window, `JD = 2437300.5` and `JD = 2458254.5`. -/
theorem TT2UTC_formula_witness :
    (∃ DT L : ℚ, DeltaT (fun _ => 1961) 2437300.5 = some DT ∧
      CumulativeLeapSeconds 2437300.5 = some L ∧
      TT2UTC (fun _ => 1961) 2437300.5 =
        some ((2437300.5 - DT / 86400) + (DT - L - 32.184) / 86400)) ∧
    (∃ DT L : ℚ, DeltaT (fun _ => 1961) 2458254.5 = some DT ∧
      CumulativeLeapSeconds 2458254.5 = some L ∧
      TT2UTC (fun _ => 1961) 2458254.5 =
        some ((2458254.5 - DT / 86400) + (DT - L - 32.184) / 86400)) :=
  ⟨TT2UTC_formula (fun _ => 1961) 2437300.5 (le_refl _) (by norm_num),
    TT2UTC_formula (fun _ => 1961) 2458254.5 (by norm_num) (le_refl _)⟩

/-- C10: for every `JD` inside the closed window `[2437300.5, 2458254.5]`, `UTC2TT JD` is
`UT1 + DT/86400` with `DT = DeltaT JD`, `L = CumulativeLeapSeconds JD` and
`UT1 = JD - (DT - L - 32.184)/86400`. -/
theorem UTC2TT_formula (FractionalYear : ℚ → ℚ) (JD : ℚ)
    (h1 : 2437300.5 ≤ JD) (h2 : JD ≤ 2458254.5) :
    ∃ DT L : ℚ, DeltaT FractionalYear JD = some DT ∧ CumulativeLeapSeconds JD = some L ∧
      UTC2TT FractionalYear JD = some ((JD - (DT - L - 32.184) / 86400) + DT / 86400) := by
  obtain ⟨DT, hDT⟩ := DeltaT_total FractionalYear JD
  obtain ⟨L, hL⟩ := CumulativeLeapSeconds_total JD
  refine ⟨DT, L, hDT, hL, ?_⟩
  rw [UTC2TT_in_range FractionalYear JD DT L h1 h2 hDT hL]
  apply congrArg some
  norm_num

/-- C10 at `JD = 2457754.5` (1 January 2017). -/
theorem UTC2TT_formula_witness :
    ((2437300.5 : ℚ) ≤ 2457754.5 ∧ (2457754.5 : ℚ) ≤ 2458254.5) ∧
    ∃ DT L : ℚ, DeltaT (fun _ => 2017) 2457754.5 = some DT ∧
      CumulativeLeapSeconds 2457754.5 = some L ∧
      UTC2TT (fun _ => 2017) 2457754.5 =
        some ((2457754.5 - (DT - L - 32.184) / 86400) + DT / 86400) :=
  ⟨⟨by norm_num, by norm_num⟩,
    UTC2TT_formula (fun _ => 2017) 2457754.5 (by norm_num) (by norm_num)⟩

/-- The body of `UT1MinusUTC` once `DeltaT` and `CumulativeLeapSeconds` have returned. -/
theorem UT1MinusUTC_unfold (FractionalYear : ℚ → ℚ) (JD DT L : ℚ)
    (hDT : DeltaT FractionalYear JD = some DT) (hL : CumulativeLeapSeconds JD = some L) :
    UT1MinusUTC FractionalYear JD =
      some ((JD - (JD + ((DT - L - 32.184) / 86400))) * 86400) := by
  unfold UT1MinusUTC
  simp only [hDT, hL]

/-- C11: for every `JD`, with no window test and no fallback, `UT1MinusUTC JD` is
`(JD - JDUTC) * 86400` where `JDUTC = JD + (DeltaT JD - CumulativeLeapSeconds JD - 32.184)/86400`,
both `DeltaT` and `CumulativeLeapSeconds` being evaluated at the input `JD` itself. -/
theorem UT1MinusUTC_formula (FractionalYear : ℚ → ℚ) (JD : ℚ) :
    ∃ DT L : ℚ, DeltaT FractionalYear JD = some DT ∧ CumulativeLeapSeconds JD = some L ∧
      UT1MinusUTC FractionalYear JD =
        some ((JD - (JD + (DT - L - 32.184) / 86400)) * 86400) := by
  obtain ⟨DT, hDT⟩ := DeltaT_total FractionalYear JD
  obtain ⟨L, hL⟩ := CumulativeLeapSeconds_total JD
  exact ⟨DT, L, hDT, hL, UT1MinusUTC_unfold FractionalYear JD DT L hDT hL⟩

/-- Inside the leap-second window the delta-T term of `TT2UTC` cancels. -/
theorem TT2UTC_eq_sub (FractionalYear : ℚ → ℚ) (JD L : ℚ)
    (h1 : 2437300.5 ≤ JD) (h2 : JD ≤ 2458254.5) (hL : CumulativeLeapSeconds JD = some L) :
    TT2UTC FractionalYear JD = some (JD - (L + 32.184) / 86400) := by
  obtain ⟨DT, hDT⟩ := DeltaT_total FractionalYear JD
  rw [TT2UTC_in_range FractionalYear JD DT L h1 h2 hDT hL]
  apply congrArg some
  norm_num
  ring

/-- Inside the leap-second window the delta-T term of `UTC2TT` cancels. -/
theorem UTC2TT_eq_add (FractionalYear : ℚ → ℚ) (JD L : ℚ)
    (h1 : 2437300.5 ≤ JD) (h2 : JD ≤ 2458254.5) (hL : CumulativeLeapSeconds JD = some L) :
    UTC2TT FractionalYear JD = some (JD + (L + 32.184) / 86400) := by
  obtain ⟨DT, hDT⟩ := DeltaT_total FractionalYear JD
  rw [UTC2TT_in_range FractionalYear JD DT L h1 h2 hDT hL]
  apply congrArg some
  norm_num
  ring

/-- The value of `TT2UTC` at 1 January 2017: 69.184 seconds before the input. -/
theorem TT2UTC_2017 (FractionalYear : ℚ → ℚ) :
    TT2UTC FractionalYear 2457754.5 = some (2457754.5 - 69.184 / 86400) := by
  rw [TT2UTC_eq_sub FractionalYear 2457754.5 37 (by norm_num) (by norm_num)
    (CumulativeLeapSeconds_after_last 2457754.5 (le_refl _))]
  apply congrArg some
  norm_num

/-- The leap seconds at the image of 1 January 2017 under `TT2UTC`: the row of
1 July 2015 applies, one second less than at the input. -/
theorem CumulativeLeapSeconds_before_2017 :
    CumulativeLeapSeconds (2457754.5 - 69.184 / 86400) = some 36 := by
  decide!

/-- `UTC2TT` after `TT2UTC` at 1 January 2017 is one second before the input. -/
theorem UTC2TT_TT2UTC_2017 (FractionalYear : ℚ → ℚ) :
    (TT2UTC FractionalYear 2457754.5).bind (UTC2TT FractionalYear) =
      some (2457754.5 - 1 / 86400) := by
  rw [TT2UTC_2017, Option.some_bind,
    UTC2TT_eq_add FractionalYear _ 36 (by norm_num) (by norm_num)
      CumulativeLeapSeconds_before_2017]
  apply congrArg some
  norm_num

/-- `TT2UTC` after `UTC2TT` at 1 January 2017 is the input. -/
theorem TT2UTC_UTC2TT_2017 (FractionalYear : ℚ → ℚ) :
    (UTC2TT FractionalYear 2457754.5).bind (TT2UTC FractionalYear) = some 2457754.5 := by
  rw [UTC2TT_eq_add FractionalYear 2457754.5 37 (by norm_num) (by norm_num)
    (CumulativeLeapSeconds_after_last 2457754.5 (le_refl _)), Option.some_bind,
    TT2UTC_eq_sub FractionalYear _ 37 (by norm_num) (by norm_num)
      (CumulativeLeapSeconds_after_last _ (by norm_num))]
  apply congrArg some
  norm_num

/-- C12, counterexample: at `JD = 2457754.5` (1 January 2017, inside the window)
`UTC2TT (TT2UTC JD)` is `JD - 1/86400`, one second before `JD`, which is not within
`1e-9` days of `JD`. -/
theorem UTC2TT_TT2UTC_tolerance_counterexample :
    ((2437300.5 : ℚ) ≤ 2457754.5 ∧ (2457754.5 : ℚ) ≤ 2458254.5) ∧
    (TT2UTC (fun _ => 2017) 2457754.5).bind (UTC2TT (fun _ => 2017)) =
      some (2457754.5 - 1 / 86400) ∧
    ¬ (|(2457754.5 - 1 / 86400 : ℚ) - 2457754.5| ≤ 1e-9) := by
  refine ⟨⟨by norm_num, by norm_num⟩, UTC2TT_TT2UTC_2017 _, ?_⟩
  rw [abs_le]
  norm_num

/-- Between two adjacent rows `lo` and `hi` of the delta-T table, `DeltaT` is the
interpolation between these two rows. -/
theorem DeltaT_between_rows (FractionalYear : ℚ → ℚ) (i : Nat) (lo hi : DeltaTValue) (JD : ℚ)
    (hlo : g_DeltaTValues[i]? = some lo) (hhi : g_DeltaTValues[i + 1]? = some hi)
    (h1 : lo.JD ≤ JD) (h2 : JD < hi.JD) :
    DeltaT FractionalYear JD =
      some ((JD - lo.JD) / (hi.JD - lo.JD) * (hi.DeltaT - lo.DeltaT) + lo.DeltaT) := by
  obtain ⟨hilen, _⟩ := List.getElem?_eq_some.mp hhi
  rw [g_DeltaTValues_length] at hilen
  have hfirst : (2441714.5 : ℚ) ≤ lo.JD := by
    rcases Nat.eq_zero_or_pos i with h0 | hpos
    · rw [h0, g_DeltaTValues_first] at hlo
      rw [← Option.some.inj hlo]
    · exact le_of_lt (g_DeltaTValues_lt 0 i _ lo hpos g_DeltaTValues_first hlo)
  have hlast : hi.JD ≤ 2463232.5 := by
    rcases Nat.eq_or_lt_of_le (show i + 1 ≤ 1896 by omega) with heq | hlt
    · rw [heq, g_DeltaTValues_last] at hhi
      rw [← Option.some.inj hhi]
    · exact le_of_lt (g_DeltaTValues_lt (i + 1) 1896 hi _ hlt hhi g_DeltaTValues_last)
  obtain ⟨k, hi2, lo2, hk0, hhi2, hlo2, hgt, hbelow, _, hD⟩ :=
    DeltaT_in_table FractionalYear JD (le_trans hfirst h1) (lt_of_lt_of_le h2 hlast)
  have hk : k = i + 1 := by
    rcases Nat.lt_trichotomy k (i + 1) with hlt | heq | hgt2
    · exfalso
      have hle : hi2.JD ≤ lo.JD := by
        rcases Nat.eq_or_lt_of_le (show k ≤ i by omega) with heq | hlt2
        · rw [heq, hlo] at hhi2
          rw [← Option.some.inj hhi2]
        · exact le_of_lt (g_DeltaTValues_lt k i hi2 lo hlt2 hhi2 hlo)
      exact absurd (lt_of_lt_of_le hgt (le_trans hle h1)) (lt_irrefl _)
    · exact heq
    · exact absurd (hbelow (i + 1) hi hgt2 hhi) (not_le.mpr h2)
  subst hk
  rw [hhi] at hhi2
  rw [Nat.add_sub_cancel, hlo] at hlo2
  rw [hD, ← Option.some.inj hhi2, ← Option.some.inj hlo2]

set_option maxRecDepth 100000 in
theorem g_DeltaTValues_row_324 :
    g_DeltaTValues[324]? = some (DeltaTValue.mk 2451575.5 63.8557) := by
  decide!

/-- The value of `DeltaT` at J2000.0, from the rows of 1 January and 1 February 2000. -/
theorem DeltaT_J2000 (FractionalYear : ℚ → ℚ) :
    DeltaT FractionalYear 2451545 = some (19786971 / 310000) := by
  rw [DeltaT_between_rows FractionalYear 323 _ _ 2451545 g_DeltaTValues_row_323
    g_DeltaTValues_row_324 (by norm_num) (by norm_num)]
  apply congrArg some
  norm_num

set_option maxRecDepth 100000 in
theorem g_DeltaTValues_row_1895 :
    g_DeltaTValues[1895]? = some (DeltaTValue.mk 2463141.25 71.97) := by
  decide!

theorem DeltaT_polynomial_2032 : DeltaT.polynomial 2032 = 1233634 / 15625 := by
  decide!

/-- C14, counterexample: at `JD = 2457754.5` (1 January 2017) `UTC2TT (TT2UTC JD)` is
`JD - 1/86400`, which is not within `1e-6` days of `JD`. -/
theorem TT2UTC_UTC2TT_2017_counterexample :
    (TT2UTC (fun _ => 2017) 2457754.5).bind (UTC2TT (fun _ => 2017)) =
      some (2457754.5 - 1 / 86400) ∧
    ¬ (|(2457754.5 - 1 / 86400 : ℚ) - 2457754.5| ≤ 1e-6) := by
  refine ⟨UTC2TT_TT2UTC_2017 _, ?_⟩
  rw [abs_le]
  norm_num

/-- C14, amended: at `JD = 2457754.5` (1 January 2017) `TT2UTC (UTC2TT JD)` is `JD` exactly,
so within `1e-6` days, and `UTC2TT (TT2UTC JD)` is `JD - 1/86400`, one second before `JD`:
within `1.16e-5` days of `JD`. -/
theorem TT2UTC_UTC2TT_2017_inverses (FractionalYear : ℚ → ℚ) :
    (UTC2TT FractionalYear 2457754.5).bind (TT2UTC FractionalYear) = some 2457754.5 ∧
    |(2457754.5 : ℚ) - 2457754.5| ≤ 1e-6 ∧
    (TT2UTC FractionalYear 2457754.5).bind (UTC2TT FractionalYear) =
      some (2457754.5 - 1 / 86400) ∧
    |(2457754.5 - 1 / 86400 : ℚ) - 2457754.5| ≤ 1.16e-5 := by
  refine ⟨TT2UTC_UTC2TT_2017 _, ?_, UTC2TT_TT2UTC_2017 _, ?_⟩
  · norm_num
  · rw [abs_le]
    norm_num

/-- A value interpolated between `a` and `b` lies between them. -/
theorem interpolation_between (a b t : ℚ) (ht0 : 0 ≤ t) (ht1 : t ≤ 1) :
    min a b ≤ t * (b - a) + a ∧ t * (b - a) + a ≤ max a b := by
  rcases le_total a b with hab | hab
  · rw [min_eq_left hab, max_eq_right hab]
    constructor
    · nlinarith [mul_nonneg ht0 (sub_nonneg.mpr hab)]
    · nlinarith [mul_nonneg (sub_nonneg.mpr ht1) (sub_nonneg.mpr hab)]
  · rw [min_eq_right hab, max_eq_left hab]
    constructor
    · nlinarith [mul_nonneg (sub_nonneg.mpr ht1) (sub_nonneg.mpr hab)]
    · nlinarith [mul_nonneg ht0 (sub_nonneg.mpr hab)]

/-- The interpolation between `a` and `b` moves from `a` towards `b` as `t` grows. -/
theorem interpolation_monotone (a b t1 t2 : ℚ) (h : t1 ≤ t2) :
    (a ≤ b → t1 * (b - a) + a ≤ t2 * (b - a) + a) ∧
    (a ≥ b → t1 * (b - a) + a ≥ t2 * (b - a) + a) := by
  constructor
  · intro hab
    nlinarith [mul_nonneg (sub_nonneg.mpr h) (sub_nonneg.mpr hab)]
  · intro hab
    nlinarith [mul_nonneg (sub_nonneg.mpr h) (sub_nonneg.mpr hab)]

/-- Between two adjacent rows of the delta-T table `DeltaT` is affine in `JD`, monotone
between the two tabulated values, and bounded by them. -/
theorem DeltaT_affine_between_rows (FractionalYear : ℚ → ℚ) (i : Nat) (lo hi : DeltaTValue)
    (JD1 JD2 : ℚ)
    (hlo : g_DeltaTValues[i]? = some lo) (hhi : g_DeltaTValues[i + 1]? = some hi)
    (h1 : lo.JD ≤ JD1) (h12 : JD1 ≤ JD2) (h2 : JD2 < hi.JD) :
    ∃ D1 D2 : ℚ, DeltaT FractionalYear JD1 = some D1 ∧ DeltaT FractionalYear JD2 = some D2 ∧
      D1 = lo.DeltaT + (hi.DeltaT - lo.DeltaT) / (hi.JD - lo.JD) * (JD1 - lo.JD) ∧
      D2 = lo.DeltaT + (hi.DeltaT - lo.DeltaT) / (hi.JD - lo.JD) * (JD2 - lo.JD) ∧
      (lo.DeltaT ≤ hi.DeltaT → D1 ≤ D2) ∧ (lo.DeltaT ≥ hi.DeltaT → D1 ≥ D2) ∧
      (min lo.DeltaT hi.DeltaT ≤ D1 ∧ D1 ≤ max lo.DeltaT hi.DeltaT) ∧
      (min lo.DeltaT hi.DeltaT ≤ D2 ∧ D2 ≤ max lo.DeltaT hi.DeltaT) := by
  have hd : 0 < hi.JD - lo.JD :=
    sub_pos.mpr (g_DeltaTValues_lt i (i + 1) lo hi (Nat.lt_succ_self i) hlo hhi)
  have hD1 := DeltaT_between_rows FractionalYear i lo hi JD1 hlo hhi h1 (lt_of_le_of_lt h12 h2)
  have hD2 := DeltaT_between_rows FractionalYear i lo hi JD2 hlo hhi (le_trans h1 h12) h2
  have ht1 : 0 ≤ (JD1 - lo.JD) / (hi.JD - lo.JD) := div_nonneg (sub_nonneg.mpr h1) hd.le
  have ht12 : (JD1 - lo.JD) / (hi.JD - lo.JD) ≤ (JD2 - lo.JD) / (hi.JD - lo.JD) :=
    div_le_div_of_nonneg_right (by linarith) hd.le
  have ht2 : (JD2 - lo.JD) / (hi.JD - lo.JD) ≤ 1 := by
    rw [div_le_one hd]
    linarith
  have hmono := interpolation_monotone lo.DeltaT hi.DeltaT _ _ ht12
  refine ⟨_, _, hD1, hD2, ?_, ?_, hmono.1, hmono.2,
    interpolation_between lo.DeltaT hi.DeltaT _ ht1 (le_trans ht12 ht2),
    interpolation_between lo.DeltaT hi.DeltaT _ (le_trans ht1 ht12) ht2⟩
  · ring
  · ring

/-- C15: for every pair of adjacent rows `lo`, `hi` of the delta-T table and all
`JD1 ≤ JD2` in `[lo.JD, hi.JD)`, `DeltaT` is affine on that interval (the same intercept and
slope at `JD1` and `JD2`), `DeltaT JD1 ≤ DeltaT JD2` when `lo.DeltaT ≤ hi.DeltaT`,
`DeltaT JD1 ≥ DeltaT JD2` when `lo.DeltaT ≥ hi.DeltaT`, and both values lie between the
minimum and the maximum of `lo.DeltaT` and `hi.DeltaT`. -/
theorem DeltaT_monotone_between_entries (FractionalYear : ℚ → ℚ) (i : Nat)
    (lo hi : DeltaTValue) (JD1 JD2 : ℚ)
    (hlo : g_DeltaTValues[i]? = some lo) (hhi : g_DeltaTValues[i + 1]? = some hi)
    (h1 : lo.JD ≤ JD1) (h12 : JD1 ≤ JD2) (h2 : JD2 < hi.JD) :
    ∃ D1 D2 : ℚ, DeltaT FractionalYear JD1 = some D1 ∧ DeltaT FractionalYear JD2 = some D2 ∧
      D1 = lo.DeltaT + (hi.DeltaT - lo.DeltaT) / (hi.JD - lo.JD) * (JD1 - lo.JD) ∧
      D2 = lo.DeltaT + (hi.DeltaT - lo.DeltaT) / (hi.JD - lo.JD) * (JD2 - lo.JD) ∧
      (lo.DeltaT ≤ hi.DeltaT → D1 ≤ D2) ∧ (lo.DeltaT ≥ hi.DeltaT → D1 ≥ D2) ∧
      (min lo.DeltaT hi.DeltaT ≤ D1 ∧ D1 ≤ max lo.DeltaT hi.DeltaT) ∧
      (min lo.DeltaT hi.DeltaT ≤ D2 ∧ D2 ≤ max lo.DeltaT hi.DeltaT) :=
  DeltaT_affine_between_rows FractionalYear i lo hi JD1 JD2 hlo hhi h1 h12 h2

/-- C15 between the rows of 1 January 2000 and 1 February 2000, at `JD1 = 2451545` and
`JD2 = 2451560`. -/
theorem DeltaT_monotone_between_entries_witness :
    ∃ D1 D2 : ℚ, DeltaT (fun _ => 2000) 2451545 = some D1 ∧
      DeltaT (fun _ => 2000) 2451560 = some D2 ∧
      D1 = 63.8285 + (63.8557 - 63.8285) / (2451575.5 - 2451544.5) * (2451545 - 2451544.5) ∧
      D2 = 63.8285 + (63.8557 - 63.8285) / (2451575.5 - 2451544.5) * (2451560 - 2451544.5) ∧
      ((63.8285 : ℚ) ≤ 63.8557 → D1 ≤ D2) ∧ ((63.8285 : ℚ) ≥ 63.8557 → D1 ≥ D2) ∧
      (min (63.8285 : ℚ) 63.8557 ≤ D1 ∧ D1 ≤ max (63.8285 : ℚ) 63.8557) ∧
      (min (63.8285 : ℚ) 63.8557 ≤ D2 ∧ D2 ≤ max (63.8285 : ℚ) 63.8557) :=
  DeltaT_monotone_between_entries (fun _ => 2000) 323
    (DeltaTValue.mk 2451544.5 63.8285) (DeltaTValue.mk 2451575.5 63.8557) 2451545 2451560
    g_DeltaTValues_row_323 g_DeltaTValues_row_324 (by norm_num) (by norm_num) (by norm_num)

/-- A quantity bounded by `s * t` is below `ε` once `t` is below `ε / (s + 1)`. -/
theorem abs_lt_of_le_mul (x s t ε : ℚ) (hs : 0 ≤ s) (hx : |x| ≤ s * t)
    (ht : t < ε / (s + 1)) (hε : 0 < ε) : |x| < ε := by
  have hs1 : 0 < s + 1 := by linarith
  have h1 : t * (s + 1) < ε := (lt_div_iff₀ hs1).mp ht
  rcases le_or_lt 0 t with h0 | h0
  · nlinarith
  · nlinarith [mul_nonneg hs (le_of_lt (neg_pos.mpr h0))]

/-- Between two adjacent rows, the distance of `DeltaT` to the value of the upper row is
proportional to the distance of `JD` to the `JD` of the upper row. -/
theorem DeltaT_gap_to_upper (FractionalYear : ℚ → ℚ) (i : Nat) (lo hi : DeltaTValue) (JD : ℚ)
    (hlo : g_DeltaTValues[i]? = some lo) (hhi : g_DeltaTValues[i + 1]? = some hi)
    (h1 : lo.JD ≤ JD) (h2 : JD < hi.JD) :
    ∃ D : ℚ, DeltaT FractionalYear JD = some D ∧
      |D - hi.DeltaT| = |hi.DeltaT - lo.DeltaT| * (hi.JD - JD) / (hi.JD - lo.JD) := by
  have hd : 0 < hi.JD - lo.JD :=
    sub_pos.mpr (g_DeltaTValues_lt i (i + 1) lo hi (Nat.lt_succ_self i) hlo hhi)
  refine ⟨_, DeltaT_between_rows FractionalYear i lo hi JD hlo hhi h1 h2, ?_⟩
  have he : (JD - lo.JD) / (hi.JD - lo.JD) * (hi.DeltaT - lo.DeltaT) + lo.DeltaT - hi.DeltaT =
      -((hi.DeltaT - lo.DeltaT) * ((hi.JD - JD) / (hi.JD - lo.JD))) := by
    field_simp
    ring
  have hnn : 0 ≤ (hi.JD - JD) / (hi.JD - lo.JD) := div_nonneg (by linarith) hd.le
  rw [he, abs_neg, abs_mul, abs_of_nonneg hnn, mul_div_assoc]

/-- Between two adjacent rows, the difference of two values of `DeltaT` is proportional to the
difference of the two dates. -/
theorem DeltaT_difference_between_rows (FractionalYear : ℚ → ℚ) (i : Nat)
    (lo hi : DeltaTValue) (JD JD0 : ℚ)
    (hlo : g_DeltaTValues[i]? = some lo) (hhi : g_DeltaTValues[i + 1]? = some hi)
    (h1 : lo.JD ≤ JD) (h2 : JD < hi.JD) (h3 : lo.JD ≤ JD0) (h4 : JD0 < hi.JD) :
    ∃ D D0 : ℚ, DeltaT FractionalYear JD = some D ∧ DeltaT FractionalYear JD0 = some D0 ∧
      |D - D0| = |hi.DeltaT - lo.DeltaT| / (hi.JD - lo.JD) * |JD - JD0| := by
  have hd : 0 < hi.JD - lo.JD :=
    sub_pos.mpr (g_DeltaTValues_lt i (i + 1) lo hi (Nat.lt_succ_self i) hlo hhi)
  refine ⟨_, _, DeltaT_between_rows FractionalYear i lo hi JD hlo hhi h1 h2,
    DeltaT_between_rows FractionalYear i lo hi JD0 hlo hhi h3 h4, ?_⟩
  have he : (JD - lo.JD) / (hi.JD - lo.JD) * (hi.DeltaT - lo.DeltaT) + lo.DeltaT -
      ((JD0 - lo.JD) / (hi.JD - lo.JD) * (hi.DeltaT - lo.DeltaT) + lo.DeltaT) =
      (hi.DeltaT - lo.DeltaT) / (hi.JD - lo.JD) * (JD - JD0) := by
    field_simp
    ring
  rw [he, abs_mul, abs_div, abs_of_pos hd]

/-- At a row of the delta-T table other than the first, the left limit of `DeltaT` is the
value of the row. -/
theorem DeltaT_left_limit (FractionalYear : ℚ → ℚ) (i : Nat) (e : DeltaTValue)
    (hi0 : 0 < i) (he : g_DeltaTValues[i]? = some e) (ε : ℚ) (hε : 0 < ε) :
    ∃ δ : ℚ, 0 < δ ∧ ∀ JD : ℚ, e.JD - δ < JD → JD < e.JD →
      ∃ D : ℚ, DeltaT FractionalYear JD = some D ∧ |D - e.DeltaT| < ε := by
  obtain ⟨hil, _⟩ := List.getElem?_eq_some.mp he
  have hpl : i - 1 < g_DeltaTValues.length := by omega
  have hprev : g_DeltaTValues[i - 1]? = some g_DeltaTValues[i - 1] :=
    List.getElem?_eq_getElem hpl
  have he2 : g_DeltaTValues[i - 1 + 1]? = some e := by
    rw [Nat.sub_add_cancel hi0]
    exact he
  have hd : 0 < e.JD - g_DeltaTValues[i - 1].JD :=
    sub_pos.mpr (g_DeltaTValues_lt (i - 1) i _ e (by omega) hprev he)
  have hs : 0 ≤ |e.DeltaT - g_DeltaTValues[i - 1].DeltaT| / (e.JD - g_DeltaTValues[i - 1].JD) :=
    div_nonneg (abs_nonneg _) hd.le
  have hq : 0 < ε /
      (|e.DeltaT - g_DeltaTValues[i - 1].DeltaT| / (e.JD - g_DeltaTValues[i - 1].JD) + 1) :=
    div_pos hε (by linarith)
  refine ⟨min (e.JD - g_DeltaTValues[i - 1].JD) (ε /
      (|e.DeltaT - g_DeltaTValues[i - 1].DeltaT| / (e.JD - g_DeltaTValues[i - 1].JD) + 1)),
    lt_min hd hq, ?_⟩
  intro JD hJ1 hJ2
  have hδ1 := min_le_left (e.JD - g_DeltaTValues[i - 1].JD) (ε /
      (|e.DeltaT - g_DeltaTValues[i - 1].DeltaT| / (e.JD - g_DeltaTValues[i - 1].JD) + 1))
  have hδ2 := min_le_right (e.JD - g_DeltaTValues[i - 1].JD) (ε /
      (|e.DeltaT - g_DeltaTValues[i - 1].DeltaT| / (e.JD - g_DeltaTValues[i - 1].JD) + 1))
  obtain ⟨D, hD, hgap⟩ := DeltaT_gap_to_upper FractionalYear (i - 1) _ e JD hprev he2
    (by linarith) hJ2
  refine ⟨D, hD, ?_⟩
  apply abs_lt_of_le_mul (D - e.DeltaT) _ (e.JD - JD) ε hs _ (by linarith) hε
  rw [hgap]
  apply le_of_eq
  ring

/-- Inside the span of the delta-T table `DeltaT` is continuous from the right. -/
theorem DeltaT_right_continuous (FractionalYear : ℚ → ℚ) (JD0 : ℚ)
    (h1 : 2441714.5 ≤ JD0) (h2 : JD0 < 2463232.5) (ε : ℚ) (hε : 0 < ε) :
    ∃ δ : ℚ, 0 < δ ∧ ∀ JD : ℚ, JD0 ≤ JD → JD < JD0 + δ →
      ∃ D D0 : ℚ, DeltaT FractionalYear JD = some D ∧ DeltaT FractionalYear JD0 = some D0 ∧
        |D - D0| < ε := by
  obtain ⟨k, hi, lo, hk0, hhi, hlo, hgt, hbelow, _, _⟩ :=
    DeltaT_in_table FractionalYear JD0 h1 h2
  have hloJ : lo.JD ≤ JD0 := hbelow (k - 1) lo (by omega) hlo
  have hhi2 : g_DeltaTValues[k - 1 + 1]? = some hi := by
    rw [Nat.sub_add_cancel hk0]
    exact hhi
  have hd : 0 < hi.JD - lo.JD := by linarith
  have hs : 0 ≤ |hi.DeltaT - lo.DeltaT| / (hi.JD - lo.JD) := div_nonneg (abs_nonneg _) hd.le
  have hq : 0 < ε / (|hi.DeltaT - lo.DeltaT| / (hi.JD - lo.JD) + 1) :=
    div_pos hε (by linarith)
  refine ⟨min (hi.JD - JD0) (ε / (|hi.DeltaT - lo.DeltaT| / (hi.JD - lo.JD) + 1)),
    lt_min (by linarith) hq, ?_⟩
  intro JD hJ1 hJ2
  have hδ1 := min_le_left (hi.JD - JD0) (ε / (|hi.DeltaT - lo.DeltaT| / (hi.JD - lo.JD) + 1))
  have hδ2 := min_le_right (hi.JD - JD0) (ε / (|hi.DeltaT - lo.DeltaT| / (hi.JD - lo.JD) + 1))
  obtain ⟨D, D0, hD, hD0, hdiff⟩ := DeltaT_difference_between_rows FractionalYear (k - 1)
    lo hi JD JD0 hlo hhi2 (by linarith) (by linarith) hloJ hgt
  refine ⟨D, D0, hD, hD0, ?_⟩
  apply abs_lt_of_le_mul (D - D0) _ |JD - JD0| ε hs (le_of_eq hdiff) _ hε
  rw [abs_of_nonneg (by linarith)]
  linarith

/-- Inside the span of the delta-T table, after its first row, `DeltaT` is continuous from
the left. -/
theorem DeltaT_left_continuous (FractionalYear : ℚ → ℚ) (JD0 : ℚ)
    (h1 : 2441714.5 < JD0) (h2 : JD0 < 2463232.5) (ε : ℚ) (hε : 0 < ε) :
    ∃ δ : ℚ, 0 < δ ∧ ∀ JD : ℚ, JD0 - δ < JD → JD < JD0 →
      ∃ D D0 : ℚ, DeltaT FractionalYear JD = some D ∧ DeltaT FractionalYear JD0 = some D0 ∧
        |D - D0| < ε := by
  obtain ⟨k, hi, lo, hk0, hhi, hlo, hgt, hbelow, _, _⟩ :=
    DeltaT_in_table FractionalYear JD0 h1.le h2
  have hloJ : lo.JD ≤ JD0 := hbelow (k - 1) lo (by omega) hlo
  have hhi2 : g_DeltaTValues[k - 1 + 1]? = some hi := by
    rw [Nat.sub_add_cancel hk0]
    exact hhi
  rcases lt_or_eq_of_le hloJ with hlt | heq
  · have hd : 0 < hi.JD - lo.JD := by linarith
    have hs : 0 ≤ |hi.DeltaT - lo.DeltaT| / (hi.JD - lo.JD) :=
      div_nonneg (abs_nonneg _) hd.le
    have hq : 0 < ε / (|hi.DeltaT - lo.DeltaT| / (hi.JD - lo.JD) + 1) :=
      div_pos hε (by linarith)
    refine ⟨min (JD0 - lo.JD) (ε / (|hi.DeltaT - lo.DeltaT| / (hi.JD - lo.JD) + 1)),
      lt_min (by linarith) hq, ?_⟩
    intro JD hJ1 hJ2
    have hδ1 := min_le_left (JD0 - lo.JD)
      (ε / (|hi.DeltaT - lo.DeltaT| / (hi.JD - lo.JD) + 1))
    have hδ2 := min_le_right (JD0 - lo.JD)
      (ε / (|hi.DeltaT - lo.DeltaT| / (hi.JD - lo.JD) + 1))
    obtain ⟨D, D0, hD, hD0, hdiff⟩ := DeltaT_difference_between_rows FractionalYear (k - 1)
      lo hi JD JD0 hlo hhi2 (by linarith) (by linarith) hloJ hgt
    refine ⟨D, D0, hD, hD0, ?_⟩
    apply abs_lt_of_le_mul (D - D0) _ |JD - JD0| ε hs (le_of_eq hdiff) _ hε
    rw [abs_of_nonpos (by linarith)]
    linarith
  · have hk1 : 0 < k - 1 := by
      rcases Nat.eq_zero_or_pos (k - 1) with h0 | hpos
      · exfalso
        rw [h0, g_DeltaTValues_first] at hlo
        rw [← Option.some.inj hlo] at heq
        exact absurd heq (ne_of_lt h1)
      · exact hpos
    obtain ⟨hkl, _⟩ := List.getElem?_eq_some.mp hhi
    obtain ⟨δ, hδ, hlim⟩ := DeltaT_left_limit FractionalYear (k - 1) lo hk1 hlo ε hε
    have hD0 : DeltaT FractionalYear JD0 = some lo.DeltaT := by
      rw [← heq]
      exact DeltaT_at_row FractionalYear (k - 1) lo (by omega) hlo
    refine ⟨δ, hδ, ?_⟩
    intro JD hJ1 hJ2
    obtain ⟨D, hD, hlt⟩ := hlim JD (by linarith) (by linarith)
    exact ⟨D, lo.DeltaT, hD, hD0, hlt⟩

/-- Inside the span of the delta-T table `DeltaT` is continuous. -/
theorem DeltaT_continuous_in_table (FractionalYear : ℚ → ℚ) (JD0 : ℚ)
    (h1 : 2441714.5 ≤ JD0) (h2 : JD0 < 2463232.5) (ε : ℚ) (hε : 0 < ε) :
    ∃ δ : ℚ, 0 < δ ∧ ∀ JD : ℚ, 2441714.5 ≤ JD → JD < 2463232.5 → |JD - JD0| < δ →
      ∃ D D0 : ℚ, DeltaT FractionalYear JD = some D ∧ DeltaT FractionalYear JD0 = some D0 ∧
        |D - D0| < ε := by
  obtain ⟨δr, hδr, hright⟩ := DeltaT_right_continuous FractionalYear JD0 h1 h2 ε hε
  rcases lt_or_eq_of_le h1 with hlt | heq
  · obtain ⟨δl, hδl, hleft⟩ := DeltaT_left_continuous FractionalYear JD0 hlt h2 ε hε
    refine ⟨min δl δr, lt_min hδl hδr, ?_⟩
    intro JD _ _ hJ
    have hJ2 := abs_lt.mp hJ
    have hm1 := min_le_left δl δr
    have hm2 := min_le_right δl δr
    rcases lt_or_le JD JD0 with hc | hc
    · exact hleft JD (by linarith) hc
    · exact hright JD hc (by linarith)
  · refine ⟨δr, hδr, ?_⟩
    intro JD hJ1 _ hJ
    have hJ2 := abs_lt.mp hJ
    exact hright JD (by linarith) (by linarith)

/-- C16: between the last two rows of the delta-T table, `{2463141.25, 71.97}` and
`{2463232.5, 72.07}`, the distance of `DeltaT JD` to the last tabulated value `72.07` is
`|72.07 - 71.97| * (2463232.5 - JD)/(2463232.5 - 2463141.25)`, so it tends to `0` as `JD`
approaches `2463232.5` from below; at every row of the table after the first the left limit
of `DeltaT` is the value of the row; and `DeltaT` is continuous on the whole span of the
table. -/
theorem DeltaT_approaches_last_entry (FractionalYear : ℚ → ℚ) :
    (g_DeltaTValues[g_DeltaTValues.length - 2]? = some (DeltaTValue.mk 2463141.25 71.97) ∧
      g_DeltaTValues[g_DeltaTValues.length - 1]? = some (DeltaTValue.mk 2463232.5 72.07)) ∧
    (∀ JD : ℚ, 2463141.25 ≤ JD → JD < 2463232.5 →
      ∃ D : ℚ, DeltaT FractionalYear JD = some D ∧
        |D - 72.07| = |72.07 - 71.97| * (2463232.5 - JD) / (2463232.5 - 2463141.25)) ∧
    (∀ (i : Nat) (e : DeltaTValue), 0 < i → g_DeltaTValues[i]? = some e →
      ∀ ε : ℚ, 0 < ε → ∃ δ : ℚ, 0 < δ ∧ ∀ JD : ℚ, e.JD - δ < JD → JD < e.JD →
        ∃ D : ℚ, DeltaT FractionalYear JD = some D ∧ |D - e.DeltaT| < ε) ∧
    (∀ JD0 : ℚ, 2441714.5 ≤ JD0 → JD0 < 2463232.5 →
      ∀ ε : ℚ, 0 < ε → ∃ δ : ℚ, 0 < δ ∧
        ∀ JD : ℚ, 2441714.5 ≤ JD → JD < 2463232.5 → |JD - JD0| < δ →
          ∃ D D0 : ℚ, DeltaT FractionalYear JD = some D ∧
            DeltaT FractionalYear JD0 = some D0 ∧ |D - D0| < ε) := by
  refine ⟨⟨?_, ?_⟩, ?_, ?_, ?_⟩
  · rw [g_DeltaTValues_length]
    exact g_DeltaTValues_row_1895
  · rw [g_DeltaTValues_length]
    exact g_DeltaTValues_last
  · intro JD hJ1 hJ2
    exact DeltaT_gap_to_upper FractionalYear 1895 (DeltaTValue.mk 2463141.25 71.97)
      (DeltaTValue.mk 2463232.5 72.07) JD g_DeltaTValues_row_1895 g_DeltaTValues_last hJ1 hJ2
  · intro i e hi0 he ε hε
    exact DeltaT_left_limit FractionalYear i e hi0 he ε hε
  · intro JD0 h1 h2 ε hε
    exact DeltaT_continuous_in_table FractionalYear JD0 h1 h2 ε hε

/-- C16 at `JD = 2463232` (half a day before the last row): the distance to `72.07` is
`0.1 * 0.5 / 91.25`. -/
theorem DeltaT_approaches_last_entry_witness :
    ∃ D : ℚ, DeltaT (fun _ => 2032) 2463232 = some D ∧
      |D - 72.07| = |72.07 - 71.97| * (2463232.5 - 2463232) / (2463232.5 - 2463141.25) :=
  (DeltaT_approaches_last_entry (fun _ => 2032)).2.1 2463232 (by norm_num) (by norm_num)

/-- The loop of `DeltaT` visits the indices up to the least row after `JD` and ends there. -/
theorem DeltaT_foundIndex_eq (tbl : List DeltaTValue) (JD : ℚ) (k : Nat) (hi : DeltaTValue)
    (hhi : tbl[k]? = some hi) (hgt : JD < hi.JD)
    (hbelow : ∀ j e, j < k → tbl[j]? = some e → e.JD ≤ JD) :
    ∀ fuel i, i ≤ k → k - i < fuel →
      DeltaT.foundIndex tbl JD fuel i = some k ∧
      DeltaT.visited tbl JD fuel i = List.range' i (k - i + 1) := by
  intro fuel
  induction fuel with
  | zero => intro i _ h; omega
  | succ fuel ih =>
    intro i hik hf
    rcases Nat.lt_or_ge i k with hlt | hge
    · obtain ⟨hklen, _⟩ := List.getElem?_eq_some.mp hhi
      have hilen : i < tbl.length := by omega
      have hie : tbl[i]? = some tbl[i] := List.getElem?_eq_getElem hilen
      have hle : tbl[i].JD ≤ JD := hbelow i tbl[i] hlt hie
      have hng : ¬ (tbl[i].JD > JD) := not_lt.mpr hle
      obtain ⟨ih1, ih2⟩ := ih (i + 1) (by omega) (by omega)
      have hcount : k - i + 1 = (k - (i + 1) + 1) + 1 := by omega
      constructor
      · rw [DeltaT.foundIndex, hie]
        simp only [hng, if_false]
        exact ih1
      · rw [DeltaT.visited, hie]
        simp only [hng, if_false]
        rw [ih2, hcount]
        exact (List.range'_succ i (k - (i + 1) + 1) 1).symm
    · have hik2 : i = k := by omega
      subst hik2
      have hg : hi.JD > JD := hgt
      constructor
      · rw [DeltaT.foundIndex, hhi]
        simp only [hg, if_true]
      · rw [DeltaT.visited, hhi]
        simp only [hg, if_true, Nat.sub_self, Nat.zero_add]
        rfl

/-- The result of the loop of `DeltaT` is the interpolation at the index the loop ends with. -/
theorem DeltaT_scan_eq_foundIndex (tbl : List DeltaTValue) (JD : ℚ) :
    ∀ fuel i k, DeltaT.foundIndex tbl JD fuel i = some k →
      ∀ hi lo : DeltaTValue, tbl[k]? = some hi → tbl[size_t_pred k]? = some lo →
        DeltaT.scan tbl JD fuel i =
          some ((JD - lo.JD) / (hi.JD - lo.JD) * (hi.DeltaT - lo.DeltaT) + lo.DeltaT) := by
  intro fuel
  induction fuel with
  | zero =>
    intro i k h
    rw [DeltaT.foundIndex] at h
    cases h
  | succ fuel ih =>
    intro i k h hi lo hhi hlo
    rw [DeltaT.foundIndex] at h
    rw [DeltaT.scan]
    cases hie : tbl[i]? with
    | none =>
      rw [hie] at h
      cases h
    | some e =>
      rw [hie] at h
      by_cases hg : e.JD > JD
      · simp only [hg, if_true] at h
        have hik : i = k := Option.some.inj h
        subst hik
        rw [hie] at hhi
        have hee : e = hi := Option.some.inj hhi
        subst hee
        simp only [hg, if_true, hlo]
      · simp only [hg, if_false] at h
        simp only [hg, if_false]
        exact ih (i + 1) k h hi lo hhi hlo

/-- In the table branch of `DeltaT` the loop ends at the least row after `JD`, having visited
the indices `0, 1, ...` up to it, all inside the table. -/
theorem DeltaT_loop_in_table (FractionalYear : ℚ → ℚ) (JD : ℚ)
    (h1 : 2441714.5 ≤ JD) (h2 : JD < 2463232.5) :
    ∃ (i : Nat) (hi lo : DeltaTValue),
      DeltaT.foundIndex g_DeltaTValues JD (g_DeltaTValues.length + 1) 0 = some i ∧
      1 ≤ i ∧ i ≤ g_DeltaTValues.length - 1 ∧
      DeltaT.visited g_DeltaTValues JD (g_DeltaTValues.length + 1) 0 = List.range (i + 1) ∧
      (∀ j ∈ DeltaT.visited g_DeltaTValues JD (g_DeltaTValues.length + 1) 0,
        j < g_DeltaTValues.length) ∧
      g_DeltaTValues[i]? = some hi ∧ size_t_pred i = i - 1 ∧
      g_DeltaTValues[i - 1]? = some lo ∧ hi.JD - lo.JD ≠ 0 ∧
      DeltaT FractionalYear JD =
        some ((JD - lo.JD) / (hi.JD - lo.JD) * (hi.DeltaT - lo.DeltaT) + lo.DeltaT) := by
  obtain ⟨k, hi, lo, hk0, hhi, hlo, hgt, hbelow, _, hD⟩ :=
    DeltaT_in_table FractionalYear JD h1 h2
  obtain ⟨hklen, _⟩ := List.getElem?_eq_some.mp hhi
  have hlen := g_DeltaTValues_length
  obtain ⟨hf, hv⟩ := DeltaT_foundIndex_eq g_DeltaTValues JD k hi hhi hgt hbelow
    (g_DeltaTValues.length + 1) 0 (Nat.zero_le _) (by omega)
  have hv2 : DeltaT.visited g_DeltaTValues JD (g_DeltaTValues.length + 1) 0 =
      List.range (k + 1) := by
    rw [hv, List.range_eq_range']
    rfl
  have hlt : lo.JD < hi.JD :=
    g_DeltaTValues_lt (k - 1) k lo hi (by omega) hlo hhi
  refine ⟨k, hi, lo, hf, hk0, by omega, hv2, ?_, hhi,
    size_t_pred_of_pos k hk0 (by omega), hlo, ne_of_gt (sub_pos.mpr hlt), hD⟩
  intro j hj
  rw [hv2] at hj
  have := List.mem_range.mp hj
  omega

/-- C20: in the table branch of `DeltaT` (`2441714.5 ≤ JD < 2463232.5`) the loop ends with a
found index `i` with `1 ≤ i ≤ n - 1`, `n` the number of rows: the values of `nFoundIndex` at
the assertion of the successive iterations are `0, 1, ..., i`, all below `n`, the rows `i` and
`i - 1` are in the table, the divisor `table[i].JD - table[i-1].JD` of the interpolation is not
zero, and `DeltaT` returns the interpolation. -/
theorem DeltaT_scan_terminates (FractionalYear : ℚ → ℚ) (JD : ℚ)
    (h1 : 2441714.5 ≤ JD) (h2 : JD < 2463232.5) :
    ∃ (i : Nat) (hi lo : DeltaTValue),
      DeltaT.foundIndex g_DeltaTValues JD (g_DeltaTValues.length + 1) 0 = some i ∧
      1 ≤ i ∧ i ≤ g_DeltaTValues.length - 1 ∧
      DeltaT.visited g_DeltaTValues JD (g_DeltaTValues.length + 1) 0 = List.range (i + 1) ∧
      (∀ j ∈ DeltaT.visited g_DeltaTValues JD (g_DeltaTValues.length + 1) 0,
        j < g_DeltaTValues.length) ∧
      g_DeltaTValues[i]? = some hi ∧ size_t_pred i = i - 1 ∧
      g_DeltaTValues[i - 1]? = some lo ∧ hi.JD - lo.JD ≠ 0 ∧
      DeltaT FractionalYear JD =
        some ((JD - lo.JD) / (hi.JD - lo.JD) * (hi.DeltaT - lo.DeltaT) + lo.DeltaT) :=
  DeltaT_loop_in_table FractionalYear JD h1 h2

/-- C20 at the first date of the table branch, `JD = 2441714.5`. -/
theorem DeltaT_scan_terminates_witness :
    ∃ (i : Nat) (hi lo : DeltaTValue),
      DeltaT.foundIndex g_DeltaTValues 2441714.5 (g_DeltaTValues.length + 1) 0 = some i ∧
      1 ≤ i ∧ i ≤ g_DeltaTValues.length - 1 ∧
      DeltaT.visited g_DeltaTValues 2441714.5 (g_DeltaTValues.length + 1) 0 =
        List.range (i + 1) ∧
      (∀ j ∈ DeltaT.visited g_DeltaTValues 2441714.5 (g_DeltaTValues.length + 1) 0,
        j < g_DeltaTValues.length) ∧
      g_DeltaTValues[i]? = some hi ∧ size_t_pred i = i - 1 ∧
      g_DeltaTValues[i - 1]? = some lo ∧ hi.JD - lo.JD ≠ 0 ∧
      DeltaT (fun _ => 1973) 2441714.5 =
        some ((2441714.5 - lo.JD) / (hi.JD - lo.JD) * (hi.DeltaT - lo.DeltaT) + lo.DeltaT) :=
  DeltaT_scan_terminates (fun _ => 1973) 2441714.5 (le_refl _) (by norm_num)

/-- C17: `DeltaT 2451545.0` (J2000.0) does not depend on the calendar: it is the interpolation
between the adjacent rows `{2451544.5, 63.8285}` and `{2451575.5, 63.8557}` of the table, it
lies between `63.8285` and `63.8557`, and it rounds to `63.83`. -/
theorem DeltaT_J2000_from_table (FractionalYear : ℚ → ℚ) :
    g_DeltaTValues[323]? = some (DeltaTValue.mk 2451544.5 63.8285) ∧
    g_DeltaTValues[323 + 1]? = some (DeltaTValue.mk 2451575.5 63.8557) ∧
    ∃ D : ℚ, DeltaT FractionalYear 2451545.0 = some D ∧
      D = (2451545.0 - 2451544.5) / (2451575.5 - 2451544.5) * (63.8557 - 63.8285) + 63.8285 ∧
      63.8285 ≤ D ∧ D ≤ 63.8557 ∧ round (D * 100) = 6383 := by
  have h : DeltaT FractionalYear 2451545.0 = some (19786971 / 310000) := by
    have h0 : (2451545.0 : ℚ) = 2451545 := by norm_num
    rw [h0]
    exact DeltaT_J2000 FractionalYear
  refine ⟨g_DeltaTValues_row_323, g_DeltaTValues_row_324, 19786971 / 310000, h,
    by norm_num, by norm_num, by norm_num, ?_⟩
  rw [round_eq, Int.floor_eq_iff]
  constructor <;> norm_num

set_option maxRecDepth 100000 in
theorem g_DeltaTValues_seam_rows :
    g_DeltaTValues[558]? = some (DeltaTValue.mk 2458696.5 69.3442) ∧
    g_DeltaTValues[559]? = some (DeltaTValue.mk 2458727.50 69.337633) ∧
    g_DeltaTValues[1860]? = some (DeltaTValue.mk 2460028.50 69.198219) ∧
    g_DeltaTValues[1861]? = some (DeltaTValue.mk 2460036.75 69.82) := by
  decide!

/-- C18: the delta-T table is strictly increasing in `JD`: of two consecutive rows the later
has the strictly greater `JD`, so no two rows have the same `JD`; this includes the seam
between the monthly and the daily rows (1 August 2019 to 1 September 2019) and the seam
between the daily and the quarterly rows (25 March 2023 to 2023.25); the `JD` of the first row
is `2441714.5`. -/
theorem g_DeltaTValues_strictly_increasing :
    (∃ first : DeltaTValue, g_DeltaTValues[0]? = some first ∧ first.JD = 2441714.5) ∧
    (∀ (i : Nat) (lo hi : DeltaTValue), g_DeltaTValues[i]? = some lo →
      g_DeltaTValues[i + 1]? = some hi → lo.JD < hi.JD) ∧
    (∀ (i j : Nat) (a b : DeltaTValue), i ≠ j → g_DeltaTValues[i]? = some a →
      g_DeltaTValues[j]? = some b → a.JD ≠ b.JD) ∧
    (g_DeltaTValues[558]? = some (DeltaTValue.mk 2458696.5 69.3442) ∧
      g_DeltaTValues[559]? = some (DeltaTValue.mk 2458727.50 69.337633) ∧
      (2458696.5 : ℚ) < 2458727.50) ∧
    (g_DeltaTValues[1860]? = some (DeltaTValue.mk 2460028.50 69.198219) ∧
      g_DeltaTValues[1861]? = some (DeltaTValue.mk 2460036.75 69.82) ∧
      (2460028.50 : ℚ) < 2460036.75) := by
  refine ⟨⟨_, g_DeltaTValues_first, rfl⟩, ?_, ?_,
    ⟨g_DeltaTValues_seam_rows.1, g_DeltaTValues_seam_rows.2.1, by norm_num⟩,
    ⟨g_DeltaTValues_seam_rows.2.2.1, g_DeltaTValues_seam_rows.2.2.2, by norm_num⟩⟩
  · intro i lo hi hlo hhi
    exact g_DeltaTValues_lt i (i + 1) lo hi (Nat.lt_succ_self i) hlo hhi
  · intro i j a b hij ha hb
    rcases Nat.lt_or_gt_of_ne hij with h | h
    · exact ne_of_lt (g_DeltaTValues_lt i j a b h ha hb)
    · exact ne_of_gt (g_DeltaTValues_lt j i b a h hb ha)

/-- Two rows at consecutive indices of a list are a pair of the list zipped with its tail. -/
theorem mem_zip_tail_of_getElem {α : Type} (l : List α) (i : Nat) (a b : α)
    (ha : l[i]? = some a) (hb : l[i + 1]? = some b) : (a, b) ∈ l.zip l.tail := by
  apply List.mem_iff_getElem?.mpr
  refine ⟨i, List.getElem?_zip_eq_some.mpr ⟨ha, ?_⟩⟩
  rw [List.getElem?_tail]
  exact hb

theorem g_LeapSecondCoefficients_zero_iff :
    ∀ e ∈ g_LeapSecondCoefficients, e.Coefficient = 0 ↔ 2441317.5 ≤ e.JD := by
  decide!

theorem g_LeapSecondCoefficients_steps :
    ∀ p ∈ g_LeapSecondCoefficients.zip g_LeapSecondCoefficients.tail,
      p.1.Coefficient = 0 → p.2.Coefficient = 0 ∧ p.2.LeapSeconds = p.1.LeapSeconds + 1.0 := by
  decide!

theorem g_LeapSecondCoefficients_zero_values :
    (g_LeapSecondCoefficients.filter (fun e => decide (e.Coefficient = 0))).map
        LeapSecondCoefficient.LeapSeconds =
      [10.0, 11.0, 12.0, 13.0, 14.0, 15.0, 16.0, 17.0, 18.0, 19.0, 20.0, 21.0, 22.0, 23.0,
        24.0, 25.0, 26.0, 27.0, 28.0, 29.0, 30.0, 31.0, 32.0, 33.0, 34.0, 35.0, 36.0, 37.0] := by
  decide!

/-- C19: the leap-second table is strictly ascending in `JD`; its rows with `Coefficient = 0`
are exactly those with `JD ≥ 2441317.5` (1 January 1972); from each such row to the next,
`LeapSeconds` increases by exactly `1.0`, the values being `10.0, 11.0, ..., 37.0`. -/
theorem g_LeapSecondCoefficients_invariants :
    (∀ (i : Nat) (a b : LeapSecondCoefficient), g_LeapSecondCoefficients[i]? = some a →
      g_LeapSecondCoefficients[i + 1]? = some b → a.JD < b.JD) ∧
    (∀ e ∈ g_LeapSecondCoefficients, e.Coefficient = 0 ↔ 2441317.5 ≤ e.JD) ∧
    (∀ (i : Nat) (a b : LeapSecondCoefficient), g_LeapSecondCoefficients[i]? = some a →
      g_LeapSecondCoefficients[i + 1]? = some b → a.Coefficient = 0 →
      b.Coefficient = 0 ∧ b.LeapSeconds = a.LeapSeconds + 1.0) ∧
    (g_LeapSecondCoefficients.filter (fun e => decide (e.Coefficient = 0))).map
        LeapSecondCoefficient.LeapSeconds =
      [10.0, 11.0, 12.0, 13.0, 14.0, 15.0, 16.0, 17.0, 18.0, 19.0, 20.0, 21.0, 22.0, 23.0,
        24.0, 25.0, 26.0, 27.0, 28.0, 29.0, 30.0, 31.0, 32.0, 33.0, 34.0, 35.0, 36.0, 37.0] := by
  refine ⟨?_, g_LeapSecondCoefficients_zero_iff, ?_, g_LeapSecondCoefficients_zero_values⟩
  · intro i a b ha hb
    exact g_LeapSecondCoefficients_lt i (i + 1) a b (Nat.lt_succ_self i) ha hb
  · intro i a b ha hb
    exact g_LeapSecondCoefficients_steps (a, b)
      (mem_zip_tail_of_getElem g_LeapSecondCoefficients i a b ha hb)

/-- The polynomial path of `DeltaT` evaluates the expression of the branch that is taken. -/
theorem DeltaT_polynomial_eq_regime (y : ℚ) :
    DeltaT.polynomial y = DeltaT.regimePolynomial (DeltaT.regime y) y := by
  unfold DeltaT.polynomial DeltaT.regime
  by_cases h0 : y < -500
  · rw [if_pos h0, if_pos h0]
    rfl
  rw [if_neg h0, if_neg h0]
  by_cases h1 : y < 500
  · rw [if_pos h1, if_pos h1]
    rfl
  rw [if_neg h1, if_neg h1]
  by_cases h2 : y < 1600
  · rw [if_pos h2, if_pos h2]
    rfl
  rw [if_neg h2, if_neg h2]
  by_cases h3 : y < 1700
  · rw [if_pos h3, if_pos h3]
    rfl
  rw [if_neg h3, if_neg h3]
  by_cases h4 : y < 1800
  · rw [if_pos h4, if_pos h4]
    rfl
  rw [if_neg h4, if_neg h4]
  by_cases h5 : y < 1860
  · rw [if_pos h5, if_pos h5]
    rfl
  rw [if_neg h5, if_neg h5]
  by_cases h6 : y < 1900
  · rw [if_pos h6, if_pos h6]
    rfl
  rw [if_neg h6, if_neg h6]
  by_cases h7 : y < 1920
  · rw [if_pos h7, if_pos h7]
    rfl
  rw [if_neg h7, if_neg h7]
  by_cases h8 : y < 1941
  · rw [if_pos h8, if_pos h8]
    rfl
  rw [if_neg h8, if_neg h8]
  by_cases h9 : y < 1961
  · rw [if_pos h9, if_pos h9]
    rfl
  rw [if_neg h9, if_neg h9]
  by_cases h10 : y < 1986
  · rw [if_pos h10, if_pos h10]
    rfl
  rw [if_neg h10, if_neg h10]
  by_cases h11 : y < 2005
  · rw [if_pos h11, if_pos h11]
    rfl
  rw [if_neg h11, if_neg h11]
  by_cases h12 : y < 2050
  · rw [if_pos h12, if_pos h12]
    rfl
  rw [if_neg h12, if_neg h12]
  by_cases h13 : y < 2150
  · rw [if_pos h13, if_pos h13]
    rfl
  rw [if_neg h13, if_neg h13]
  rfl

/-- The branch taken for `y` is the number of tested values that are not after `y`. -/
theorem DeltaT_regime_eq_count (y : ℚ) :
    DeltaT.regime y = (DeltaT.breakpoints.filter (fun b => decide (b ≤ y))).length := by
  unfold DeltaT.regime DeltaT.breakpoints
  by_cases h0 : y < -500
  · rw [if_pos h0]
    have f0 : ¬ ((-500 : ℚ) ≤ y) := by linarith
    have f1 : ¬ ((500 : ℚ) ≤ y) := by linarith
    have f2 : ¬ ((1600 : ℚ) ≤ y) := by linarith
    have f3 : ¬ ((1700 : ℚ) ≤ y) := by linarith
    have f4 : ¬ ((1800 : ℚ) ≤ y) := by linarith
    have f5 : ¬ ((1860 : ℚ) ≤ y) := by linarith
    have f6 : ¬ ((1900 : ℚ) ≤ y) := by linarith
    have f7 : ¬ ((1920 : ℚ) ≤ y) := by linarith
    have f8 : ¬ ((1941 : ℚ) ≤ y) := by linarith
    have f9 : ¬ ((1961 : ℚ) ≤ y) := by linarith
    have f10 : ¬ ((1986 : ℚ) ≤ y) := by linarith
    have f11 : ¬ ((2005 : ℚ) ≤ y) := by linarith
    have f12 : ¬ ((2050 : ℚ) ≤ y) := by linarith
    have f13 : ¬ ((2150 : ℚ) ≤ y) := by linarith
    simp only [List.filter, f0, f1, f2, f3, f4, f5, f6, f7, f8, f9, f10, f11, f12, f13, decide_True, decide_False, List.length]
  rw [if_neg h0]
  by_cases h1 : y < 500
  · rw [if_pos h1]
    have g : (-500 : ℚ) ≤ y := not_lt.mp h0
    have f0 : (-500 : ℚ) ≤ y := by linarith
    have f1 : ¬ ((500 : ℚ) ≤ y) := by linarith
    have f2 : ¬ ((1600 : ℚ) ≤ y) := by linarith
    have f3 : ¬ ((1700 : ℚ) ≤ y) := by linarith
    have f4 : ¬ ((1800 : ℚ) ≤ y) := by linarith
    have f5 : ¬ ((1860 : ℚ) ≤ y) := by linarith
    have f6 : ¬ ((1900 : ℚ) ≤ y) := by linarith
    have f7 : ¬ ((1920 : ℚ) ≤ y) := by linarith
    have f8 : ¬ ((1941 : ℚ) ≤ y) := by linarith
    have f9 : ¬ ((1961 : ℚ) ≤ y) := by linarith
    have f10 : ¬ ((1986 : ℚ) ≤ y) := by linarith
    have f11 : ¬ ((2005 : ℚ) ≤ y) := by linarith
    have f12 : ¬ ((2050 : ℚ) ≤ y) := by linarith
    have f13 : ¬ ((2150 : ℚ) ≤ y) := by linarith
    simp only [List.filter, f0, f1, f2, f3, f4, f5, f6, f7, f8, f9, f10, f11, f12, f13, decide_True, decide_False, List.length]
  rw [if_neg h1]
  by_cases h2 : y < 1600
  · rw [if_pos h2]
    have g : (500 : ℚ) ≤ y := not_lt.mp h1
    have f0 : (-500 : ℚ) ≤ y := by linarith
    have f1 : (500 : ℚ) ≤ y := by linarith
    have f2 : ¬ ((1600 : ℚ) ≤ y) := by linarith
    have f3 : ¬ ((1700 : ℚ) ≤ y) := by linarith
    have f4 : ¬ ((1800 : ℚ) ≤ y) := by linarith
    have f5 : ¬ ((1860 : ℚ) ≤ y) := by linarith
    have f6 : ¬ ((1900 : ℚ) ≤ y) := by linarith
    have f7 : ¬ ((1920 : ℚ) ≤ y) := by linarith
    have f8 : ¬ ((1941 : ℚ) ≤ y) := by linarith
    have f9 : ¬ ((1961 : ℚ) ≤ y) := by linarith
    have f10 : ¬ ((1986 : ℚ) ≤ y) := by linarith
    have f11 : ¬ ((2005 : ℚ) ≤ y) := by linarith
    have f12 : ¬ ((2050 : ℚ) ≤ y) := by linarith
    have f13 : ¬ ((2150 : ℚ) ≤ y) := by linarith
    simp only [List.filter, f0, f1, f2, f3, f4, f5, f6, f7, f8, f9, f10, f11, f12, f13, decide_True, decide_False, List.length]
  rw [if_neg h2]
  by_cases h3 : y < 1700
  · rw [if_pos h3]
    have g : (1600 : ℚ) ≤ y := not_lt.mp h2
    have f0 : (-500 : ℚ) ≤ y := by linarith
    have f1 : (500 : ℚ) ≤ y := by linarith
    have f2 : (1600 : ℚ) ≤ y := by linarith
    have f3 : ¬ ((1700 : ℚ) ≤ y) := by linarith
    have f4 : ¬ ((1800 : ℚ) ≤ y) := by linarith
    have f5 : ¬ ((1860 : ℚ) ≤ y) := by linarith
    have f6 : ¬ ((1900 : ℚ) ≤ y) := by linarith
    have f7 : ¬ ((1920 : ℚ) ≤ y) := by linarith
    have f8 : ¬ ((1941 : ℚ) ≤ y) := by linarith
    have f9 : ¬ ((1961 : ℚ) ≤ y) := by linarith
    have f10 : ¬ ((1986 : ℚ) ≤ y) := by linarith
    have f11 : ¬ ((2005 : ℚ) ≤ y) := by linarith
    have f12 : ¬ ((2050 : ℚ) ≤ y) := by linarith
    have f13 : ¬ ((2150 : ℚ) ≤ y) := by linarith
    simp only [List.filter, f0, f1, f2, f3, f4, f5, f6, f7, f8, f9, f10, f11, f12, f13, decide_True, decide_False, List.length]
  rw [if_neg h3]
  by_cases h4 : y < 1800
  · rw [if_pos h4]
    have g : (1700 : ℚ) ≤ y := not_lt.mp h3
    have f0 : (-500 : ℚ) ≤ y := by linarith
    have f1 : (500 : ℚ) ≤ y := by linarith
    have f2 : (1600 : ℚ) ≤ y := by linarith
    have f3 : (1700 : ℚ) ≤ y := by linarith
    have f4 : ¬ ((1800 : ℚ) ≤ y) := by linarith
    have f5 : ¬ ((1860 : ℚ) ≤ y) := by linarith
    have f6 : ¬ ((1900 : ℚ) ≤ y) := by linarith
    have f7 : ¬ ((1920 : ℚ) ≤ y) := by linarith
    have f8 : ¬ ((1941 : ℚ) ≤ y) := by linarith
    have f9 : ¬ ((1961 : ℚ) ≤ y) := by linarith
    have f10 : ¬ ((1986 : ℚ) ≤ y) := by linarith
    have f11 : ¬ ((2005 : ℚ) ≤ y) := by linarith
    have f12 : ¬ ((2050 : ℚ) ≤ y) := by linarith
    have f13 : ¬ ((2150 : ℚ) ≤ y) := by linarith
    simp only [List.filter, f0, f1, f2, f3, f4, f5, f6, f7, f8, f9, f10, f11, f12, f13, decide_True, decide_False, List.length]
  rw [if_neg h4]
  by_cases h5 : y < 1860
  · rw [if_pos h5]
    have g : (1800 : ℚ) ≤ y := not_lt.mp h4
    have f0 : (-500 : ℚ) ≤ y := by linarith
    have f1 : (500 : ℚ) ≤ y := by linarith
    have f2 : (1600 : ℚ) ≤ y := by linarith
    have f3 : (1700 : ℚ) ≤ y := by linarith
    have f4 : (1800 : ℚ) ≤ y := by linarith
    have f5 : ¬ ((1860 : ℚ) ≤ y) := by linarith
    have f6 : ¬ ((1900 : ℚ) ≤ y) := by linarith
    have f7 : ¬ ((1920 : ℚ) ≤ y) := by linarith
    have f8 : ¬ ((1941 : ℚ) ≤ y) := by linarith
    have f9 : ¬ ((1961 : ℚ) ≤ y) := by linarith
    have f10 : ¬ ((1986 : ℚ) ≤ y) := by linarith
    have f11 : ¬ ((2005 : ℚ) ≤ y) := by linarith
    have f12 : ¬ ((2050 : ℚ) ≤ y) := by linarith
    have f13 : ¬ ((2150 : ℚ) ≤ y) := by linarith
    simp only [List.filter, f0, f1, f2, f3, f4, f5, f6, f7, f8, f9, f10, f11, f12, f13, decide_True, decide_False, List.length]
  rw [if_neg h5]
  by_cases h6 : y < 1900
  · rw [if_pos h6]
    have g : (1860 : ℚ) ≤ y := not_lt.mp h5
    have f0 : (-500 : ℚ) ≤ y := by linarith
    have f1 : (500 : ℚ) ≤ y := by linarith
    have f2 : (1600 : ℚ) ≤ y := by linarith
    have f3 : (1700 : ℚ) ≤ y := by linarith
    have f4 : (1800 : ℚ) ≤ y := by linarith
    have f5 : (1860 : ℚ) ≤ y := by linarith
    have f6 : ¬ ((1900 : ℚ) ≤ y) := by linarith
    have f7 : ¬ ((1920 : ℚ) ≤ y) := by linarith
    have f8 : ¬ ((1941 : ℚ) ≤ y) := by linarith
    have f9 : ¬ ((1961 : ℚ) ≤ y) := by linarith
    have f10 : ¬ ((1986 : ℚ) ≤ y) := by linarith
    have f11 : ¬ ((2005 : ℚ) ≤ y) := by linarith
    have f12 : ¬ ((2050 : ℚ) ≤ y) := by linarith
    have f13 : ¬ ((2150 : ℚ) ≤ y) := by linarith
    simp only [List.filter, f0, f1, f2, f3, f4, f5, f6, f7, f8, f9, f10, f11, f12, f13, decide_True, decide_False, List.length]
  rw [if_neg h6]
  by_cases h7 : y < 1920
  · rw [if_pos h7]
    have g : (1900 : ℚ) ≤ y := not_lt.mp h6
    have f0 : (-500 : ℚ) ≤ y := by linarith
    have f1 : (500 : ℚ) ≤ y := by linarith
    have f2 : (1600 : ℚ) ≤ y := by linarith
    have f3 : (1700 : ℚ) ≤ y := by linarith
    have f4 : (1800 : ℚ) ≤ y := by linarith
    have f5 : (1860 : ℚ) ≤ y := by linarith
    have f6 : (1900 : ℚ) ≤ y := by linarith
    have f7 : ¬ ((1920 : ℚ) ≤ y) := by linarith
    have f8 : ¬ ((1941 : ℚ) ≤ y) := by linarith
    have f9 : ¬ ((1961 : ℚ) ≤ y) := by linarith
    have f10 : ¬ ((1986 : ℚ) ≤ y) := by linarith
    have f11 : ¬ ((2005 : ℚ) ≤ y) := by linarith
    have f12 : ¬ ((2050 : ℚ) ≤ y) := by linarith
    have f13 : ¬ ((2150 : ℚ) ≤ y) := by linarith
    simp only [List.filter, f0, f1, f2, f3, f4, f5, f6, f7, f8, f9, f10, f11, f12, f13, decide_True, decide_False, List.length]
  rw [if_neg h7]
  by_cases h8 : y < 1941
  · rw [if_pos h8]
    have g : (1920 : ℚ) ≤ y := not_lt.mp h7
    have f0 : (-500 : ℚ) ≤ y := by linarith
    have f1 : (500 : ℚ) ≤ y := by linarith
    have f2 : (1600 : ℚ) ≤ y := by linarith
    have f3 : (1700 : ℚ) ≤ y := by linarith
    have f4 : (1800 : ℚ) ≤ y := by linarith
    have f5 : (1860 : ℚ) ≤ y := by linarith
    have f6 : (1900 : ℚ) ≤ y := by linarith
    have f7 : (1920 : ℚ) ≤ y := by linarith
    have f8 : ¬ ((1941 : ℚ) ≤ y) := by linarith
    have f9 : ¬ ((1961 : ℚ) ≤ y) := by linarith
    have f10 : ¬ ((1986 : ℚ) ≤ y) := by linarith
    have f11 : ¬ ((2005 : ℚ) ≤ y) := by linarith
    have f12 : ¬ ((2050 : ℚ) ≤ y) := by linarith
    have f13 : ¬ ((2150 : ℚ) ≤ y) := by linarith
    simp only [List.filter, f0, f1, f2, f3, f4, f5, f6, f7, f8, f9, f10, f11, f12, f13, decide_True, decide_False, List.length]
  rw [if_neg h8]
  by_cases h9 : y < 1961
  · rw [if_pos h9]
    have g : (1941 : ℚ) ≤ y := not_lt.mp h8
    have f0 : (-500 : ℚ) ≤ y := by linarith
    have f1 : (500 : ℚ) ≤ y := by linarith
    have f2 : (1600 : ℚ) ≤ y := by linarith
    have f3 : (1700 : ℚ) ≤ y := by linarith
    have f4 : (1800 : ℚ) ≤ y := by linarith
    have f5 : (1860 : ℚ) ≤ y := by linarith
    have f6 : (1900 : ℚ) ≤ y := by linarith
    have f7 : (1920 : ℚ) ≤ y := by linarith
    have f8 : (1941 : ℚ) ≤ y := by linarith
    have f9 : ¬ ((1961 : ℚ) ≤ y) := by linarith
    have f10 : ¬ ((1986 : ℚ) ≤ y) := by linarith
    have f11 : ¬ ((2005 : ℚ) ≤ y) := by linarith
    have f12 : ¬ ((2050 : ℚ) ≤ y) := by linarith
    have f13 : ¬ ((2150 : ℚ) ≤ y) := by linarith
    simp only [List.filter, f0, f1, f2, f3, f4, f5, f6, f7, f8, f9, f10, f11, f12, f13, decide_True, decide_False, List.length]
  rw [if_neg h9]
  by_cases h10 : y < 1986
  · rw [if_pos h10]
    have g : (1961 : ℚ) ≤ y := not_lt.mp h9
    have f0 : (-500 : ℚ) ≤ y := by linarith
    have f1 : (500 : ℚ) ≤ y := by linarith
    have f2 : (1600 : ℚ) ≤ y := by linarith
    have f3 : (1700 : ℚ) ≤ y := by linarith
    have f4 : (1800 : ℚ) ≤ y := by linarith
    have f5 : (1860 : ℚ) ≤ y := by linarith
    have f6 : (1900 : ℚ) ≤ y := by linarith
    have f7 : (1920 : ℚ) ≤ y := by linarith
    have f8 : (1941 : ℚ) ≤ y := by linarith
    have f9 : (1961 : ℚ) ≤ y := by linarith
    have f10 : ¬ ((1986 : ℚ) ≤ y) := by linarith
    have f11 : ¬ ((2005 : ℚ) ≤ y) := by linarith
    have f12 : ¬ ((2050 : ℚ) ≤ y) := by linarith
    have f13 : ¬ ((2150 : ℚ) ≤ y) := by linarith
    simp only [List.filter, f0, f1, f2, f3, f4, f5, f6, f7, f8, f9, f10, f11, f12, f13, decide_True, decide_False, List.length]
  rw [if_neg h10]
  by_cases h11 : y < 2005
  · rw [if_pos h11]
    have g : (1986 : ℚ) ≤ y := not_lt.mp h10
    have f0 : (-500 : ℚ) ≤ y := by linarith
    have f1 : (500 : ℚ) ≤ y := by linarith
    have f2 : (1600 : ℚ) ≤ y := by linarith
    have f3 : (1700 : ℚ) ≤ y := by linarith
    have f4 : (1800 : ℚ) ≤ y := by linarith
    have f5 : (1860 : ℚ) ≤ y := by linarith
    have f6 : (1900 : ℚ) ≤ y := by linarith
    have f7 : (1920 : ℚ) ≤ y := by linarith
    have f8 : (1941 : ℚ) ≤ y := by linarith
    have f9 : (1961 : ℚ) ≤ y := by linarith
    have f10 : (1986 : ℚ) ≤ y := by linarith
    have f11 : ¬ ((2005 : ℚ) ≤ y) := by linarith
    have f12 : ¬ ((2050 : ℚ) ≤ y) := by linarith
    have f13 : ¬ ((2150 : ℚ) ≤ y) := by linarith
    simp only [List.filter, f0, f1, f2, f3, f4, f5, f6, f7, f8, f9, f10, f11, f12, f13, decide_True, decide_False, List.length]
  rw [if_neg h11]
  by_cases h12 : y < 2050
  · rw [if_pos h12]
    have g : (2005 : ℚ) ≤ y := not_lt.mp h11
    have f0 : (-500 : ℚ) ≤ y := by linarith
    have f1 : (500 : ℚ) ≤ y := by linarith
    have f2 : (1600 : ℚ) ≤ y := by linarith
    have f3 : (1700 : ℚ) ≤ y := by linarith
    have f4 : (1800 : ℚ) ≤ y := by linarith
    have f5 : (1860 : ℚ) ≤ y := by linarith
    have f6 : (1900 : ℚ) ≤ y := by linarith
    have f7 : (1920 : ℚ) ≤ y := by linarith
    have f8 : (1941 : ℚ) ≤ y := by linarith
    have f9 : (1961 : ℚ) ≤ y := by linarith
    have f10 : (1986 : ℚ) ≤ y := by linarith
    have f11 : (2005 : ℚ) ≤ y := by linarith
    have f12 : ¬ ((2050 : ℚ) ≤ y) := by linarith
    have f13 : ¬ ((2150 : ℚ) ≤ y) := by linarith
    simp only [List.filter, f0, f1, f2, f3, f4, f5, f6, f7, f8, f9, f10, f11, f12, f13, decide_True, decide_False, List.length]
  rw [if_neg h12]
  by_cases h13 : y < 2150
  · rw [if_pos h13]
    have g : (2050 : ℚ) ≤ y := not_lt.mp h12
    have f0 : (-500 : ℚ) ≤ y := by linarith
    have f1 : (500 : ℚ) ≤ y := by linarith
    have f2 : (1600 : ℚ) ≤ y := by linarith
    have f3 : (1700 : ℚ) ≤ y := by linarith
    have f4 : (1800 : ℚ) ≤ y := by linarith
    have f5 : (1860 : ℚ) ≤ y := by linarith
    have f6 : (1900 : ℚ) ≤ y := by linarith
    have f7 : (1920 : ℚ) ≤ y := by linarith
    have f8 : (1941 : ℚ) ≤ y := by linarith
    have f9 : (1961 : ℚ) ≤ y := by linarith
    have f10 : (1986 : ℚ) ≤ y := by linarith
    have f11 : (2005 : ℚ) ≤ y := by linarith
    have f12 : (2050 : ℚ) ≤ y := by linarith
    have f13 : ¬ ((2150 : ℚ) ≤ y) := by linarith
    simp only [List.filter, f0, f1, f2, f3, f4, f5, f6, f7, f8, f9, f10, f11, f12, f13, decide_True, decide_False, List.length]
  rw [if_neg h13]
  have g : (2150 : ℚ) ≤ y := not_lt.mp h13
  have f0 : (-500 : ℚ) ≤ y := by linarith
  have f1 : (500 : ℚ) ≤ y := by linarith
  have f2 : (1600 : ℚ) ≤ y := by linarith
  have f3 : (1700 : ℚ) ≤ y := by linarith
  have f4 : (1800 : ℚ) ≤ y := by linarith
  have f5 : (1860 : ℚ) ≤ y := by linarith
  have f6 : (1900 : ℚ) ≤ y := by linarith
  have f7 : (1920 : ℚ) ≤ y := by linarith
  have f8 : (1941 : ℚ) ≤ y := by linarith
  have f9 : (1961 : ℚ) ≤ y := by linarith
  have f10 : (1986 : ℚ) ≤ y := by linarith
  have f11 : (2005 : ℚ) ≤ y := by linarith
  have f12 : (2050 : ℚ) ≤ y := by linarith
  have f13 : (2150 : ℚ) ≤ y := by linarith
  simp only [List.filter, f0, f1, f2, f3, f4, f5, f6, f7, f8, f9, f10, f11, f12, f13, decide_True, decide_False, List.length]

/-- The branch taken for `y`, interval by interval. -/
theorem DeltaT_regime_intervals (y : ℚ) :
    (y < -500 → DeltaT.regime y = 0) ∧
    (-500 ≤ y → y < 500 → DeltaT.regime y = 1) ∧
    (500 ≤ y → y < 1600 → DeltaT.regime y = 2) ∧
    (1600 ≤ y → y < 1700 → DeltaT.regime y = 3) ∧
    (1700 ≤ y → y < 1800 → DeltaT.regime y = 4) ∧
    (1800 ≤ y → y < 1860 → DeltaT.regime y = 5) ∧
    (1860 ≤ y → y < 1900 → DeltaT.regime y = 6) ∧
    (1900 ≤ y → y < 1920 → DeltaT.regime y = 7) ∧
    (1920 ≤ y → y < 1941 → DeltaT.regime y = 8) ∧
    (1941 ≤ y → y < 1961 → DeltaT.regime y = 9) ∧
    (1961 ≤ y → y < 1986 → DeltaT.regime y = 10) ∧
    (1986 ≤ y → y < 2005 → DeltaT.regime y = 11) ∧
    (2005 ≤ y → y < 2050 → DeltaT.regime y = 12) ∧
    (2050 ≤ y → y < 2150 → DeltaT.regime y = 13) ∧
    (2150 ≤ y → DeltaT.regime y = 14) := by
  and_intros
  · intro hhi
    unfold DeltaT.regime
    rw [if_pos hhi]
  · intro hlo hhi
    unfold DeltaT.regime
    rw [if_neg (not_lt.mpr (by linarith : (-500 : ℚ) ≤ y)),
      if_pos hhi]
  · intro hlo hhi
    unfold DeltaT.regime
    rw [if_neg (not_lt.mpr (by linarith : (-500 : ℚ) ≤ y)),
      if_neg (not_lt.mpr (by linarith : (500 : ℚ) ≤ y)),
      if_pos hhi]
  · intro hlo hhi
    unfold DeltaT.regime
    rw [if_neg (not_lt.mpr (by linarith : (-500 : ℚ) ≤ y)),
      if_neg (not_lt.mpr (by linarith : (500 : ℚ) ≤ y)),
      if_neg (not_lt.mpr (by linarith : (1600 : ℚ) ≤ y)),
      if_pos hhi]
  · intro hlo hhi
    unfold DeltaT.regime
    rw [if_neg (not_lt.mpr (by linarith : (-500 : ℚ) ≤ y)),
      if_neg (not_lt.mpr (by linarith : (500 : ℚ) ≤ y)),
      if_neg (not_lt.mpr (by linarith : (1600 : ℚ) ≤ y)),
      if_neg (not_lt.mpr (by linarith : (1700 : ℚ) ≤ y)),
      if_pos hhi]
  · intro hlo hhi
    unfold DeltaT.regime
    rw [if_neg (not_lt.mpr (by linarith : (-500 : ℚ) ≤ y)),
      if_neg (not_lt.mpr (by linarith : (500 : ℚ) ≤ y)),
      if_neg (not_lt.mpr (by linarith : (1600 : ℚ) ≤ y)),
      if_neg (not_lt.mpr (by linarith : (1700 : ℚ) ≤ y)),
      if_neg (not_lt.mpr (by linarith : (1800 : ℚ) ≤ y)),
      if_pos hhi]
  · intro hlo hhi
    unfold DeltaT.regime
    rw [if_neg (not_lt.mpr (by linarith : (-500 : ℚ) ≤ y)),
      if_neg (not_lt.mpr (by linarith : (500 : ℚ) ≤ y)),
      if_neg (not_lt.mpr (by linarith : (1600 : ℚ) ≤ y)),
      if_neg (not_lt.mpr (by linarith : (1700 : ℚ) ≤ y)),
      if_neg (not_lt.mpr (by linarith : (1800 : ℚ) ≤ y)),
      if_neg (not_lt.mpr (by linarith : (1860 : ℚ) ≤ y)),
      if_pos hhi]
  · intro hlo hhi
    unfold DeltaT.regime
    rw [if_neg (not_lt.mpr (by linarith : (-500 : ℚ) ≤ y)),
      if_neg (not_lt.mpr (by linarith : (500 : ℚ) ≤ y)),
      if_neg (not_lt.mpr (by linarith : (1600 : ℚ) ≤ y)),
      if_neg (not_lt.mpr (by linarith : (1700 : ℚ) ≤ y)),
      if_neg (not_lt.mpr (by linarith : (1800 : ℚ) ≤ y)),
      if_neg (not_lt.mpr (by linarith : (1860 : ℚ) ≤ y)),
      if_neg (not_lt.mpr (by linarith : (1900 : ℚ) ≤ y)),
      if_pos hhi]
  · intro hlo hhi
    unfold DeltaT.regime
    rw [if_neg (not_lt.mpr (by linarith : (-500 : ℚ) ≤ y)),
      if_neg (not_lt.mpr (by linarith : (500 : ℚ) ≤ y)),
      if_neg (not_lt.mpr (by linarith : (1600 : ℚ) ≤ y)),
      if_neg (not_lt.mpr (by linarith : (1700 : ℚ) ≤ y)),
      if_neg (not_lt.mpr (by linarith : (1800 : ℚ) ≤ y)),
      if_neg (not_lt.mpr (by linarith : (1860 : ℚ) ≤ y)),
      if_neg (not_lt.mpr (by linarith : (1900 : ℚ) ≤ y)),
      if_neg (not_lt.mpr (by linarith : (1920 : ℚ) ≤ y)),
      if_pos hhi]
  · intro hlo hhi
    unfold DeltaT.regime
    rw [if_neg (not_lt.mpr (by linarith : (-500 : ℚ) ≤ y)),
      if_neg (not_lt.mpr (by linarith : (500 : ℚ) ≤ y)),
      if_neg (not_lt.mpr (by linarith : (1600 : ℚ) ≤ y)),
      if_neg (not_lt.mpr (by linarith : (1700 : ℚ) ≤ y)),
      if_neg (not_lt.mpr (by linarith : (1800 : ℚ) ≤ y)),
      if_neg (not_lt.mpr (by linarith : (1860 : ℚ) ≤ y)),
      if_neg (not_lt.mpr (by linarith : (1900 : ℚ) ≤ y)),
      if_neg (not_lt.mpr (by linarith : (1920 : ℚ) ≤ y)),
      if_neg (not_lt.mpr (by linarith : (1941 : ℚ) ≤ y)),
      if_pos hhi]
  · intro hlo hhi
    unfold DeltaT.regime
    rw [if_neg (not_lt.mpr (by linarith : (-500 : ℚ) ≤ y)),
      if_neg (not_lt.mpr (by linarith : (500 : ℚ) ≤ y)),
      if_neg (not_lt.mpr (by linarith : (1600 : ℚ) ≤ y)),
      if_neg (not_lt.mpr (by linarith : (1700 : ℚ) ≤ y)),
      if_neg (not_lt.mpr (by linarith : (1800 : ℚ) ≤ y)),
      if_neg (not_lt.mpr (by linarith : (1860 : ℚ) ≤ y)),
      if_neg (not_lt.mpr (by linarith : (1900 : ℚ) ≤ y)),
      if_neg (not_lt.mpr (by linarith : (1920 : ℚ) ≤ y)),
      if_neg (not_lt.mpr (by linarith : (1941 : ℚ) ≤ y)),
      if_neg (not_lt.mpr (by linarith : (1961 : ℚ) ≤ y)),
      if_pos hhi]
  · intro hlo hhi
    unfold DeltaT.regime
    rw [if_neg (not_lt.mpr (by linarith : (-500 : ℚ) ≤ y)),
      if_neg (not_lt.mpr (by linarith : (500 : ℚ) ≤ y)),
      if_neg (not_lt.mpr (by linarith : (1600 : ℚ) ≤ y)),
      if_neg (not_lt.mpr (by linarith : (1700 : ℚ) ≤ y)),
      if_neg (not_lt.mpr (by linarith : (1800 : ℚ) ≤ y)),
      if_neg (not_lt.mpr (by linarith : (1860 : ℚ) ≤ y)),
      if_neg (not_lt.mpr (by linarith : (1900 : ℚ) ≤ y)),
      if_neg (not_lt.mpr (by linarith : (1920 : ℚ) ≤ y)),
      if_neg (not_lt.mpr (by linarith : (1941 : ℚ) ≤ y)),
      if_neg (not_lt.mpr (by linarith : (1961 : ℚ) ≤ y)),
      if_neg (not_lt.mpr (by linarith : (1986 : ℚ) ≤ y)),
      if_pos hhi]
  · intro hlo hhi
    unfold DeltaT.regime
    rw [if_neg (not_lt.mpr (by linarith : (-500 : ℚ) ≤ y)),
      if_neg (not_lt.mpr (by linarith : (500 : ℚ) ≤ y)),
      if_neg (not_lt.mpr (by linarith : (1600 : ℚ) ≤ y)),
      if_neg (not_lt.mpr (by linarith : (1700 : ℚ) ≤ y)),
      if_neg (not_lt.mpr (by linarith : (1800 : ℚ) ≤ y)),
      if_neg (not_lt.mpr (by linarith : (1860 : ℚ) ≤ y)),
      if_neg (not_lt.mpr (by linarith : (1900 : ℚ) ≤ y)),
      if_neg (not_lt.mpr (by linarith : (1920 : ℚ) ≤ y)),
      if_neg (not_lt.mpr (by linarith : (1941 : ℚ) ≤ y)),
      if_neg (not_lt.mpr (by linarith : (1961 : ℚ) ≤ y)),
      if_neg (not_lt.mpr (by linarith : (1986 : ℚ) ≤ y)),
      if_neg (not_lt.mpr (by linarith : (2005 : ℚ) ≤ y)),
      if_pos hhi]
  · intro hlo hhi
    unfold DeltaT.regime
    rw [if_neg (not_lt.mpr (by linarith : (-500 : ℚ) ≤ y)),
      if_neg (not_lt.mpr (by linarith : (500 : ℚ) ≤ y)),
      if_neg (not_lt.mpr (by linarith : (1600 : ℚ) ≤ y)),
      if_neg (not_lt.mpr (by linarith : (1700 : ℚ) ≤ y)),
      if_neg (not_lt.mpr (by linarith : (1800 : ℚ) ≤ y)),
      if_neg (not_lt.mpr (by linarith : (1860 : ℚ) ≤ y)),
      if_neg (not_lt.mpr (by linarith : (1900 : ℚ) ≤ y)),
      if_neg (not_lt.mpr (by linarith : (1920 : ℚ) ≤ y)),
      if_neg (not_lt.mpr (by linarith : (1941 : ℚ) ≤ y)),
      if_neg (not_lt.mpr (by linarith : (1961 : ℚ) ≤ y)),
      if_neg (not_lt.mpr (by linarith : (1986 : ℚ) ≤ y)),
      if_neg (not_lt.mpr (by linarith : (2005 : ℚ) ≤ y)),
      if_neg (not_lt.mpr (by linarith : (2050 : ℚ) ≤ y)),
      if_pos hhi]
  · intro hlo
    unfold DeltaT.regime
    rw [if_neg (not_lt.mpr (by linarith : (-500 : ℚ) ≤ y)),
      if_neg (not_lt.mpr (by linarith : (500 : ℚ) ≤ y)),
      if_neg (not_lt.mpr (by linarith : (1600 : ℚ) ≤ y)),
      if_neg (not_lt.mpr (by linarith : (1700 : ℚ) ≤ y)),
      if_neg (not_lt.mpr (by linarith : (1800 : ℚ) ≤ y)),
      if_neg (not_lt.mpr (by linarith : (1860 : ℚ) ≤ y)),
      if_neg (not_lt.mpr (by linarith : (1900 : ℚ) ≤ y)),
      if_neg (not_lt.mpr (by linarith : (1920 : ℚ) ≤ y)),
      if_neg (not_lt.mpr (by linarith : (1941 : ℚ) ≤ y)),
      if_neg (not_lt.mpr (by linarith : (1961 : ℚ) ≤ y)),
      if_neg (not_lt.mpr (by linarith : (1986 : ℚ) ≤ y)),
      if_neg (not_lt.mpr (by linarith : (2005 : ℚ) ≤ y)),
      if_neg (not_lt.mpr (by linarith : (2050 : ℚ) ≤ y)),
      if_neg (not_lt.mpr (by linarith : (2150 : ℚ) ≤ y))]

/-- Outside the span of the delta-T table, `DeltaT` is the polynomial expression at the
fractional year of `JD`. -/
theorem DeltaT_eq_polynomial (FractionalYear : ℚ → ℚ) (JD : ℚ)
    (h : JD < 2441714.5 ∨ 2463232.5 ≤ JD) :
    DeltaT FractionalYear JD = some (DeltaT.polynomial (FractionalYear JD)) := by
  have hout : ¬ ((JD ≥ 2441714.5) ∧ (JD < 2463232.5)) := by
    rintro ⟨h1, h2⟩
    rcases h with h | h
    · exact absurd h1 (not_le.mpr h)
    · exact absurd h2 (not_lt.mpr h)
  rw [DeltaT_unfold, if_neg hout]

/-- Outside the span of the delta-T table, `DeltaT` is the expression of the branch whose
interval contains the fractional year of `JD`. -/
theorem DeltaT_eq_regimePolynomial (FractionalYear : ℚ → ℚ) (JD : ℚ)
    (h : JD < 2441714.5 ∨ 2463232.5 ≤ JD) :
    (FractionalYear JD < -500 → DeltaT FractionalYear JD = some (DeltaT.regimePolynomial 0 (FractionalYear JD))) ∧
    (-500 ≤ FractionalYear JD → FractionalYear JD < 500 → DeltaT FractionalYear JD = some (DeltaT.regimePolynomial 1 (FractionalYear JD))) ∧
    (500 ≤ FractionalYear JD → FractionalYear JD < 1600 → DeltaT FractionalYear JD = some (DeltaT.regimePolynomial 2 (FractionalYear JD))) ∧
    (1600 ≤ FractionalYear JD → FractionalYear JD < 1700 → DeltaT FractionalYear JD = some (DeltaT.regimePolynomial 3 (FractionalYear JD))) ∧
    (1700 ≤ FractionalYear JD → FractionalYear JD < 1800 → DeltaT FractionalYear JD = some (DeltaT.regimePolynomial 4 (FractionalYear JD))) ∧
    (1800 ≤ FractionalYear JD → FractionalYear JD < 1860 → DeltaT FractionalYear JD = some (DeltaT.regimePolynomial 5 (FractionalYear JD))) ∧
    (1860 ≤ FractionalYear JD → FractionalYear JD < 1900 → DeltaT FractionalYear JD = some (DeltaT.regimePolynomial 6 (FractionalYear JD))) ∧
    (1900 ≤ FractionalYear JD → FractionalYear JD < 1920 → DeltaT FractionalYear JD = some (DeltaT.regimePolynomial 7 (FractionalYear JD))) ∧
    (1920 ≤ FractionalYear JD → FractionalYear JD < 1941 → DeltaT FractionalYear JD = some (DeltaT.regimePolynomial 8 (FractionalYear JD))) ∧
    (1941 ≤ FractionalYear JD → FractionalYear JD < 1961 → DeltaT FractionalYear JD = some (DeltaT.regimePolynomial 9 (FractionalYear JD))) ∧
    (1961 ≤ FractionalYear JD → FractionalYear JD < 1986 → DeltaT FractionalYear JD = some (DeltaT.regimePolynomial 10 (FractionalYear JD))) ∧
    (1986 ≤ FractionalYear JD → FractionalYear JD < 2005 → DeltaT FractionalYear JD = some (DeltaT.regimePolynomial 11 (FractionalYear JD))) ∧
    (2005 ≤ FractionalYear JD → FractionalYear JD < 2050 → DeltaT FractionalYear JD = some (DeltaT.regimePolynomial 12 (FractionalYear JD))) ∧
    (2050 ≤ FractionalYear JD → FractionalYear JD < 2150 → DeltaT FractionalYear JD = some (DeltaT.regimePolynomial 13 (FractionalYear JD))) ∧
    (2150 ≤ FractionalYear JD → DeltaT FractionalYear JD = some (DeltaT.regimePolynomial 14 (FractionalYear JD))) := by
  have hD := DeltaT_eq_polynomial FractionalYear JD h
  rw [DeltaT_polynomial_eq_regime] at hD
  obtain ⟨r0, r1, r2, r3, r4, r5, r6, r7, r8, r9, r10, r11, r12, r13, r14⟩ := DeltaT_regime_intervals (FractionalYear JD)
  and_intros
  · intro hhi
    rw [hD, r0 hhi]
  · intro hlo hhi
    rw [hD, r1 hlo hhi]
  · intro hlo hhi
    rw [hD, r2 hlo hhi]
  · intro hlo hhi
    rw [hD, r3 hlo hhi]
  · intro hlo hhi
    rw [hD, r4 hlo hhi]
  · intro hlo hhi
    rw [hD, r5 hlo hhi]
  · intro hlo hhi
    rw [hD, r6 hlo hhi]
  · intro hlo hhi
    rw [hD, r7 hlo hhi]
  · intro hlo hhi
    rw [hD, r8 hlo hhi]
  · intro hlo hhi
    rw [hD, r9 hlo hhi]
  · intro hlo hhi
    rw [hD, r10 hlo hhi]
  · intro hlo hhi
    rw [hD, r11 hlo hhi]
  · intro hlo hhi
    rw [hD, r12 hlo hhi]
  · intro hlo hhi
    rw [hD, r13 hlo hhi]
  · intro hlo
    rw [hD, r14 hlo]

/-- C21: when `JD` is outside the half-open span of the delta-T table (`JD < 2441714.5` or
`JD ≥ 2463232.5`, so also at the `JD` of the last row), `DeltaT JD` is the polynomial
expression at `y = FractionalYear JD`: it is the same for any other date outside the span
with the same fractional year, and it is the expression of the one branch, among `y < -500`,
`[-500, 500)`, `[500, 1600)`, `[1600, 1700)`, `[1700, 1800)`, `[1800, 1860)`, `[1860, 1900)`,
`[1900, 1920)`, `[1920, 1941)`, `[1941, 1961)`, `[1961, 1986)`, `[1986, 2005)`,
`[2005, 2050)`, `[2050, 2150)` and `y ≥ 2150`, whose interval contains `y`. -/
theorem DeltaT_polynomial_path (FractionalYear : ℚ → ℚ) (JD : ℚ)
    (h : JD < 2441714.5 ∨ 2463232.5 ≤ JD) :
    DeltaT FractionalYear JD = some (DeltaT.polynomial (FractionalYear JD)) ∧
    (∀ (FractionalYear2 : ℚ → ℚ) (JD2 : ℚ), (JD2 < 2441714.5 ∨ 2463232.5 ≤ JD2) →
      FractionalYear2 JD2 = FractionalYear JD →
      DeltaT FractionalYear2 JD2 = DeltaT FractionalYear JD) ∧
    ((FractionalYear JD < -500 → DeltaT FractionalYear JD = some (DeltaT.regimePolynomial 0 (FractionalYear JD))) ∧
      (-500 ≤ FractionalYear JD → FractionalYear JD < 500 → DeltaT FractionalYear JD = some (DeltaT.regimePolynomial 1 (FractionalYear JD))) ∧
      (500 ≤ FractionalYear JD → FractionalYear JD < 1600 → DeltaT FractionalYear JD = some (DeltaT.regimePolynomial 2 (FractionalYear JD))) ∧
      (1600 ≤ FractionalYear JD → FractionalYear JD < 1700 → DeltaT FractionalYear JD = some (DeltaT.regimePolynomial 3 (FractionalYear JD))) ∧
      (1700 ≤ FractionalYear JD → FractionalYear JD < 1800 → DeltaT FractionalYear JD = some (DeltaT.regimePolynomial 4 (FractionalYear JD))) ∧
      (1800 ≤ FractionalYear JD → FractionalYear JD < 1860 → DeltaT FractionalYear JD = some (DeltaT.regimePolynomial 5 (FractionalYear JD))) ∧
      (1860 ≤ FractionalYear JD → FractionalYear JD < 1900 → DeltaT FractionalYear JD = some (DeltaT.regimePolynomial 6 (FractionalYear JD))) ∧
      (1900 ≤ FractionalYear JD → FractionalYear JD < 1920 → DeltaT FractionalYear JD = some (DeltaT.regimePolynomial 7 (FractionalYear JD))) ∧
      (1920 ≤ FractionalYear JD → FractionalYear JD < 1941 → DeltaT FractionalYear JD = some (DeltaT.regimePolynomial 8 (FractionalYear JD))) ∧
      (1941 ≤ FractionalYear JD → FractionalYear JD < 1961 → DeltaT FractionalYear JD = some (DeltaT.regimePolynomial 9 (FractionalYear JD))) ∧
      (1961 ≤ FractionalYear JD → FractionalYear JD < 1986 → DeltaT FractionalYear JD = some (DeltaT.regimePolynomial 10 (FractionalYear JD))) ∧
      (1986 ≤ FractionalYear JD → FractionalYear JD < 2005 → DeltaT FractionalYear JD = some (DeltaT.regimePolynomial 11 (FractionalYear JD))) ∧
      (2005 ≤ FractionalYear JD → FractionalYear JD < 2050 → DeltaT FractionalYear JD = some (DeltaT.regimePolynomial 12 (FractionalYear JD))) ∧
      (2050 ≤ FractionalYear JD → FractionalYear JD < 2150 → DeltaT FractionalYear JD = some (DeltaT.regimePolynomial 13 (FractionalYear JD))) ∧
      (2150 ≤ FractionalYear JD → DeltaT FractionalYear JD = some (DeltaT.regimePolynomial 14 (FractionalYear JD)))) := by
  refine ⟨DeltaT_eq_polynomial FractionalYear JD h, ?_,
    DeltaT_eq_regimePolynomial FractionalYear JD h⟩
  intro FractionalYear2 JD2 h2 hy
  rw [DeltaT_eq_polynomial FractionalYear JD h, DeltaT_eq_polynomial FractionalYear2 JD2 h2, hy]

/-- C21 at the `JD` of the last row of the table, `2463232.5`, with the fractional year
`2032` of that date: the result is the expression of the branch `[2005, 2050)`, not the value
`72.07` of the row. -/
theorem DeltaT_polynomial_path_witness :
    DeltaT (fun _ => 2032) 2463232.5 = some (DeltaT.regimePolynomial 12 2032) ∧
    DeltaT.regimePolynomial 12 2032 ≠ 72.07 :=
  ⟨(DeltaT_polynomial_path (fun _ => 2032) 2463232.5 (Or.inr (le_refl _))).2.2.2.2.2.2.2.2.2.2.2.2.2.2.1
      (by norm_num) (by norm_num),
    by decide!⟩

theorem DeltaT_polynomial_at_boundaries :
    DeltaT.polynomial 1600 = 120 ∧ DeltaT.polynomial 1700 = 8.83 ∧
    DeltaT.polynomial 1800 = 13.72 ∧ DeltaT.polynomial 1860 = 7.62 ∧
    DeltaT.polynomial 1900 = -2.79 ∧ DeltaT.polynomial 1920 = 21.20 ∧
    DeltaT.polynomial 2150 = -20 + 32 * 3.3 ^ 2 := by
  decide!

theorem DeltaT_regime_at_breakpoints :
    List.map DeltaT.regime DeltaT.breakpoints = List.range' 1 14 := by
  decide!

/-- C22: on the polynomial path a fractional year that is exactly one of the tested values
falls into the higher branch, the one whose interval starts there: the branches taken at the
fourteen tested values are the branches `1` to `14`; for `y` equal to `1600`, `1700`, `1800`,
`1860`, `1900` or `1920` the result is the constant term of that branch, `120`, `8.83`,
`13.72`, `7.62`, `-2.79` and `21.20`, and for `y = 2150` it is `-20 + 32 * 3.3^2`. -/
theorem DeltaT_boundary_higher_regime :
    List.map DeltaT.regime DeltaT.breakpoints = List.range' 1 14 ∧
    ∀ (FractionalYear : ℚ → ℚ) (JD b v : ℚ), (JD < 2441714.5 ∨ 2463232.5 ≤ JD) →
      FractionalYear JD = b →
      (b, v) ∈ [((1600 : ℚ), (120 : ℚ)), (1700, 8.83), (1800, 13.72), (1860, 7.62),
        (1900, -2.79), (1920, 21.20), (2150, -20 + 32 * 3.3 ^ 2)] →
      DeltaT FractionalYear JD = some v := by
  refine ⟨DeltaT_regime_at_breakpoints, ?_⟩
  intro FractionalYear JD b v h hy hmem
  obtain ⟨p1, p2, p3, p4, p5, p6, p7⟩ := DeltaT_polynomial_at_boundaries
  rw [DeltaT_eq_polynomial FractionalYear JD h, hy]
  simp only [List.mem_cons, Prod.mk.injEq, List.mem_singleton, List.not_mem_nil, or_false]
    at hmem
  rcases hmem with h1 | h2 | h3 | h4 | h5 | h6 | h7
  · rw [h1.1, h1.2, p1]
  · rw [h2.1, h2.2, p2]
  · rw [h3.1, h3.2, p3]
  · rw [h4.1, h4.2, p4]
  · rw [h5.1, h5.2, p5]
  · rw [h6.1, h6.2, p6]
  · rw [h7.1, h7.2, p7]

/-- C22 at a date of the year 1600, `JD = 2305447.5`, on the boundary `y = 1600`. -/
theorem DeltaT_boundary_higher_regime_witness :
    DeltaT (fun _ => 1600) 2305447.5 = some 120 :=
  DeltaT_boundary_higher_regime.2 (fun _ => 1600) 2305447.5 1600 120
    (Or.inl (by norm_num)) rfl (by simp)

theorem DeltaT_regimePolynomial_jumps :
    DeltaT.regimePolynomial 10 1986 ≠ DeltaT.regimePolynomial 11 1986 ∧
    DeltaT.regimePolynomial 11 2005 ≠ DeltaT.regimePolynomial 12 2005 ∧
    DeltaT.regimePolynomial 12 2050 ≠ DeltaT.regimePolynomial 13 2050 := by
  decide!

/-- The polynomial path on the four intervals from 1961 to 2150. -/
theorem DeltaT_polynomial_1961_2150 (y : ℚ) :
    (1961 ≤ y → y < 1986 → DeltaT.polynomial y = DeltaT.regimePolynomial 10 y) ∧
    (1986 ≤ y → y < 2005 → DeltaT.polynomial y = DeltaT.regimePolynomial 11 y) ∧
    (2005 ≤ y → y < 2050 → DeltaT.polynomial y = DeltaT.regimePolynomial 12 y) ∧
    (2050 ≤ y → y < 2150 → DeltaT.polynomial y = DeltaT.regimePolynomial 13 y) := by
  obtain ⟨_, _, _, _, _, _, _, _, _, _, r10, r11, r12, r13, _⟩ := DeltaT_regime_intervals y
  refine ⟨?_, ?_, ?_, ?_⟩
  · intro hlo hhi
    rw [DeltaT_polynomial_eq_regime, r10 hlo hhi]
  · intro hlo hhi
    rw [DeltaT_polynomial_eq_regime, r11 hlo hhi]
  · intro hlo hhi
    rw [DeltaT_polynomial_eq_regime, r12 hlo hhi]
  · intro hlo hhi
    rw [DeltaT_polynomial_eq_regime, r13 hlo hhi]

/-- C24: the polynomial fit is discontinuous at the boundaries 1986, 2005 and 2050: the
expression of the branch `[1961, 1986)` at `1986` is not the expression of the branch
`[1986, 2005)` at `1986`, and likewise for `[1986, 2005)` and `[2005, 2050)` at `2005`, and
for `[2005, 2050)` and `[2050, 2150)` at `2050`. -/
theorem DeltaT_polynomial_discontinuities :
    (∀ y : ℚ,
      (1961 ≤ y → y < 1986 → DeltaT.polynomial y = DeltaT.regimePolynomial 10 y) ∧
      (1986 ≤ y → y < 2005 → DeltaT.polynomial y = DeltaT.regimePolynomial 11 y) ∧
      (2005 ≤ y → y < 2050 → DeltaT.polynomial y = DeltaT.regimePolynomial 12 y) ∧
      (2050 ≤ y → y < 2150 → DeltaT.polynomial y = DeltaT.regimePolynomial 13 y)) ∧
    DeltaT.regimePolynomial 10 1986 ≠ DeltaT.regimePolynomial 11 1986 ∧
    DeltaT.regimePolynomial 11 2005 ≠ DeltaT.regimePolynomial 12 2005 ∧
    DeltaT.regimePolynomial 12 2050 ≠ DeltaT.regimePolynomial 13 2050 :=
  ⟨DeltaT_polynomial_1961_2150, DeltaT_regimePolynomial_jumps⟩

theorem DeltaT_regime_samples :
    List.map DeltaT.regime
      [-1000, 0, 1000, 1650, 1750, 1830, 1880, 1910, 1930, 1950, 1970, 1990, 2020, 2100, 2200] =
      List.range 15 := by
  decide!

/-- Every branch number from `0` to `14` is taken for some fractional year. -/
theorem DeltaT_regime_surjective (k : Nat) (hk : k < 15) : ∃ y : ℚ, DeltaT.regime y = k := by
  have hs := DeltaT_regime_samples
  have hlen : k < (List.map DeltaT.regime
      [-1000, 0, 1000, 1650, 1750, 1830, 1880, 1910, 1930, 1950, 1970, 1990, 2020, 2100,
        2200]).length := by
    simpa using hk
  have hget := List.getElem_map DeltaT.regime (h := hlen)
  refine ⟨_, hget.symm.trans ?_⟩
  simp only [hs, List.getElem_range]

/-- No branch number is above `14`. -/
theorem DeltaT_regime_le (y : ℚ) : DeltaT.regime y ≤ 14 := by
  rw [DeltaT_regime_eq_count]
  exact le_trans (List.length_filter_le _ _) (le_of_eq rfl)

/-- C25, counterexample: fifteen fractional years, from `-1000` to `2200`, are sent to the
fifteen different branches `0, 1, ..., 14` of the polynomial path, so no set of at most
thirteen branches holds every fractional year. -/
theorem DeltaT_thirteen_regimes_counterexample :
    List.map DeltaT.regime
      [-1000, 0, 1000, 1650, 1750, 1830, 1880, 1910, 1930, 1950, 1970, 1990, 2020, 2100, 2200] =
      List.range 15 ∧
    ¬ ∃ S : Finset Nat, S.card ≤ 13 ∧ ∀ y : ℚ, DeltaT.regime y ∈ S := by
  refine ⟨DeltaT_regime_samples, ?_⟩
  rintro ⟨S, hcard, hS⟩
  have hsub : Finset.range 15 ⊆ S := by
    intro k hk
    obtain ⟨y, hy⟩ := DeltaT_regime_surjective k (Finset.mem_range.mp hk)
    rw [← hy]
    exact hS y
  have := Finset.card_le_card hsub
  rw [Finset.card_range] at this
  omega

theorem DeltaT_regimePolynomial_distinct :
    (List.map (fun k => DeltaT.regimePolynomial k 0) (List.range 14)).Nodup ∧
    DeltaT.breakpoints.length = 14 ∧ strictlyAscending DeltaT.breakpoints = true := by
  decide!

/-- C25, amended: the polynomial path of `DeltaT` consists of fifteen disjoint regimes: the
fourteen values tested by the code, in ascending order, cut the year axis into fifteen
intervals, the branch taken for `y` being the number of tested values not after `y`; every
branch from `0` to `14` is taken; the fourteen branches `0` to `13` have fourteen different
expressions (they differ at `y = 0`), and the last branch, `y ≥ 2150`, has the expression of
the first, `y < -500`. -/
theorem DeltaT_fifteen_regimes :
    DeltaT.breakpoints.length = 14 ∧ strictlyAscending DeltaT.breakpoints = true ∧
    (∀ y : ℚ, DeltaT.regime y =
      (DeltaT.breakpoints.filter (fun b => decide (b ≤ y))).length) ∧
    (∀ y : ℚ, DeltaT.regime y ≤ 14) ∧
    (∀ k : Nat, k < 15 → ∃ y : ℚ, DeltaT.regime y = k) ∧
    (∀ y : ℚ, DeltaT.polynomial y = DeltaT.regimePolynomial (DeltaT.regime y) y) ∧
    (List.map (fun k => DeltaT.regimePolynomial k 0) (List.range 14)).Nodup ∧
    (∀ y : ℚ, DeltaT.regimePolynomial 14 y = DeltaT.regimePolynomial 0 y) :=
  ⟨DeltaT_regimePolynomial_distinct.2.1, DeltaT_regimePolynomial_distinct.2.2,
    DeltaT_regime_eq_count, DeltaT_regime_le, DeltaT_regime_surjective,
    DeltaT_polynomial_eq_regime, DeltaT_regimePolynomial_distinct.1, fun _ => rfl⟩

theorem DeltaT_regimePolynomial_boundary_gaps :
    ∀ p ∈ List.zip (List.range 14) DeltaT.breakpoints,
      DeltaT.regime p.2 = p.1 + 1 ∧
      |DeltaT.regimePolynomial p.1 p.2 - DeltaT.regimePolynomial (p.1 + 1) p.2| < 1 := by
  decide!

/-- C26: at each of the fourteen boundaries `-500, 500, 1600, 1700, 1800, 1860, 1900, 1920,
1941, 1961, 1986, 2005, 2050, 2150`, the `k`-th being where the branch `k - 1` ends and the
branch `k` starts, the expressions of the two branches, both evaluated at the boundary, differ
by less than `1` second. -/
theorem DeltaT_polynomial_boundary_match :
    DeltaT.breakpoints =
      [-500, 500, 1600, 1700, 1800, 1860, 1900, 1920, 1941, 1961, 1986, 2005, 2050, 2150] ∧
    (∀ y : ℚ, DeltaT.regime y =
      (DeltaT.breakpoints.filter (fun b => decide (b ≤ y))).length) ∧
    ∀ p ∈ List.zip (List.range 14) DeltaT.breakpoints,
      DeltaT.regime p.2 = p.1 + 1 ∧
      |DeltaT.regimePolynomial p.1 p.2 - DeltaT.regimePolynomial (p.1 + 1) p.2| < 1 :=
  ⟨rfl, DeltaT_regime_eq_count, DeltaT_regimePolynomial_boundary_gaps⟩

/-- The code for the fractional year `2100`, at `JD = 2488069.5` (1 January 2100). -/
theorem DeltaT_year_2100 : DeltaT (fun _ => 2100) 2488069.5 = some 202.744 := by
  rw [DeltaT_eq_polynomial (fun _ => 2100) 2488069.5 (Or.inr (by norm_num))]
  apply congrArg some
  decide!

/-- C27: the expression of the branch `[2050, 2150)`, `-205.72 + 56.28*u + 32*u^2` with
`u = (y - 1820)/100`, is `0.004` above `-20 + 32*((y - 1820)/100)^2 - 0.5628*(2150 - y)` for
every `y` (the constant of the expansion is `-205.724`), and at `y = 2150` it is `0.004` above
the long-term parabola `-20 + 32*u^2` of the branch `y ≥ 2150`. -/
theorem DeltaT_regime_2050_2150_offset :
    (∀ y : ℚ, DeltaT.regimePolynomial 13 y =
      -205.72 + 56.28 * ((y - 1820) / 100) + 32 * ((y - 1820) / 100) ^ 2) ∧
    (∀ y : ℚ, DeltaT.regimePolynomial 13 y -
      (-20 + 32 * ((y - 1820) / 100) ^ 2 - 0.5628 * (2150 - y)) = 0.004) ∧
    DeltaT (fun _ => 2100) 2488069.5 = some 202.744 ∧
    (-20 + 32 * (((2100 : ℚ) - 1820) / 100) ^ 2 - 0.5628 * (2150 - 2100) = 202.74) ∧
    DeltaT.regimePolynomial 13 2150 - DeltaT.regimePolynomial 14 2150 = 0.004 := by
  refine ⟨?_, ?_, ?_, ?_, ?_⟩
  · intro y
    simp only [DeltaT.regimePolynomial]
    norm_num
    ring
  · intro y
    simp only [DeltaT.regimePolynomial]
    norm_num
    ring
  · exact DeltaT_year_2100
  · norm_num
  · decide!

/-- The five branches written with reciprocal coefficients, as polynomials in the years `t`
from the offset of the branch. -/
theorem DeltaT_regimePolynomial_reciprocal (y : ℚ) :
    DeltaT.regimePolynomial 3 y =
      120 - 0.9808 * (y - 1600) - 0.01532 * (y - 1600) ^ 2 + (y - 1600) ^ 3 / 7129 ∧
    DeltaT.regimePolynomial 4 y =
      8.83 + 0.1603 * (y - 1700) - 0.0059285 * (y - 1700) ^ 2 + 0.00013336 * (y - 1700) ^ 3 -
        (y - 1700) ^ 4 / 1174000 ∧
    DeltaT.regimePolynomial 6 y =
      7.62 + 0.5737 * (y - 1860) - 0.251754 * (y - 1860) ^ 2 + 0.01680668 * (y - 1860) ^ 3 -
        0.0004473624 * (y - 1860) ^ 4 + (y - 1860) ^ 5 / 233174 ∧
    DeltaT.regimePolynomial 9 y =
      29.07 + 0.407 * (y - 1950) - (y - 1950) ^ 2 / 233 + (y - 1950) ^ 3 / 2547 ∧
    DeltaT.regimePolynomial 10 y =
      45.45 + 1.067 * (y - 1975) - (y - 1975) ^ 2 / 260 - (y - 1975) ^ 3 / 718 := by
  refine ⟨?_, ?_, ?_, ?_, ?_⟩ <;>
  · simp only [DeltaT.regimePolynomial]
    norm_num
    ring

/-- C28: the five branches written with reciprocal coefficients in `u = t/100` are, for every
`y`, the polynomials in `t` (the years from the offset of the branch):
`120 - 0.9808 t - 0.01532 t^2 + t^3/7129` with `t = y - 1600`;
`8.83 + 0.1603 t - 0.0059285 t^2 + 0.00013336 t^3 - t^4/1174000` with `t = y - 1700`;
`7.62 + 0.5737 t - 0.251754 t^2 + 0.01680668 t^3 - 0.0004473624 t^4 + t^5/233174` with
`t = y - 1860`; `29.07 + 0.407 t - t^2/233 + t^3/2547` with `t = y - 1950`;
`45.45 + 1.067 t - t^2/260 - t^3/718` with `t = y - 1975`; and the polynomial path takes these
values on `[1600, 1700)`, `[1700, 1800)`, `[1860, 1900)`, `[1941, 1961)` and `[1961, 1986)`. -/
theorem DeltaT_reciprocal_regimes (y : ℚ) :
    (DeltaT.regimePolynomial 3 y =
        120 - 0.9808 * (y - 1600) - 0.01532 * (y - 1600) ^ 2 + (y - 1600) ^ 3 / 7129 ∧
      DeltaT.regimePolynomial 4 y =
        8.83 + 0.1603 * (y - 1700) - 0.0059285 * (y - 1700) ^ 2 +
          0.00013336 * (y - 1700) ^ 3 - (y - 1700) ^ 4 / 1174000 ∧
      DeltaT.regimePolynomial 6 y =
        7.62 + 0.5737 * (y - 1860) - 0.251754 * (y - 1860) ^ 2 +
          0.01680668 * (y - 1860) ^ 3 - 0.0004473624 * (y - 1860) ^ 4 +
          (y - 1860) ^ 5 / 233174 ∧
      DeltaT.regimePolynomial 9 y =
        29.07 + 0.407 * (y - 1950) - (y - 1950) ^ 2 / 233 + (y - 1950) ^ 3 / 2547 ∧
      DeltaT.regimePolynomial 10 y =
        45.45 + 1.067 * (y - 1975) - (y - 1975) ^ 2 / 260 - (y - 1975) ^ 3 / 718) ∧
    (1600 ≤ y → y < 1700 → DeltaT.polynomial y =
        120 - 0.9808 * (y - 1600) - 0.01532 * (y - 1600) ^ 2 + (y - 1600) ^ 3 / 7129) ∧
    (1700 ≤ y → y < 1800 → DeltaT.polynomial y =
        8.83 + 0.1603 * (y - 1700) - 0.0059285 * (y - 1700) ^ 2 +
          0.00013336 * (y - 1700) ^ 3 - (y - 1700) ^ 4 / 1174000) ∧
    (1860 ≤ y → y < 1900 → DeltaT.polynomial y =
        7.62 + 0.5737 * (y - 1860) - 0.251754 * (y - 1860) ^ 2 +
          0.01680668 * (y - 1860) ^ 3 - 0.0004473624 * (y - 1860) ^ 4 +
          (y - 1860) ^ 5 / 233174) ∧
    (1941 ≤ y → y < 1961 → DeltaT.polynomial y =
        29.07 + 0.407 * (y - 1950) - (y - 1950) ^ 2 / 233 + (y - 1950) ^ 3 / 2547) ∧
    (1961 ≤ y → y < 1986 → DeltaT.polynomial y =
        45.45 + 1.067 * (y - 1975) - (y - 1975) ^ 2 / 260 - (y - 1975) ^ 3 / 718) := by
  obtain ⟨e3, e4, e6, e9, e10⟩ := DeltaT_regimePolynomial_reciprocal y
  obtain ⟨_, _, _, r3, r4, _, r6, _, _, r9, r10, _, _, _, _⟩ := DeltaT_regime_intervals y
  refine ⟨⟨e3, e4, e6, e9, e10⟩, ?_, ?_, ?_, ?_, ?_⟩
  · intro hlo hhi
    rw [DeltaT_polynomial_eq_regime, r3 hlo hhi, e3]
  · intro hlo hhi
    rw [DeltaT_polynomial_eq_regime, r4 hlo hhi, e4]
  · intro hlo hhi
    rw [DeltaT_polynomial_eq_regime, r6 hlo hhi, e6]
  · intro hlo hhi
    rw [DeltaT_polynomial_eq_regime, r9 hlo hhi, e9]
  · intro hlo hhi
    rw [DeltaT_polynomial_eq_regime, r10 hlo hhi, e10]

/-- C28 at `y = 1650`, in the branch `[1600, 1700)`. -/
theorem DeltaT_reciprocal_regimes_witness :
    DeltaT.polynomial 1650 =
      120 - 0.9808 * (1650 - 1600) - 0.01532 * (1650 - 1600) ^ 2 + (1650 - 1600) ^ 3 / 7129 :=
  (DeltaT_reciprocal_regimes 1650).2.1 (by norm_num) (by norm_num)

/-- C23: the code at the end of the delta-T table. The last row is `{2463232.5, 72.07}`
(2032.00); at that `JD`, with its fractional year `2032`, `DeltaT` is the polynomial of the
branch `[2005, 2050)`, `78.952576`; half a day before, it is within the table, below
`72.07`. The jump at the end of the table is `6.882576` seconds, not at most `2.5`. -/
theorem DeltaT_table_end_jump :
    g_DeltaTValues[g_DeltaTValues.length - 1]? = some (DeltaTValue.mk 2463232.5 72.07) ∧
    DeltaT (fun _ => 2032) 2463232.5 = some 78.952576 ∧
    (∃ D : ℚ, DeltaT (fun _ => 2032) 2463232 = some D ∧ 71.97 ≤ D ∧ D ≤ 72.07) ∧
    (78.952576 : ℚ) - 72.07 = 6.882576 ∧
    ¬ (|(78.952576 : ℚ) - 72.07| ≤ 2.5) := by
  refine ⟨?_, ?_, ?_, by norm_num, ?_⟩
  · rw [g_DeltaTValues_length]
    exact g_DeltaTValues_last
  · rw [DeltaT_eq_polynomial (fun _ => 2032) 2463232.5 (Or.inr (le_refl _)),
      DeltaT_polynomial_2032]
    apply congrArg some
    norm_num
  · obtain ⟨D1, _, hD1, _, _, _, _, _, ⟨hmin, hmax⟩, _⟩ :=
      DeltaT_affine_between_rows (fun _ => 2032) 1895 (DeltaTValue.mk 2463141.25 71.97)
        (DeltaTValue.mk 2463232.5 72.07) 2463232 2463232 g_DeltaTValues_row_1895
        g_DeltaTValues_last (by norm_num) (le_refl _) (by norm_num)
    refine ⟨D1, hD1, ?_, ?_⟩
    · have h : min (71.97 : ℚ) 72.07 = 71.97 := by norm_num
      rw [← h]
      exact hmin
    · have h : max (71.97 : ℚ) 72.07 = 72.07 := by norm_num
      rw [← h]
      exact hmax
  · rw [abs_le]
    norm_num

theorem g_LeapSecondCoefficients_row_13 :
    g_LeapSecondCoefficients[13]? = some (LeapSecondCoefficient.mk 2441317.5 10.0 41317 0.0) := by
  decide!

/-- From 1 January 1972 on, `CumulativeLeapSeconds` is the `LeapSeconds` of the last row of the
table that is not after `JD`. -/
theorem CumulativeLeapSeconds_step (JD : ℚ) (h : 2441317.5 ≤ JD) :
    ∃ (i : Nat) (e : LeapSecondCoefficient), g_LeapSecondCoefficients[i]? = some e ∧
      (∀ (j : Nat) (x : LeapSecondCoefficient), j ≤ i →
        g_LeapSecondCoefficients[j]? = some x → x.JD ≤ JD) ∧
      (∀ (j : Nat) (x : LeapSecondCoefficient), i < j →
        g_LeapSecondCoefficients[j]? = some x → JD < x.JD) ∧
      13 ≤ i ∧ e.Coefficient = 0 ∧
      CumulativeLeapSeconds JD = some e.LeapSeconds := by
  obtain ⟨i, e, he, hbelow, habove, hres⟩ :=
    CumulativeLeapSeconds_in_table JD (le_trans (by norm_num) h)
  have hi13 : 13 ≤ i := by
    by_contra hlt
    have := habove 13 _ (by omega) g_LeapSecondCoefficients_row_13
    exact absurd this (not_lt.mpr h)
  have hJD : (2441317.5 : ℚ) ≤ e.JD := by
    rcases Nat.eq_or_lt_of_le hi13 with heq | hlt
    · rw [← heq, g_LeapSecondCoefficients_row_13] at he
      rw [← Option.some.inj he]
    · exact le_of_lt (g_LeapSecondCoefficients_lt 13 i _ e hlt
        g_LeapSecondCoefficients_row_13 he)
  have hmem : e ∈ g_LeapSecondCoefficients := List.mem_iff_getElem?.mpr ⟨i, he⟩
  have hc : e.Coefficient = 0 := (g_LeapSecondCoefficients_zero_iff e hmem).mpr hJD
  refine ⟨i, e, he, hbelow, habove, hi13, hc, ?_⟩
  rw [hres, hc]
  apply congrArg some
  ring

/-- From 1 January 1972 on, `CumulativeLeapSeconds` has the same value at two dates when no
row of the leap-second table lies after the first and not after the second. -/
theorem CumulativeLeapSeconds_constant (a JD : ℚ) (ha : 2441317.5 ≤ a) (haJ : a ≤ JD)
    (hno : ∀ x ∈ g_LeapSecondCoefficients, x.JD ≤ a ∨ JD < x.JD) :
    CumulativeLeapSeconds JD = CumulativeLeapSeconds a := by
  obtain ⟨i, e, he, hbelow, habove, _, _, hres⟩ :=
    CumulativeLeapSeconds_step JD (le_trans ha haJ)
  obtain ⟨i2, e2, he2, hbelow2, habove2, _, _, hres2⟩ := CumulativeLeapSeconds_step a ha
  have hii : i = i2 := by
    rcases Nat.lt_trichotomy i i2 with hlt | heq | hgt
    · exfalso
      have h1 := habove i2 e2 hlt he2
      have h2 := hbelow2 i2 e2 (le_refl _) he2
      linarith
    · exact heq
    · exfalso
      have h1 := habove2 i e hgt he
      have h2 := hbelow i e (le_refl _) he
      rcases hno e (List.mem_iff_getElem?.mpr ⟨i, he⟩) with h3 | h3
      · linarith
      · linarith
  subst hii
  rw [he] at he2
  rw [hres, hres2, Option.some.inj he2]

/-- When a row of the leap-second table with `Coefficient = 0` is not after `JD` and the next
row, if there is one, is after `JD`, `CumulativeLeapSeconds JD` is the `LeapSeconds` of the
row. -/
theorem CumulativeLeapSeconds_at_index (JD : ℚ) (i : Nat) (e : LeapSecondCoefficient)
    (he : g_LeapSecondCoefficients[i]? = some e) (hc : e.Coefficient = 0) (hle : e.JD ≤ JD)
    (hnext : ∀ x : LeapSecondCoefficient, g_LeapSecondCoefficients[i + 1]? = some x →
      JD < x.JD) :
    CumulativeLeapSeconds JD = some e.LeapSeconds := by
  have hfirst : (2437300.5 : ℚ) ≤ e.JD := by
    rcases Nat.eq_zero_or_pos i with h0 | hpos
    · rw [h0, g_LeapSecondCoefficients_first] at he
      rw [← Option.some.inj he]
    · exact le_of_lt (g_LeapSecondCoefficients_lt 0 i _ e hpos
        g_LeapSecondCoefficients_first he)
  obtain ⟨i2, e2, he2, hbelow, habove, hres⟩ :=
    CumulativeLeapSeconds_in_table JD (le_trans hfirst hle)
  have hii : i2 = i := by
    rcases Nat.lt_trichotomy i2 i with hlt | heq | hgt
    · exact absurd (habove i e hlt he) (not_lt.mpr hle)
    · exact heq
    · exfalso
      obtain ⟨hl2, _⟩ := List.getElem?_eq_some.mp he2
      have hl : i + 1 < g_LeapSecondCoefficients.length := by omega
      have hx := List.getElem?_eq_getElem hl
      exact absurd (hnext _ hx) (not_lt.mpr (hbelow (i + 1) _ (by omega) hx))
  subst hii
  rw [he] at he2
  rw [hres, ← Option.some.inj he2, hc]
  apply congrArg some
  ring

/-- What the walk `UT1MinusUTC.check` establishes: in every interval of the rows it walks
along, `CumulativeLeapSeconds` is a constant `c` for which `c + 32.184 - DeltaT` is strictly
between `-0.9` and `0.9` at both tabulated values. -/
theorem UT1MinusUTC_check_sound (tbl : List DeltaTValue) :
    ∀ (leaps pre : List LeapSecondCoefficient) (e0 : LeapSecondCoefficient),
      g_LeapSecondCoefficients = pre ++ e0 :: leaps → e0.Coefficient = 0 →
      (∀ first : DeltaTValue, tbl[0]? = some first → e0.JD ≤ first.JD) →
      UT1MinusUTC.check leaps e0.LeapSeconds tbl = true →
      ∀ (k : Nat) (lo hi : DeltaTValue), tbl[k]? = some lo → tbl[k + 1]? = some hi →
        ∀ JD : ℚ, lo.JD ≤ JD → JD < hi.JD →
          ∃ c : ℚ, CumulativeLeapSeconds JD = some c ∧
            -0.9 < c + 32.184 - max lo.DeltaT hi.DeltaT ∧
            c + 32.184 - min lo.DeltaT hi.DeltaT < 0.9 := by
  induction tbl with
  | nil =>
    intro leaps pre e0 _ _ _ _ k lo hi hlo
    simp at hlo
  | cons lo0 tl ih =>
    intro leaps pre e0 hsplit hc0 hfirst hcheck k lo hi hlo hhi JD hJ1 hJ2
    cases tl with
    | nil =>
      simp at hhi
    | cons hi0 rest =>
      have he0 : e0.JD ≤ lo0.JD := hfirst lo0 rfl
      have hidx0 : g_LeapSecondCoefficients[pre.length]? = some e0 := by
        rw [hsplit, List.getElem?_append_right (le_refl _), Nat.sub_self]
        simp
      cases leaps with
      | nil =>
        simp only [UT1MinusUTC.check, Bool.and_eq_true, decide_eq_true_eq] at hcheck
        obtain ⟨⟨⟨hord, hb1⟩, hb2⟩, hrec⟩ := hcheck
        cases k with
        | zero =>
          have hlo2 : lo0 = lo := by simpa using hlo
          have hhi2 : hi0 = hi := by simpa using hhi
          subst hlo2
          subst hhi2
          refine ⟨e0.LeapSeconds, ?_, hb1, hb2⟩
          apply CumulativeLeapSeconds_at_index JD pre.length e0 hidx0 hc0 (le_trans he0 hJ1)
          intro x hx
          exfalso
          rw [hsplit, List.getElem?_append_right (Nat.le_succ _)] at hx
          simp at hx
        | succ k2 =>
          have hlo2 : (hi0 :: rest)[k2]? = some lo := by simpa using hlo
          have hhi2 : (hi0 :: rest)[k2 + 1]? = some hi := by simpa using hhi
          refine ih [] pre e0 hsplit hc0 ?_ hrec k2 lo hi hlo2 hhi2 JD hJ1 hJ2
          intro first hf
          have : hi0 = first := by simpa using hf
          rw [← this]
          exact le_trans he0 hord
      | cons r rs =>
        have hidx1 : g_LeapSecondCoefficients[pre.length + 1]? = some r := by
          rw [hsplit, List.getElem?_append_right (Nat.le_succ _)]
          simp
        by_cases hr : r.JD ≤ lo0.JD
        · simp only [UT1MinusUTC.check, hr, if_true, Bool.and_eq_true, decide_eq_true_eq]
            at hcheck
          obtain ⟨⟨⟨⟨⟨hnx, hcr⟩, hord⟩, hb1⟩, hb2⟩, hrec⟩ := hcheck
          have hsplit2 : g_LeapSecondCoefficients = (pre ++ [e0]) ++ r :: rs := by
            rw [hsplit]
            simp
          cases k with
          | zero =>
            have hlo2 : lo0 = lo := by simpa using hlo
            have hhi2 : hi0 = hi := by simpa using hhi
            subst hlo2
            subst hhi2
            refine ⟨r.LeapSeconds, ?_, hb1, hb2⟩
            apply CumulativeLeapSeconds_at_index JD (pre.length + 1) r hidx1 hcr
              (le_trans hr hJ1)
            intro x hx
            rw [hsplit, List.getElem?_append_right (by omega)] at hx
            have h2 : pre.length + 1 + 1 - pre.length = 2 := by omega
            rw [h2] at hx
            cases rs with
            | nil => simp at hx
            | cons r2 rs2 =>
              have hx2 : r2 = x := by simpa using hx
              rw [← hx2]
              simp only [decide_eq_true_eq] at hnx
              exact lt_of_lt_of_le hJ2 hnx
          | succ k2 =>
            have hlo2 : (hi0 :: rest)[k2]? = some lo := by simpa using hlo
            have hhi2 : (hi0 :: rest)[k2 + 1]? = some hi := by simpa using hhi
            refine ih rs (pre ++ [e0]) r hsplit2 hcr ?_ hrec k2 lo hi hlo2 hhi2 JD hJ1 hJ2
            intro first hf
            have : hi0 = first := by simpa using hf
            rw [← this]
            exact le_trans hr hord
        · simp only [UT1MinusUTC.check, hr, if_false, Bool.and_eq_true, decide_eq_true_eq]
            at hcheck
          obtain ⟨⟨⟨⟨hnx, hord⟩, hb1⟩, hb2⟩, hrec⟩ := hcheck
          cases k with
          | zero =>
            have hlo2 : lo0 = lo := by simpa using hlo
            have hhi2 : hi0 = hi := by simpa using hhi
            subst hlo2
            subst hhi2
            refine ⟨e0.LeapSeconds, ?_, hb1, hb2⟩
            apply CumulativeLeapSeconds_at_index JD pre.length e0 hidx0 hc0
              (le_trans he0 hJ1)
            intro x hx
            rw [hidx1] at hx
            rw [← Option.some.inj hx]
            exact lt_of_lt_of_le hJ2 hnx
          | succ k2 =>
            have hlo2 : (hi0 :: rest)[k2]? = some lo := by simpa using hlo
            have hhi2 : (hi0 :: rest)[k2 + 1]? = some hi := by simpa using hhi
            refine ih (r :: rs) pre e0 hsplit hc0 ?_ hrec k2 lo hi hlo2 hhi2 JD hJ1 hJ2
            intro first hf
            have : hi0 = first := by simpa using hf
            rw [← this]
            exact le_trans he0 hord

theorem g_LeapSecondCoefficients_split :
    g_LeapSecondCoefficients =
      g_LeapSecondCoefficients.take 15 ++
        LeapSecondCoefficient.mk 2441683.5 12.0 41317 0.0 :: g_LeapSecondCoefficients.drop 16 := by
  decide!

set_option maxRecDepth 100000 in
theorem g_DeltaTValues_row_544 :
    g_DeltaTValues[544]? = some (DeltaTValue.mk 2458270.5 69.1070) := by
  decide!

set_option maxRecDepth 100000 in
theorem UT1MinusUTC_check_table :
    UT1MinusUTC.check (g_LeapSecondCoefficients.drop 16)
      (LeapSecondCoefficient.mk 2441683.5 12.0 41317 0.0).LeapSeconds
      (g_DeltaTValues.take 545) = true := by
  decide!

/-- From the first row of the delta-T table to the end of the leap-second window,
`UT1MinusUTC` is `CumulativeLeapSeconds + 32.184 - DeltaT`, strictly between `-0.9` and
`0.9`. -/
theorem UT1MinusUTC_bound (FractionalYear : ℚ → ℚ) (JD : ℚ)
    (h1 : 2441714.5 ≤ JD) (h2 : JD ≤ 2458254.5) :
    ∃ D : ℚ, UT1MinusUTC FractionalYear JD = some D ∧ |D| < 0.9 := by
  obtain ⟨k, hi, lo, hk0, hhi, hlo, hgt, hbelow, _, hD⟩ :=
    DeltaT_in_table FractionalYear JD h1 (lt_of_le_of_lt h2 (by norm_num))
  have hloJ : lo.JD ≤ JD := hbelow (k - 1) lo (by omega) hlo
  have hk : k ≤ 544 := by
    by_contra hlt
    have := hbelow 544 _ (by omega) g_DeltaTValues_row_544
    have h3 : (DeltaTValue.mk 2458270.5 69.1070).JD = 2458270.5 := rfl
    rw [h3] at this
    have h4 : (2458254.5 : ℚ) < 2458270.5 := by norm_num
    linarith
  have hhi2 : g_DeltaTValues[k - 1 + 1]? = some hi := by
    rw [Nat.sub_add_cancel hk0]
    exact hhi
  have hlo_t : (g_DeltaTValues.take 545)[k - 1]? = some lo := by
    rw [List.getElem?_take_of_lt (by omega)]
    exact hlo
  have hhi_t : (g_DeltaTValues.take 545)[k - 1 + 1]? = some hi := by
    rw [List.getElem?_take_of_lt (by omega)]
    exact hhi2
  have hfirst : ∀ first : DeltaTValue, (g_DeltaTValues.take 545)[0]? = some first →
      (LeapSecondCoefficient.mk 2441683.5 12.0 41317 0.0).JD ≤ first.JD := by
    intro first hf
    rw [List.getElem?_take_of_lt (by omega), g_DeltaTValues_first] at hf
    rw [← Option.some.inj hf]
    norm_num
  obtain ⟨c, hL, hb1, hb2⟩ := UT1MinusUTC_check_sound (g_DeltaTValues.take 545)
    (g_LeapSecondCoefficients.drop 16) (g_LeapSecondCoefficients.take 15)
    (LeapSecondCoefficient.mk 2441683.5 12.0 41317 0.0) g_LeapSecondCoefficients_split
    (by norm_num) hfirst UT1MinusUTC_check_table (k - 1) lo hi hlo_t hhi_t JD hloJ hgt
  obtain ⟨D1, _, hD1, _, _, _, _, _, ⟨hmin, hmax⟩, _⟩ :=
    DeltaT_affine_between_rows FractionalYear (k - 1) lo hi JD JD hlo hhi2 hloJ (le_refl _) hgt
  refine ⟨_, UT1MinusUTC_unfold FractionalYear JD D1 c hD1 hL, ?_⟩
  have he : (JD - (JD + (D1 - c - 32.184) / 86400)) * 86400 = c + 32.184 - D1 := by
    field_simp
    ring
  rw [he, abs_lt]
  constructor
  · linarith
  · linarith

/-- C29: for every `JD` with `2441714.5 ≤ JD ≤ 2458254.5` (from the first row of the delta-T
table to the end of the leap-second window), `|UT1MinusUTC JD| < 0.9` seconds. -/
theorem UT1MinusUTC_within_0_9 (FractionalYear : ℚ → ℚ) (JD : ℚ)
    (h1 : 2441714.5 ≤ JD) (h2 : JD ≤ 2458254.5) :
    ∃ D : ℚ, UT1MinusUTC FractionalYear JD = some D ∧ |D| < 0.9 :=
  UT1MinusUTC_bound FractionalYear JD h1 h2

/-- C29 at `JD = 2449534.5` (1 July 1994), the date of the range where `UT1MinusUTC` is the
largest. -/
theorem UT1MinusUTC_within_0_9_witness :
    ∃ D : ℚ, UT1MinusUTC (fun _ => 1994) 2449534.5 = some D ∧ |D| < 0.9 :=
  UT1MinusUTC_within_0_9 (fun _ => 1994) 2449534.5 (by norm_num) (by norm_num)

set_option maxRecDepth 100000 in
theorem g_DeltaTValues_row_527 :
    g_DeltaTValues[527]? = some (DeltaTValue.mk 2457754.5 68.5928) := by
  decide!

/-- The value of `UT1MinusUTC` once the `JD` terms of its expression have cancelled. -/
theorem UT1MinusUTC_eq_sub (FractionalYear : ℚ → ℚ) (JD DT L : ℚ)
    (hDT : DeltaT FractionalYear JD = some DT) (hL : CumulativeLeapSeconds JD = some L) :
    UT1MinusUTC FractionalYear JD = some (L + 32.184 - DT) := by
  rw [UT1MinusUTC_unfold FractionalYear JD DT L hDT hL]
  apply congrArg some
  ring

/-- The row of 1 January 2017 of the delta-T table is returned as it is. -/
theorem DeltaT_2017 (FractionalYear : ℚ → ℚ) :
    DeltaT FractionalYear 2457754.5 = some 68.5928 :=
  DeltaT_at_row FractionalYear 527 (DeltaTValue.mk 2457754.5 68.5928)
    (by rw [g_DeltaTValues_length]; omega) g_DeltaTValues_row_527

/-- The row of 1 September 2019 of the delta-T table is returned as it is. -/
theorem DeltaT_2019_09 (FractionalYear : ℚ → ℚ) :
    DeltaT FractionalYear 2458727.5 = some 69.337633 := by
  have h := DeltaT_at_row FractionalYear 559 (DeltaTValue.mk 2458727.50 69.337633)
    (by rw [g_DeltaTValues_length]; omega) g_DeltaTValues_seam_rows.2.1
  have e : (2458727.50 : ℚ) = 2458727.5 := by norm_num
  simpa only [e] using h

/-- C31: inside the leap-second window, `2437300.5 ≤ JD ≤ 2458254.5`, the delta-T term cancels:
with `L = CumulativeLeapSeconds JD`, the expression of `TT2UTC` has the value
`JD - (L + 32.184)/86400` and that of `UTC2TT` the value `JD + (L + 32.184)/86400` whatever
number stands for delta-T in them, so that both functions return these values for every
calendar collaborator (the polynomial expressions) and every value of `DeltaT JD`. -/
theorem TT2UTC_UTC2TT_deltaT_cancels (JD : ℚ) (h1 : 2437300.5 ≤ JD) (h2 : JD ≤ 2458254.5) :
    ∃ L : ℚ, CumulativeLeapSeconds JD = some L ∧
      (∀ FractionalYear : ℚ → ℚ,
        TT2UTC FractionalYear JD = some (JD - (L + 32.184) / 86400) ∧
        UTC2TT FractionalYear JD = some (JD + (L + 32.184) / 86400)) ∧
      (∀ DT : ℚ,
        ((DT - L - 32.184) / 86400.0) + (JD - (DT / 86400.0)) = JD - (L + 32.184) / 86400 ∧
        (JD - ((DT - L - 32.184) / 86400.0)) + (DT / 86400.0) = JD + (L + 32.184) / 86400) := by
  obtain ⟨L, hL⟩ := CumulativeLeapSeconds_total JD
  refine ⟨L, hL, fun fy => ⟨TT2UTC_eq_sub fy JD L h1 h2 hL, UTC2TT_eq_add fy JD L h1 h2 hL⟩,
    fun DT => ⟨?_, ?_⟩⟩
  · norm_num
    ring
  · norm_num
    ring

theorem TT2UTC_UTC2TT_deltaT_cancels_witness :
    ∃ L : ℚ, CumulativeLeapSeconds 2451545 = some L ∧
      (∀ FractionalYear : ℚ → ℚ,
        TT2UTC FractionalYear 2451545 = some (2451545 - (L + 32.184) / 86400) ∧
        UTC2TT FractionalYear 2451545 = some (2451545 + (L + 32.184) / 86400)) ∧
      (∀ DT : ℚ,
        ((DT - L - 32.184) / 86400.0) + (2451545 - (DT / 86400.0)) =
          2451545 - (L + 32.184) / 86400 ∧
        (2451545 - ((DT - L - 32.184) / 86400.0)) + (DT / 86400.0) =
          2451545 + (L + 32.184) / 86400) :=
  TT2UTC_UTC2TT_deltaT_cancels 2451545 (by norm_num) (by norm_num)

/-- C32: for every `JD`, `UT1MinusUTC JD = CumulativeLeapSeconds JD + 32.184 - DeltaT JD`; at
1 January 2017 this is `37 + 32.184 - 68.5928 = 0.5912` and at 1 September 2019 it is
`37 + 32.184 - 69.337633 = -0.153633`, which is the value `-0.1536329` written beside that row
of the delta-T table, rounded to the six decimals of the row. -/
theorem UT1MinusUTC_eq_leap_minus_deltaT (FractionalYear : ℚ → ℚ) :
    (∀ JD : ℚ, ∃ DT L : ℚ, DeltaT FractionalYear JD = some DT ∧
      CumulativeLeapSeconds JD = some L ∧
      UT1MinusUTC FractionalYear JD = some (L + 32.184 - DT)) ∧
    (DeltaT FractionalYear 2457754.5 = some 68.5928 ∧
      CumulativeLeapSeconds 2457754.5 = some 37 ∧
      UT1MinusUTC FractionalYear 2457754.5 = some (37 + 32.184 - 68.5928) ∧
      UT1MinusUTC FractionalYear 2457754.5 = some 0.5912) ∧
    (DeltaT FractionalYear 2458727.5 = some 69.337633 ∧
      CumulativeLeapSeconds 2458727.5 = some 37 ∧
      UT1MinusUTC FractionalYear 2458727.5 = some (37 + 32.184 - 69.337633) ∧
      UT1MinusUTC FractionalYear 2458727.5 = some (-0.153633) ∧
      |(-0.153633 : ℚ) - (-0.1536329)| ≤ 0.0000005) := by
  have hL1 := CumulativeLeapSeconds_after_last 2457754.5 (le_refl _)
  have hL2 := CumulativeLeapSeconds_after_last 2458727.5 (by norm_num)
  have hD1 := DeltaT_2017 FractionalYear
  have hD2 := DeltaT_2019_09 FractionalYear
  have hU1 := UT1MinusUTC_eq_sub FractionalYear _ _ _ hD1 hL1
  have hU2 := UT1MinusUTC_eq_sub FractionalYear _ _ _ hD2 hL2
  refine ⟨fun JD => ?_, ⟨hD1, hL1, hU1, ?_⟩, ⟨hD2, hL2, hU2, ?_, ?_⟩⟩
  · obtain ⟨DT, hDT⟩ := DeltaT_total FractionalYear JD
    obtain ⟨L, hL⟩ := CumulativeLeapSeconds_total JD
    exact ⟨DT, L, hDT, hL, UT1MinusUTC_eq_sub FractionalYear JD DT L hDT hL⟩
  · rw [hU1]
    apply congrArg some
    norm_num
  · rw [hU2]
    apply congrArg some
    norm_num
  · rw [abs_le]
    constructor <;> norm_num

/-- When `TT2UTC JD` stays in the leap-second window and `CumulativeLeapSeconds` has the same
value there as at `JD`, `UTC2TT` takes it back to `JD`. -/
theorem UTC2TT_TT2UTC_of_same_leap (FractionalYear : ℚ → ℚ) (JD T : ℚ)
    (h1 : 2437300.5 ≤ JD) (h2 : JD ≤ 2458254.5)
    (hT : TT2UTC FractionalYear JD = some T)
    (hT1 : 2437300.5 ≤ T) (hT2 : T ≤ 2458254.5)
    (hL : CumulativeLeapSeconds T = CumulativeLeapSeconds JD) :
    UTC2TT FractionalYear T = some JD := by
  obtain ⟨L, hLJ⟩ := CumulativeLeapSeconds_total JD
  rw [TT2UTC_eq_sub FractionalYear JD L h1 h2 hLJ] at hT
  have hTe : T = JD - (L + 32.184) / 86400 := (Option.some.inj hT).symm
  rw [UTC2TT_eq_add FractionalYear T L hT1 hT2 (hL.trans hLJ), hTe]
  apply congrArg some
  ring

/-- From 69.184 seconds after 1 January 2017 to the end of the leap-second window, `TT2UTC`
subtracts 69.184 seconds and `UTC2TT` adds them again. -/
theorem UTC2TT_TT2UTC_after_2017 (FractionalYear : ℚ → ℚ) (JD : ℚ)
    (h1 : 2457754.5 + 69.184 / 86400 ≤ JD) (h2 : JD ≤ 2458254.5) :
    TT2UTC FractionalYear JD = some (JD - 69.184 / 86400) ∧
      CumulativeLeapSeconds (JD - 69.184 / 86400) = CumulativeLeapSeconds JD ∧
      UTC2TT FractionalYear (JD - 69.184 / 86400) = some JD := by
  have hJ : (2457754.5 : ℚ) ≤ JD := le_trans (by norm_num) h1
  have hT : (2457754.5 : ℚ) ≤ JD - 69.184 / 86400 := by linarith
  have hLJ := CumulativeLeapSeconds_after_last JD hJ
  have hLT := CumulativeLeapSeconds_after_last _ hT
  have hTT : TT2UTC FractionalYear JD = some (JD - 69.184 / 86400) := by
    rw [TT2UTC_eq_sub FractionalYear JD 37 (le_trans (by norm_num) hJ) h2 hLJ]
    apply congrArg some
    norm_num
  refine ⟨hTT, hLT.trans hLJ.symm, ?_⟩
  exact UTC2TT_TT2UTC_of_same_leap FractionalYear JD _ (le_trans (by norm_num) hJ) h2 hTT
    (le_trans (by norm_num) hT) (le_trans (sub_le_self _ (by norm_num)) h2)
    (hLT.trans hLJ.symm)

/-- C33, amended: in exact arithmetic (the `double` values taken as exact rationals), for `JD`
in the leap-second window `[2437300.5, 2458254.5]`, when `T = TT2UTC JD` is in the window too
and `CumulativeLeapSeconds T = CumulativeLeapSeconds JD`, then `UTC2TT (TT2UTC JD) = JD`
exactly; this is the case of every `JD` with `2457754.5 + 69.184/86400 ≤ JD ≤ 2458254.5`. -/
theorem UTC2TT_TT2UTC_exact_condition (FractionalYear : ℚ → ℚ) :
    (∀ JD T : ℚ, 2437300.5 ≤ JD → JD ≤ 2458254.5 → TT2UTC FractionalYear JD = some T →
      2437300.5 ≤ T → T ≤ 2458254.5 →
      CumulativeLeapSeconds T = CumulativeLeapSeconds JD →
      (TT2UTC FractionalYear JD).bind (UTC2TT FractionalYear) = some JD) ∧
    (∀ JD : ℚ, 2457754.5 + 69.184 / 86400 ≤ JD → JD ≤ 2458254.5 →
      ∃ T : ℚ, TT2UTC FractionalYear JD = some T ∧ 2437300.5 ≤ T ∧ T ≤ 2458254.5 ∧
        CumulativeLeapSeconds T = CumulativeLeapSeconds JD ∧
        (TT2UTC FractionalYear JD).bind (UTC2TT FractionalYear) = some JD) := by
  constructor
  · intro JD T h1 h2 hT hT1 hT2 hL
    rw [hT]
    exact UTC2TT_TT2UTC_of_same_leap FractionalYear JD T h1 h2 hT hT1 hT2 hL
  · intro JD h1 h2
    obtain ⟨hT, hL, hU⟩ := UTC2TT_TT2UTC_after_2017 FractionalYear JD h1 h2
    refine ⟨_, hT, ?_, ?_, hL, ?_⟩
    · linarith
    · linarith
    · rw [hT]
      exact hU

theorem UTC2TT_TT2UTC_exact_condition_witness :
    (2457754.5 + 69.184 / 86400 : ℚ) ≤ 2458000 ∧ (2458000 : ℚ) ≤ 2458254.5 ∧
      ∃ T : ℚ, TT2UTC (fun _ => 2017) 2458000 = some T ∧ 2437300.5 ≤ T ∧ T ≤ 2458254.5 ∧
        CumulativeLeapSeconds T = CumulativeLeapSeconds 2458000 ∧
        (TT2UTC (fun _ => 2017) 2458000).bind (UTC2TT (fun _ => 2017)) = some 2458000 :=
  ⟨by norm_num, by norm_num,
    (UTC2TT_TT2UTC_exact_condition (fun _ => 2017)).2 2458000 (by norm_num) (by norm_num)⟩

/-- Each row of the leap-second table with a drift (`Coefficient ≠ 0`) has a positive
`Coefficient`, a positive value at its own `JD` and a value below 10 at the `JD` of the next
row. -/
theorem g_LeapSecondCoefficients_drift_rows :
    ∀ p ∈ g_LeapSecondCoefficients.zip g_LeapSecondCoefficients.tail,
      p.1.Coefficient ≠ 0 →
        0 ≤ p.1.Coefficient ∧
        0 < p.1.LeapSeconds + (p.1.JD - 2400000.5 - p.1.BaseMJD) * p.1.Coefficient ∧
        p.1.LeapSeconds + (p.2.JD - 2400000.5 - p.1.BaseMJD) * p.1.Coefficient < 10 := by
  decide!

/-- Each row of the leap-second table without a drift holds a number of seconds from 10 to
37. -/
theorem g_LeapSecondCoefficients_step_rows :
    ∀ e ∈ g_LeapSecondCoefficients,
      e.Coefficient = 0 → 10 ≤ e.LeapSeconds ∧ e.LeapSeconds ≤ 37 := by
  decide!

/-- The row number `i ≥ 13` of the leap-second table holds `i - 3` seconds. -/
theorem g_LeapSecondCoefficients_step_value :
    ∀ i : Nat, i < 41 → 13 ≤ i →
      g_LeapSecondCoefficients[i]?.map LeapSecondCoefficient.LeapSeconds =
        some ((i : ℚ) - 3) := by
  decide!

/-- From the first row of the leap-second table to 1 January 1972, `CumulativeLeapSeconds` is
positive and below 10. -/
theorem CumulativeLeapSeconds_drift (JD : ℚ) (h1 : 2437300.5 ≤ JD) (h2 : JD < 2441317.5) :
    ∃ L : ℚ, CumulativeLeapSeconds JD = some L ∧ 0 < L ∧ L < 10 := by
  obtain ⟨i, e, he, hbelow, habove, hres⟩ := CumulativeLeapSeconds_in_table JD h1
  have hmem : e ∈ g_LeapSecondCoefficients := List.mem_iff_getElem?.mpr ⟨i, he⟩
  have heJ : e.JD ≤ JD := hbelow i e (le_refl _) he
  have hc : e.Coefficient ≠ 0 := by
    intro h0
    have := (g_LeapSecondCoefficients_zero_iff e hmem).mp h0
    linarith
  obtain ⟨hil, _⟩ := List.getElem?_eq_some.mp he
  rw [g_LeapSecondCoefficients_length] at hil
  have hi40 : i ≠ 40 := by
    intro h40
    rw [h40, g_LeapSecondCoefficients_last] at he
    rw [← Option.some.inj he] at hc
    exact hc (by norm_num)
  have hnext : i + 1 < g_LeapSecondCoefficients.length := by
    rw [g_LeapSecondCoefficients_length]
    omega
  have hx : g_LeapSecondCoefficients[i + 1]? =
      some (g_LeapSecondCoefficients[i + 1]) := List.getElem?_eq_getElem hnext
  have hJx := habove (i + 1) _ (Nat.lt_succ_self i) hx
  obtain ⟨hk, hpos, hlt⟩ := g_LeapSecondCoefficients_drift_rows _
    (mem_zip_tail_of_getElem g_LeapSecondCoefficients i e _ he hx) hc
  refine ⟨_, hres, ?_, ?_⟩
  · have := mul_le_mul_of_nonneg_right
      (by linarith : e.JD - 2400000.5 - e.BaseMJD ≤ JD - 2400000.5 - e.BaseMJD) hk
    linarith
  · have := mul_le_mul_of_nonneg_right
      (by linarith : JD - 2400000.5 - e.BaseMJD ≤
        (g_LeapSecondCoefficients[i + 1]).JD - 2400000.5 - e.BaseMJD) hk
    linarith

/-- Range of `CumulativeLeapSeconds`: 0 before the leap-second table, between 0 and 10 up to
1 January 1972, from 10 to 37 afterwards. -/
theorem CumulativeLeapSeconds_range (JD : ℚ) :
    ∃ L : ℚ, CumulativeLeapSeconds JD = some L ∧ 0 ≤ L ∧ L ≤ 37 ∧
      (L = 0 ↔ JD < 2437300.5) ∧
      (2437300.5 ≤ JD → JD < 2441317.5 → 0 < L ∧ L < 10) ∧
      (2441317.5 ≤ JD → 10 ≤ L) := by
  by_cases h0 : JD < 2437300.5
  · refine ⟨0, ?_, le_refl _, by norm_num, ⟨fun _ => h0, fun _ => rfl⟩, ?_, ?_⟩
    · rw [CumulativeLeapSeconds_unfold, if_neg (not_le.mpr h0)]
    · intro h
      exact absurd h0 (not_lt.mpr h)
    · intro h
      exfalso
      linarith
  · have h1 : (2437300.5 : ℚ) ≤ JD := not_lt.mp h0
    by_cases h2 : JD < 2441317.5
    · obtain ⟨L, hL, hpos, hlt⟩ := CumulativeLeapSeconds_drift JD h1 h2
      refine ⟨L, hL, hpos.le, by linarith, ⟨fun h => ?_, fun h => absurd h h0⟩,
        fun _ _ => ⟨hpos, hlt⟩, fun h => ?_⟩
      · exact absurd h (ne_of_gt hpos)
      · exfalso
        linarith
    · have h3 : (2441317.5 : ℚ) ≤ JD := not_lt.mp h2
      obtain ⟨i, e, he, _, _, _, hc, hres⟩ := CumulativeLeapSeconds_step JD h3
      obtain ⟨hlo, hhi⟩ := g_LeapSecondCoefficients_step_rows e
        (List.mem_iff_getElem?.mpr ⟨i, he⟩) hc
      refine ⟨_, hres, by linarith, hhi, ⟨fun h => ?_, fun h => absurd h h0⟩,
        fun _ h => absurd h h2, fun _ => hlo⟩
      exfalso
      linarith

/-- C34: for every `JD`, `0 ≤ CumulativeLeapSeconds JD ≤ 37`, and the value is 0 exactly when
`JD < 2437300.5`; from the first row of the table to 1 January 1972 (`JD < 2441317.5`) the rows
with a linear drift give a value that is positive and below 10, and from 1 January 1972 on
the value is at least 10. -/
theorem CumulativeLeapSeconds_bounds (JD : ℚ) :
    ∃ L : ℚ, CumulativeLeapSeconds JD = some L ∧ 0 ≤ L ∧ L ≤ 37 ∧
      (L = 0 ↔ JD < 2437300.5) ∧
      (2437300.5 ≤ JD → JD < 2441317.5 → 0 < L ∧ L < 10) ∧
      (2441317.5 ≤ JD → 10 ≤ L) :=
  CumulativeLeapSeconds_range JD

/-- In a list whose rows satisfy `P` exactly at the indices from `a` to `b - 1`, the number of
rows that satisfy `P` is `b - a`. -/
theorem length_filter_of_index_range {α : Type} (P : α → Bool) :
    ∀ (l : List α) (a b : Nat), a ≤ b → b ≤ l.length →
      (∀ (j : Nat) (x : α), j < a → l[j]? = some x → P x = false) →
      (∀ (j : Nat) (x : α), a ≤ j → j < b → l[j]? = some x → P x = true) →
      (∀ (j : Nat) (x : α), b ≤ j → l[j]? = some x → P x = false) →
      (l.filter P).length = b - a := by
  intro l
  induction l with
  | nil =>
    intro a b hab hb _ _ _
    simp only [List.length_nil, Nat.le_zero] at hb
    subst hb
    simp
  | cons x xs ih =>
    intro a b hab hb h1 h2 h3
    rcases Nat.eq_zero_or_pos b with hb0 | hbpos
    · subst hb0
      have ha0 : a = 0 := Nat.le_zero.mp hab
      subst ha0
      have hx : P x = false := h3 0 x (le_refl _) (by simp)
      have hrec := ih 0 0 (le_refl _) (Nat.zero_le _)
        (fun j y hj _ => absurd hj (Nat.not_lt_zero j))
        (fun j y _ hj _ => absurd hj (Nat.not_lt_zero j))
        (fun j y _ hy => h3 (j + 1) y (Nat.zero_le _) (by simpa using hy))
      rw [List.filter_cons_of_neg (by simp [hx]), hrec]
    · obtain ⟨b2, rfl⟩ : ∃ b2, b = b2 + 1 := ⟨b - 1, by omega⟩
      have hb2 : b2 ≤ xs.length := by
        simp only [List.length_cons] at hb
        omega
      rcases Nat.eq_zero_or_pos a with ha0 | hapos
      · subst ha0
        have hx : P x = true := h2 0 x (le_refl _) (Nat.succ_pos _) (by simp)
        have hrec := ih 0 b2 (Nat.zero_le _) hb2
          (fun j y hj _ => absurd hj (Nat.not_lt_zero j))
          (fun j y _ hj hy => h2 (j + 1) y (Nat.zero_le _) (by omega) (by simpa using hy))
          (fun j y hj hy => h3 (j + 1) y (by omega) (by simpa using hy))
        rw [List.filter_cons_of_pos hx, List.length_cons, hrec]
        omega
      · obtain ⟨a2, rfl⟩ : ∃ a2, a = a2 + 1 := ⟨a - 1, by omega⟩
        have hx : P x = false := h1 0 x (Nat.succ_pos _) (by simp)
        have hrec := ih a2 b2 (by omega) hb2
          (fun j y hj hy => h1 (j + 1) y (by omega) (by simpa using hy))
          (fun j y hj hj2 hy => h2 (j + 1) y (by omega) (by omega) (by simpa using hy))
          (fun j y hj hy => h3 (j + 1) y (by omega) (by simpa using hy))
        rw [List.filter_cons_of_neg (by simp [hx]), hrec]
        omega

/-- From 1 January 1972 on, `CumulativeLeapSeconds` is 9 plus the number of rows of the
leap-second table whose `JD` is in `[2441317.5, JD]`. -/
theorem CumulativeLeapSeconds_eq_count (JD : ℚ) (h : 2441317.5 ≤ JD) :
    CumulativeLeapSeconds JD =
      some (9 + ((g_LeapSecondCoefficients.filter
        (fun x => decide (2441317.5 ≤ x.JD ∧ x.JD ≤ JD))).length : ℚ)) := by
  obtain ⟨i, e, he, hbelow, habove, hi13, _, hres⟩ := CumulativeLeapSeconds_step JD h
  obtain ⟨hil, _⟩ := List.getElem?_eq_some.mp he
  have hlen := g_LeapSecondCoefficients_length
  rw [hlen] at hil
  have hcount := length_filter_of_index_range
    (fun x : LeapSecondCoefficient => decide (2441317.5 ≤ x.JD ∧ x.JD ≤ JD))
    g_LeapSecondCoefficients 13 (i + 1) (by omega) (by omega)
    (by
      intro j x hj hx
      have := g_LeapSecondCoefficients_lt j 13 x _ hj hx g_LeapSecondCoefficients_row_13
      simp only [decide_eq_false_iff_not, not_and]
      intro h13
      exfalso
      have h13b : (2441317.5 : ℚ) ≤ x.JD := h13
      have hlt : x.JD < 2441317.5 := this
      linarith)
    (by
      intro j x hj1 hj2 hx
      have hxJ := hbelow j x (by omega) hx
      have h13 : (2441317.5 : ℚ) ≤ x.JD := by
        rcases Nat.eq_or_lt_of_le hj1 with heq | hlt
        · rw [← heq, g_LeapSecondCoefficients_row_13] at hx
          rw [← Option.some.inj hx]
        · exact le_of_lt (g_LeapSecondCoefficients_lt 13 j _ x hlt
            g_LeapSecondCoefficients_row_13 hx)
      simp only [decide_eq_true_eq]
      exact ⟨h13, hxJ⟩)
    (by
      intro j x hj hx
      have hxJ := habove j x (by omega) hx
      simp only [decide_eq_false_iff_not, not_and, not_le]
      intro _
      exact hxJ)
  have hval := g_LeapSecondCoefficients_step_value i hil hi13
  rw [he] at hval
  have hL : e.LeapSeconds = (i : ℚ) - 3 := Option.some.inj hval
  rw [hres, hcount, hL]
  apply congrArg some
  have hcast : ((i + 1 - 13 : Nat) : ℚ) = (i : ℚ) + 1 - 13 := by
    rw [Nat.cast_sub (by omega)]
    push_cast
    ring
  rw [hcast]
  ring

/-- From 1 January 1972 on, `CumulativeLeapSeconds` does not decrease. -/
theorem CumulativeLeapSeconds_mono (JD1 JD2 : ℚ) (h1 : 2441317.5 ≤ JD1) (h12 : JD1 ≤ JD2) :
    ∃ L1 L2 : ℚ, CumulativeLeapSeconds JD1 = some L1 ∧ CumulativeLeapSeconds JD2 = some L2 ∧
      L1 ≤ L2 := by
  refine ⟨_, _, CumulativeLeapSeconds_eq_count JD1 h1,
    CumulativeLeapSeconds_eq_count JD2 (le_trans h1 h12), ?_⟩
  have hsub : ∀ x : LeapSecondCoefficient,
      decide (2441317.5 ≤ x.JD ∧ x.JD ≤ JD1) = true →
      decide (2441317.5 ≤ x.JD ∧ x.JD ≤ JD2) = true := by
    intro x hx
    simp only [decide_eq_true_eq] at hx ⊢
    exact ⟨hx.1, le_trans hx.2 h12⟩
  have hle := List.Sublist.length_le
    (List.monotone_filter_right g_LeapSecondCoefficients hsub)
  have hq : ((List.filter (fun x => decide (2441317.5 ≤ x.JD ∧ x.JD ≤ JD1))
      g_LeapSecondCoefficients).length : ℚ) ≤
      ((List.filter (fun x => decide (2441317.5 ≤ x.JD ∧ x.JD ≤ JD2))
      g_LeapSecondCoefficients).length : ℚ) := by
    exact_mod_cast hle
  linarith

/-- C35: from 1 January 1972 on, `CumulativeLeapSeconds` is an integer-valued step function
that does not decrease: for `JD ≥ 2441317.5` it is 9 plus the number of rows of the
leap-second table whose `JD` lies in `[2441317.5, JD]`, and for `2441317.5 ≤ JD1 ≤ JD2` its
value at `JD1` is not above its value at `JD2`. -/
theorem CumulativeLeapSeconds_step_function :
    (∀ JD : ℚ, 2441317.5 ≤ JD →
      CumulativeLeapSeconds JD =
        some (9 + ((g_LeapSecondCoefficients.filter
          (fun x => decide (2441317.5 ≤ x.JD ∧ x.JD ≤ JD))).length : ℚ))) ∧
    (∀ JD1 JD2 : ℚ, 2441317.5 ≤ JD1 → JD1 ≤ JD2 →
      ∃ L1 L2 : ℚ, CumulativeLeapSeconds JD1 = some L1 ∧
        CumulativeLeapSeconds JD2 = some L2 ∧ L1 ≤ L2) :=
  ⟨CumulativeLeapSeconds_eq_count, CumulativeLeapSeconds_mono⟩

theorem CumulativeLeapSeconds_step_function_witness :
    (2441317.5 : ℚ) ≤ 2441500 ∧
      CumulativeLeapSeconds 2441500 =
        some (9 + ((g_LeapSecondCoefficients.filter
          (fun x => decide (2441317.5 ≤ x.JD ∧ x.JD ≤ 2441500))).length : ℚ)) :=
  ⟨by norm_num, CumulativeLeapSeconds_step_function.1 2441500 (by norm_num)⟩

set_option maxRecDepth 100000 in
/-- Every row of the delta-T table but the last has its `DeltaT` from 43.4724, the value of
the first row, to below 72.07, the value of the last row. -/
theorem g_DeltaTValues_extremes :
    ∀ e ∈ g_DeltaTValues.take 1896, 43.4724 ≤ e.DeltaT ∧ e.DeltaT < 72.07 := by
  decide!

/-- A row of the delta-T table at an index below 1896 is among the first 1896 rows. -/
theorem g_DeltaTValues_mem_take (j : Nat) (e : DeltaTValue) (hj : j < 1896)
    (he : g_DeltaTValues[j]? = some e) : e ∈ g_DeltaTValues.take 1896 := by
  apply List.mem_iff_getElem?.mpr
  refine ⟨j, ?_⟩
  rw [List.getElem?_take_of_lt hj]
  exact he

/-- The first row of the delta-T table holds its least value and the last row its greatest
value. -/
theorem g_DeltaTValues_min_max (j : Nat) (e : DeltaTValue)
    (he : g_DeltaTValues[j]? = some e) :
    43.4724 ≤ e.DeltaT ∧ e.DeltaT ≤ 72.07 ∧ (j < 1896 → e.DeltaT < 72.07) := by
  obtain ⟨hjl, _⟩ := List.getElem?_eq_some.mp he
  rw [g_DeltaTValues_length] at hjl
  rcases Nat.lt_or_ge j 1896 with hlt | hge
  · obtain ⟨h1, h2⟩ := g_DeltaTValues_extremes e (g_DeltaTValues_mem_take j e hlt he)
    exact ⟨h1, h2.le, fun _ => h2⟩
  · have hj : j = 1896 := by omega
    rw [hj, g_DeltaTValues_last] at he
    rw [← Option.some.inj he]
    refine ⟨by norm_num, by norm_num, fun h => ?_⟩
    omega

/-- Inside the span of the delta-T table, `DeltaT` is at least the value of the first row and
below the value of the last row. -/
theorem DeltaT_in_table_bounds (FractionalYear : ℚ → ℚ) (JD : ℚ)
    (h1 : 2441714.5 ≤ JD) (h2 : JD < 2463232.5) :
    ∃ D : ℚ, DeltaT FractionalYear JD = some D ∧ 43.4724 ≤ D ∧ D < 72.07 := by
  obtain ⟨k, hi, lo, hk0, hhi, hlo, hJhi, hbelow, _, hres⟩ :=
    DeltaT_in_table FractionalYear JD h1 h2
  obtain ⟨hkl, _⟩ := List.getElem?_eq_some.mp hhi
  rw [g_DeltaTValues_length] at hkl
  have hloJ : lo.JD ≤ JD := hbelow (k - 1) lo (by omega) hlo
  obtain ⟨hlo1, _, hlo2⟩ := g_DeltaTValues_min_max (k - 1) lo hlo
  have hlo3 : lo.DeltaT < 72.07 := hlo2 (by omega)
  obtain ⟨hhi1, hhi2, _⟩ := g_DeltaTValues_min_max k hi hhi
  have hd : 0 < hi.JD - lo.JD := by linarith
  have ht0 : 0 ≤ (JD - lo.JD) / (hi.JD - lo.JD) := div_nonneg (by linarith) hd.le
  have ht1 : (JD - lo.JD) / (hi.JD - lo.JD) < 1 := by
    rw [div_lt_one hd]
    linarith
  refine ⟨_, hres, ?_, ?_⟩
  · have a := mul_nonneg ht0 (by linarith : 0 ≤ hi.DeltaT - 43.4724)
    have b := mul_nonneg (by linarith : 0 ≤ 1 - (JD - lo.JD) / (hi.JD - lo.JD))
      (by linarith : 0 ≤ lo.DeltaT - 43.4724)
    linarith
  · have a := mul_nonneg ht0 (by linarith : 0 ≤ 72.07 - hi.DeltaT)
    have b := mul_pos (by linarith : 0 < 1 - (JD - lo.JD) / (hi.JD - lo.JD))
      (by linarith : 0 < 72.07 - lo.DeltaT)
    linarith

/-- C36: for every `JD` inside the span of the delta-T table, `2441714.5 ≤ JD < 2463232.5`,
`43.4724 ≤ DeltaT JD < 72.07`; the value 43.4724 of the first row is the least value of the
table and the value 72.07 of the last row is its greatest value, reached by no other row. -/
theorem DeltaT_within_table_extremes (FractionalYear : ℚ → ℚ) :
    (∀ JD : ℚ, 2441714.5 ≤ JD → JD < 2463232.5 →
      ∃ D : ℚ, DeltaT FractionalYear JD = some D ∧ 43.4724 ≤ D ∧ D < 72.07) ∧
    g_DeltaTValues[0]? = some (DeltaTValue.mk 2441714.5 43.4724) ∧
    g_DeltaTValues[1896]? = some (DeltaTValue.mk 2463232.5 72.07) ∧
    g_DeltaTValues.length = 1897 ∧
    (∀ (j : Nat) (e : DeltaTValue), g_DeltaTValues[j]? = some e →
      43.4724 ≤ e.DeltaT ∧ e.DeltaT ≤ 72.07 ∧ (j < 1896 → e.DeltaT < 72.07)) :=
  ⟨DeltaT_in_table_bounds FractionalYear, g_DeltaTValues_first, g_DeltaTValues_last,
    g_DeltaTValues_length, g_DeltaTValues_min_max⟩

theorem DeltaT_within_table_extremes_witness :
    (2441714.5 : ℚ) ≤ 2451545 ∧ (2451545 : ℚ) < 2463232.5 ∧
      ∃ D : ℚ, DeltaT (fun _ => 2000) 2451545 = some D ∧ 43.4724 ≤ D ∧ D < 72.07 :=
  ⟨by norm_num, by norm_num,
    (DeltaT_within_table_extremes (fun _ => 2000)).1 2451545 (by norm_num) (by norm_num)⟩

/-- The test of `DeltaT.evaluatedRegime` with the rows of the table read. -/
theorem DeltaT_evaluatedRegime_unfold (FractionalYear : ℚ → ℚ) (JD : ℚ) :
    DeltaT.evaluatedRegime FractionalYear JD =
      if (JD ≥ 2441714.5) ∧ (JD < 2463232.5) then none
      else some (DeltaT.regime (FractionalYear JD)) := by
  have hp : size_t_pred 1897 = 1896 := by decide
  unfold DeltaT.evaluatedRegime
  simp only [g_DeltaTValues_length, hp, g_DeltaTValues_first, g_DeltaTValues_last]

/-- A call of `DeltaT` that evaluates the branch `k` returns the expression of that branch at
the fractional year of `JD`. -/
theorem DeltaT_of_evaluatedRegime (FractionalYear : ℚ → ℚ) (JD : ℚ) (k : Nat)
    (h : DeltaT.evaluatedRegime FractionalYear JD = some k) :
    (JD < 2441714.5 ∨ 2463232.5 ≤ JD) ∧ k = DeltaT.regime (FractionalYear JD) ∧
      DeltaT FractionalYear JD = some (DeltaT.regimePolynomial k (FractionalYear JD)) := by
  rw [DeltaT_evaluatedRegime_unfold] at h
  by_cases hin : (JD ≥ 2441714.5) ∧ (JD < 2463232.5)
  · rw [if_pos hin] at h
    exact absurd h (by simp)
  · rw [if_neg hin] at h
    have hk : k = DeltaT.regime (FractionalYear JD) := (Option.some.inj h).symm
    have hout : JD < 2441714.5 ∨ 2463232.5 ≤ JD := by
      by_contra hc
      push_neg at hc
      exact hin ⟨hc.1, hc.2⟩
    refine ⟨hout, hk, ?_⟩
    rw [DeltaT_eq_polynomial FractionalYear JD hout, DeltaT_polynomial_eq_regime, hk]

/-- The fractional years for which the branches 10, 11 and 12 are taken. -/
theorem DeltaT_regime_1961_2050 (y : ℚ) :
    (DeltaT.regime y = 10 → 1961 ≤ y ∧ y < 1986) ∧
    (DeltaT.regime y = 11 → 1986 ≤ y ∧ y < 2005) ∧
    (DeltaT.regime y = 12 → 2005 ≤ y ∧ y < 2050) := by
  obtain ⟨i0, i1, i2, i3, i4, i5, i6, i7, i8, i9, i10, i11, i12, i13, i14⟩ :=
    DeltaT_regime_intervals y
  by_cases h0 : y < -500
  · rw [i0 h0]
    and_intros <;> intro h <;> omega
  by_cases h1 : y < 500
  · rw [i1 (not_lt.mp h0) h1]
    and_intros <;> intro h <;> omega
  by_cases h2 : y < 1600
  · rw [i2 (not_lt.mp h1) h2]
    and_intros <;> intro h <;> omega
  by_cases h3 : y < 1700
  · rw [i3 (not_lt.mp h2) h3]
    and_intros <;> intro h <;> omega
  by_cases h4 : y < 1800
  · rw [i4 (not_lt.mp h3) h4]
    and_intros <;> intro h <;> omega
  by_cases h5 : y < 1860
  · rw [i5 (not_lt.mp h4) h5]
    and_intros <;> intro h <;> omega
  by_cases h6 : y < 1900
  · rw [i6 (not_lt.mp h5) h6]
    and_intros <;> intro h <;> omega
  by_cases h7 : y < 1920
  · rw [i7 (not_lt.mp h6) h7]
    and_intros <;> intro h <;> omega
  by_cases h8 : y < 1941
  · rw [i8 (not_lt.mp h7) h8]
    and_intros <;> intro h <;> omega
  by_cases h9 : y < 1961
  · rw [i9 (not_lt.mp h8) h9]
    and_intros <;> intro h <;> omega
  by_cases h10 : y < 1986
  · rw [i10 (not_lt.mp h9) h10]
    and_intros <;> intro h <;> first | omega | constructor <;> linarith
  by_cases h11 : y < 2005
  · rw [i11 (not_lt.mp h10) h11]
    and_intros <;> intro h <;> first | omega | constructor <;> linarith
  by_cases h12 : y < 2050
  · rw [i12 (not_lt.mp h11) h12]
    and_intros <;> intro h <;> first | omega | constructor <;> linarith
  by_cases h13 : y < 2150
  · rw [i13 (not_lt.mp h12) h13]
    and_intros <;> intro h <;> omega
  rw [i14 (not_lt.mp h13)]
  and_intros <;> intro h <;> omega

/-- With a calendar that does not decrease, is below 1986 at the start of the delta-T table
and at least 2005 at its end, the branches of 1961 to 2050 are reached as follows. -/
theorem DeltaT_regimes_around_table (FractionalYear : ℚ → ℚ)
    (hmono : ∀ a b : ℚ, a ≤ b → FractionalYear a ≤ FractionalYear b)
    (hstart : FractionalYear 2441714.5 < 1986) (hend : 2005 ≤ FractionalYear 2463232.5)
    (JD : ℚ) :
    (1986 ≤ FractionalYear JD → FractionalYear JD < 2005 →
      2441714.5 ≤ JD ∧ JD < 2463232.5 ∧
      DeltaT.evaluatedRegime FractionalYear JD = none ∧
      ∃ (hiIdx : Nat) (hi lo : DeltaTValue), 0 < hiIdx ∧
        g_DeltaTValues[hiIdx]? = some hi ∧ g_DeltaTValues[hiIdx - 1]? = some lo ∧
        lo.JD ≤ JD ∧ JD < hi.JD ∧
        DeltaT FractionalYear JD =
          some ((JD - lo.JD) / (hi.JD - lo.JD) * (hi.DeltaT - lo.DeltaT) + lo.DeltaT)) ∧
    DeltaT.evaluatedRegime FractionalYear JD ≠ some 11 ∧
    (DeltaT.evaluatedRegime FractionalYear JD = some 10 →
      JD < 2441714.5 ∧ FractionalYear JD ≤ FractionalYear 2441714.5) ∧
    (DeltaT.evaluatedRegime FractionalYear JD = some 12 →
      2463232.5 ≤ JD ∧ FractionalYear 2463232.5 ≤ FractionalYear JD) := by
  have hin : 1986 ≤ FractionalYear JD → FractionalYear JD < 2005 →
      2441714.5 ≤ JD ∧ JD < 2463232.5 := by
    intro hy1 hy2
    constructor
    · by_contra hc
      have := hmono JD 2441714.5 (le_of_lt (not_le.mp hc))
      linarith
    · by_contra hc
      have := hmono 2463232.5 JD (not_lt.mp hc)
      linarith
  refine ⟨?_, ?_, ?_, ?_⟩
  · intro hy1 hy2
    obtain ⟨hJ1, hJ2⟩ := hin hy1 hy2
    refine ⟨hJ1, hJ2, ?_, ?_⟩
    · rw [DeltaT_evaluatedRegime_unfold, if_pos ⟨hJ1, hJ2⟩]
    · obtain ⟨k, hi, lo, hk0, hhi, hlo, hJhi, hbelow, _, hres⟩ :=
        DeltaT_in_table FractionalYear JD hJ1 hJ2
      exact ⟨k, hi, lo, hk0, hhi, hlo, hbelow (k - 1) lo (by omega) hlo, hJhi, hres⟩
  · intro h
    obtain ⟨hout, hk, _⟩ := DeltaT_of_evaluatedRegime FractionalYear JD 11 h
    obtain ⟨hy1, hy2⟩ := (DeltaT_regime_1961_2050 _).2.1 hk.symm
    obtain ⟨hJ1, hJ2⟩ := hin hy1 hy2
    rcases hout with ho | ho
    · linarith
    · linarith
  · intro h
    obtain ⟨hout, hk, _⟩ := DeltaT_of_evaluatedRegime FractionalYear JD 10 h
    obtain ⟨hy1, hy2⟩ := (DeltaT_regime_1961_2050 _).1 hk.symm
    rcases hout with ho | ho
    · exact ⟨ho, hmono _ _ ho.le⟩
    · have := hmono 2463232.5 JD ho
      exfalso
      linarith
  · intro h
    obtain ⟨hout, hk, _⟩ := DeltaT_of_evaluatedRegime FractionalYear JD 12 h
    obtain ⟨hy1, hy2⟩ := (DeltaT_regime_1961_2050 _).2.2 hk.symm
    rcases hout with ho | ho
    · have := hmono JD 2441714.5 ho.le
      exfalso
      linarith
    · exact ⟨ho, hmono _ _ ho⟩

/-- C37, as the claim states it, fails: the calendar that gives the year 1986 before the end
of the delta-T table and 2005 from there on does not decrease, is `≤ 1986` at the start of the
table and `≥ 2005` at its end, and at `JD = 2441714`, half a day before the table, the year
is 1986, in `[1986, 2005)`: `JD` is outside the span of the table and `DeltaT` evaluates the
branch of `[1986, 2005)`. -/
theorem DeltaT_regime_1986_2005_counterexample :
    (∀ a b : ℚ, a ≤ b →
      (fun JD : ℚ => if JD < 2463232.5 then (1986 : ℚ) else 2005) a ≤
      (fun JD : ℚ => if JD < 2463232.5 then (1986 : ℚ) else 2005) b) ∧
    (fun JD : ℚ => if JD < 2463232.5 then (1986 : ℚ) else 2005) 2441714.5 ≤ 1986 ∧
    (fun JD : ℚ => if JD < 2463232.5 then (1986 : ℚ) else 2005) 2463232.5 ≥ 2005 ∧
    (1986 ≤ (fun JD : ℚ => if JD < 2463232.5 then (1986 : ℚ) else 2005) 2441714 ∧
      (fun JD : ℚ => if JD < 2463232.5 then (1986 : ℚ) else 2005) 2441714 < 2005) ∧
    ¬ ((2441714.5 : ℚ) ≤ 2441714) ∧
    DeltaT.evaluatedRegime (fun JD : ℚ => if JD < 2463232.5 then (1986 : ℚ) else 2005)
      2441714 = some 11 ∧
    DeltaT (fun JD : ℚ => if JD < 2463232.5 then (1986 : ℚ) else 2005) 2441714 =
      some (DeltaT.regimePolynomial 11 1986) ∧
    DeltaT.regimePolynomial 11 1986 = 63.86 + 33.45 * (-0.14) + (-603.74) * (-0.14) ^ 2 +
      1727.5 * (-0.14) ^ 3 + 65181.4 * (-0.14) ^ 4 + 237359.9 * (-0.14) ^ 5 := by
  have hout : ¬ (((2441714 : ℚ) ≥ 2441714.5) ∧ ((2441714 : ℚ) < 2463232.5)) := by norm_num
  have hy : (if (2441714 : ℚ) < 2463232.5 then (1986 : ℚ) else 2005) = 1986 := by
    norm_num
  have hr : DeltaT.regime 1986 = 11 :=
    (DeltaT_regime_intervals 1986).2.2.2.2.2.2.2.2.2.2.2.1 (le_refl _) (by norm_num)
  refine ⟨?_, by norm_num, by norm_num, by norm_num, by norm_num, ?_, ?_, ?_⟩
  · intro a b hab
    show (if a < 2463232.5 then (1986 : ℚ) else 2005) ≤
      (if b < 2463232.5 then (1986 : ℚ) else 2005)
    by_cases ha : a < 2463232.5
    · rw [if_pos ha]
      by_cases hb : b < 2463232.5
      · rw [if_pos hb]
      · rw [if_neg hb]
        norm_num
    · have hb : ¬ b < 2463232.5 := fun hb => ha (lt_of_le_of_lt hab hb)
      rw [if_neg ha, if_neg hb]
  · rw [DeltaT_evaluatedRegime_unfold, if_neg hout, hy, hr]
  · rw [DeltaT_eq_polynomial _ _ (Or.inl (by norm_num)), hy, DeltaT_polynomial_eq_regime, hr]
  · simp only [DeltaT.regimePolynomial]
    norm_num

/-- C37, amended: when the calendar does not decrease, is below 1986 at the start of the
delta-T table (`FractionalYear 2441714.5 < 1986`) and at least 2005 at its end
(`FractionalYear 2463232.5 ≥ 2005`), every `JD` whose fractional year is in `[1986, 2005)` is
inside the span of the table and is answered by the interpolation between two rows, so that
no call of `DeltaT` evaluates the branch of `[1986, 2005)`; the branch of `[1961, 1986)` is
evaluated only for `JD` before the start of the table and the branch of `[2005, 2050)` only
for `JD` from the end of the table on. -/
theorem DeltaT_regime_1986_2005_unreachable (FractionalYear : ℚ → ℚ)
    (hmono : ∀ a b : ℚ, a ≤ b → FractionalYear a ≤ FractionalYear b)
    (hstart : FractionalYear 2441714.5 < 1986) (hend : 2005 ≤ FractionalYear 2463232.5)
    (JD : ℚ) :
    (1986 ≤ FractionalYear JD → FractionalYear JD < 2005 →
      2441714.5 ≤ JD ∧ JD < 2463232.5 ∧
      DeltaT.evaluatedRegime FractionalYear JD = none ∧
      ∃ (hiIdx : Nat) (hi lo : DeltaTValue), 0 < hiIdx ∧
        g_DeltaTValues[hiIdx]? = some hi ∧ g_DeltaTValues[hiIdx - 1]? = some lo ∧
        lo.JD ≤ JD ∧ JD < hi.JD ∧
        DeltaT FractionalYear JD =
          some ((JD - lo.JD) / (hi.JD - lo.JD) * (hi.DeltaT - lo.DeltaT) + lo.DeltaT)) ∧
    DeltaT.evaluatedRegime FractionalYear JD ≠ some 11 ∧
    (DeltaT.evaluatedRegime FractionalYear JD = some 10 →
      JD < 2441714.5 ∧ FractionalYear JD ≤ FractionalYear 2441714.5) ∧
    (DeltaT.evaluatedRegime FractionalYear JD = some 12 →
      2463232.5 ≤ JD ∧ FractionalYear 2463232.5 ≤ FractionalYear JD) :=
  DeltaT_regimes_around_table FractionalYear hmono hstart hend JD

theorem DeltaT_regime_1986_2005_unreachable_witness :
    (∀ a b : ℚ, a ≤ b →
      (fun JD : ℚ => 2000 + (JD - 2451545) / 365.25) a ≤
      (fun JD : ℚ => 2000 + (JD - 2451545) / 365.25) b) ∧
    (fun JD : ℚ => 2000 + (JD - 2451545) / 365.25) 2441714.5 < 1986 ∧
    2005 ≤ (fun JD : ℚ => 2000 + (JD - 2451545) / 365.25) 2463232.5 ∧
    DeltaT.evaluatedRegime (fun JD : ℚ => 2000 + (JD - 2451545) / 365.25) 2451545 ≠
      some 11 :=
  have hmono : ∀ a b : ℚ, a ≤ b →
      (fun JD : ℚ => 2000 + (JD - 2451545) / 365.25) a ≤
      (fun JD : ℚ => 2000 + (JD - 2451545) / 365.25) b := by
    intro a b hab
    show 2000 + (a - 2451545) / 365.25 ≤ 2000 + (b - 2451545) / 365.25
    have := div_le_div_of_nonneg_right (sub_le_sub_right hab 2451545)
      (by norm_num : (0 : ℚ) ≤ 365.25)
    linarith
  ⟨hmono, by norm_num, by norm_num,
    (DeltaT_regime_1986_2005_unreachable _ hmono (by norm_num) (by norm_num) 2451545).2.1⟩

/-- The order of `Double` is the order of the values. -/
theorem Double_le_iff (a b : Double) : a ≤ b ↔ a.val ≤ b.val := Iff.rfl

set_option maxRecDepth 100000 in
/-- The `JD` of each of the first 529 rows of the delta-T table is a binary64 number. -/
theorem g_DeltaTValues_JD_exact :
    ∀ e ∈ g_DeltaTValues.take 529, Double.round e.JD = e.JD := by
  decide!

set_option maxRecDepth 100000 in
theorem g_DeltaTValues_row_528 :
    g_DeltaTValues[528]? = some (DeltaTValue.mk 2457785.5 68.6298) := by
  decide!

/-- The loop of `DeltaT` in `double` arithmetic stops at the first row after `JD`. -/
theorem Rounded_DeltaT_scan_found (tbl : List DeltaTValue) (JD : Double) (k : Nat)
    (hi lo : DeltaTValue) (hk0 : 0 < k) (hkb : k < 18446744073709551616)
    (hhi : tbl[k]? = some hi) (hlo : tbl[k - 1]? = some lo) (hgt : JD < Double.ofRat hi.JD)
    (hbelow : ∀ j e, j < k → tbl[j]? = some e → Double.ofRat e.JD ≤ JD) :
    ∀ fuel i, i ≤ k → k - i < fuel →
      Rounded.DeltaT.scan tbl JD fuel i =
        some ((JD - Double.ofRat lo.JD) / (Double.ofRat hi.JD - Double.ofRat lo.JD) *
          (Double.ofRat hi.DeltaT - Double.ofRat lo.DeltaT) + Double.ofRat lo.DeltaT) := by
  intro fuel
  induction fuel with
  | zero => intro i _ h; omega
  | succ fuel ih =>
    intro i hik hf
    rcases Nat.lt_or_ge i k with hlt | hge
    · obtain ⟨hklen, _⟩ := List.getElem?_eq_some.mp hhi
      have hilen : i < tbl.length := by omega
      have hie : tbl[i]? = some tbl[i] := List.getElem?_eq_getElem hilen
      have hle : Double.ofRat tbl[i].JD ≤ JD := hbelow i tbl[i] hlt hie
      have hng : ¬ (Double.ofRat tbl[i].JD > JD) := not_lt.mpr ((Double_le_iff _ _).mp hle)
      rw [Rounded.DeltaT.scan, hie]
      simp only [hng, if_false]
      exact ih (i + 1) (by omega) (by omega)
    · have hik2 : i = k := by omega
      subst hik2
      have hp : size_t_pred i = i - 1 := size_t_pred_of_pos i hk0 hkb
      have hg : Double.ofRat hi.JD > JD := hgt
      rw [Rounded.DeltaT.scan, hhi]
      simp only [hg, if_true, hp, hlo]

/-- Between two adjacent rows among the first 529 of the delta-T table, `DeltaT` in `double`
arithmetic is the rounded interpolation between the two rows. -/
theorem Rounded_DeltaT_between_rows (FractionalYear : Double → Double) (i : Nat)
    (lo hi : DeltaTValue) (JD : Double) (hi529 : i + 1 < 529)
    (hlo : g_DeltaTValues[i]? = some lo) (hhi : g_DeltaTValues[i + 1]? = some hi)
    (h1 : lo.JD ≤ JD.val) (h2 : JD.val < hi.JD) :
    Rounded.DeltaT FractionalYear JD =
      some ((JD - Double.ofRat lo.JD) / (Double.ofRat hi.JD - Double.ofRat lo.JD) *
        (Double.ofRat hi.DeltaT - Double.ofRat lo.DeltaT) + Double.ofRat lo.DeltaT) := by
  have hexact : ∀ (j : Nat) (e : DeltaTValue), j < 529 → g_DeltaTValues[j]? = some e →
      Double.ofRat e.JD = Double.mk e.JD := by
    intro j e hj he
    have hmem : e ∈ g_DeltaTValues.take 529 := by
      apply List.mem_iff_getElem?.mpr
      exact ⟨j, by rw [List.getElem?_take_of_lt hj]; exact he⟩
    unfold Double.ofRat
    rw [g_DeltaTValues_JD_exact e hmem]
  have hfirst : Double.ofRat (2441714.5 : ℚ) = Double.mk 2441714.5 :=
    hexact 0 (DeltaTValue.mk 2441714.5 43.4724) (by omega) g_DeltaTValues_first
  have hlast : Double.ofRat (2463232.5 : ℚ) = Double.mk 2463232.5 := by
    unfold Double.ofRat
    apply congrArg Double.mk
    decide!
  have hloJ : (2441714.5 : ℚ) ≤ lo.JD := by
    rcases Nat.eq_zero_or_pos i with h0 | hpos
    · rw [h0, g_DeltaTValues_first] at hlo
      rw [← Option.some.inj hlo]
    · exact le_of_lt (g_DeltaTValues_lt 0 i _ lo hpos g_DeltaTValues_first hlo)
  have hhiJ : hi.JD < 2463232.5 :=
    g_DeltaTValues_lt (i + 1) 1896 hi _ (by omega) hhi g_DeltaTValues_last
  have hp : size_t_pred 1897 = 1896 := by decide
  have hspan : (JD ≥ Double.ofRat (2441714.5 : ℚ)) ∧ (JD < Double.ofRat (2463232.5 : ℚ)) := by
    rw [hfirst, hlast]
    constructor
    · show (2441714.5 : ℚ) ≤ JD.val
      linarith
    · show JD.val < (2463232.5 : ℚ)
      linarith
  unfold Rounded.DeltaT
  simp only [g_DeltaTValues_length, hp, g_DeltaTValues_first, g_DeltaTValues_last]
  rw [if_pos hspan]
  refine Rounded_DeltaT_scan_found g_DeltaTValues JD (i + 1) hi lo (Nat.succ_pos i)
    (by omega) hhi (by simpa using hlo) ?_ ?_ 1898 0 (Nat.zero_le _) (by omega)
  · rw [hexact (i + 1) hi hi529 hhi]
    exact h2
  · intro j e hj he
    rw [hexact j e (by omega) he]
    show e.JD ≤ JD.val
    rcases Nat.eq_or_lt_of_le (Nat.lt_succ_iff.mp hj) with heq | hlt
    · rw [heq, hlo] at he
      rw [← Option.some.inj he]
      exact h1
    · exact le_trans (le_of_lt (g_DeltaTValues_lt j i e lo hlt he hlo)) h1

/-- In `double` arithmetic `CumulativeLeapSeconds` is 37 at the two dates of the example. -/
theorem Rounded_CumulativeLeapSeconds_values :
    Rounded.CumulativeLeapSeconds (Double.mk (2638996269380403 / 1073741824)) =
      some (Double.mk 37) ∧
    Rounded.CumulativeLeapSeconds (Double.mk (1319498134260307 / 536870912)) =
      some (Double.mk 37) := by
  decide!

theorem Rounded_outOfRange_values :
    Rounded.outOfRange (Double.mk (2638996269380403 / 1073741824)) = some false ∧
    Rounded.outOfRange (Double.mk (1319498134260307 / 536870912)) = some false := by
  decide!

/-- When its test fails, `TT2UTC` in `double` arithmetic runs the statements after the
test. -/
theorem Rounded_TT2UTC_in_range (FractionalYear : Double → Double) (JD DT L : Double)
    (ho : Rounded.outOfRange JD = some false)
    (hDT : Rounded.DeltaT FractionalYear JD = some DT)
    (hL : Rounded.CumulativeLeapSeconds JD = some L) :
    Rounded.TT2UTC FractionalYear JD =
      some (((DT - L - 32.184) / 86400.0) + (JD - (DT / 86400.0))) := by
  unfold Rounded.TT2UTC
  simp only [ho, hDT, hL]

/-- When its test fails, `UTC2TT` in `double` arithmetic runs the statements after the
test. -/
theorem Rounded_UTC2TT_in_range (FractionalYear : Double → Double) (JD DT L : Double)
    (ho : Rounded.outOfRange JD = some false)
    (hDT : Rounded.DeltaT FractionalYear JD = some DT)
    (hL : Rounded.CumulativeLeapSeconds JD = some L) :
    Rounded.UTC2TT FractionalYear JD =
      some ((JD - ((DT - L - 32.184) / 86400.0)) + (DT / 86400.0)) := by
  unfold Rounded.UTC2TT
  simp only [ho, hDT, hL]

/-- In `double` arithmetic, `TT2UTC` at the binary64 number nearest to 2457756.8. -/
theorem Rounded_TT2UTC_example (FractionalYear : Double → Double) :
    Rounded.TT2UTC FractionalYear (Double.mk (2638996269380403 / 1073741824)) =
      some (Double.mk (1319498134260307 / 536870912)) := by
  have hD := Rounded_DeltaT_between_rows FractionalYear 527
    (DeltaTValue.mk 2457754.5 68.5928) (DeltaTValue.mk 2457785.5 68.6298)
    (Double.mk (2638996269380403 / 1073741824)) (by omega)
    g_DeltaTValues_row_527 g_DeltaTValues_row_528 (by norm_num) (by norm_num)
  rw [Rounded_TT2UTC_in_range FractionalYear _ _ _ Rounded_outOfRange_values.1 hD
    Rounded_CumulativeLeapSeconds_values.1]
  decide!

/-- In `double` arithmetic, `UTC2TT` at the result of `Rounded_TT2UTC_example`. -/
theorem Rounded_UTC2TT_example (FractionalYear : Double → Double) :
    Rounded.UTC2TT FractionalYear (Double.mk (1319498134260307 / 536870912)) =
      some (Double.mk (5277992538760805 / 2147483648)) := by
  have hD := Rounded_DeltaT_between_rows FractionalYear 527
    (DeltaTValue.mk 2457754.5 68.5928) (DeltaTValue.mk 2457785.5 68.6298)
    (Double.mk (1319498134260307 / 536870912)) (by omega)
    g_DeltaTValues_row_527 g_DeltaTValues_row_528 (by norm_num) (by norm_num)
  rw [Rounded_UTC2TT_in_range FractionalYear _ _ _ Rounded_outOfRange_values.2 hD
    Rounded_CumulativeLeapSeconds_values.2]
  decide!

/-- C33, counterexample: in the `double` arithmetic of the code the round trip is not exact.
`JD` is the binary64 number nearest to 2457756.8, inside
`2457754.5 + 69.184/86400 ≤ JD ≤ 2458254.5`; `T = TT2UTC JD` is in the leap-second window,
`CumulativeLeapSeconds` is 37 at `T` and at `JD`, and `UTC2TT (TT2UTC JD)` is `2^-31` day,
one unit in the last place, below `JD`. -/
theorem UTC2TT_TT2UTC_rounding_counterexample :
    (2457756.8 : Double) = Double.mk (2638996269380403 / 1073741824) ∧
    ((2457754.5 + 69.184 / 86400 : ℚ) ≤ 2638996269380403 / 1073741824 ∧
      (2638996269380403 / 1073741824 : ℚ) ≤ 2458254.5) ∧
    Rounded.TT2UTC (fun _ => 2017) 2457756.8 =
      some (Double.mk (1319498134260307 / 536870912)) ∧
    ((2437300.5 : ℚ) ≤ 1319498134260307 / 536870912 ∧
      (1319498134260307 / 536870912 : ℚ) ≤ 2458254.5) ∧
    Rounded.CumulativeLeapSeconds (Double.mk (1319498134260307 / 536870912)) =
      Rounded.CumulativeLeapSeconds 2457756.8 ∧
    (Rounded.TT2UTC (fun _ => 2017) 2457756.8).bind (Rounded.UTC2TT (fun _ => 2017)) =
      some (Double.mk (2638996269380403 / 1073741824 - 1 / 2 ^ 31)) ∧
    (Rounded.TT2UTC (fun _ => 2017) 2457756.8).bind (Rounded.UTC2TT (fun _ => 2017)) ≠
      some 2457756.8 := by
  have hJ : (2457756.8 : Double) = Double.mk (2638996269380403 / 1073741824) := by decide!
  have hT := Rounded_TT2UTC_example (fun _ => 2017)
  have hR := Rounded_UTC2TT_example (fun _ => 2017)
  have hv : (5277992538760805 / 2147483648 : ℚ) =
      2638996269380403 / 1073741824 - 1 / 2 ^ 31 := by norm_num
  rw [hJ, hT, Option.some_bind, hR, hv]
  refine ⟨rfl, ⟨by norm_num, by norm_num⟩, rfl, ⟨by norm_num, by norm_num⟩, ?_, rfl, ?_⟩
  · rw [Rounded_CumulativeLeapSeconds_values.1, Rounded_CumulativeLeapSeconds_values.2]
  · intro h
    have h2 := congrArg Double.val (Option.some.inj h)
    have h3 : (2638996269380403 / 1073741824 - 1 / 2 ^ 31 : ℚ) =
        2638996269380403 / 1073741824 := h2
    norm_num at h3

/-- Every row of the leap-second table has its `Coefficient` from 0 to 0.002592. -/
theorem g_LeapSecondCoefficients_coefficient_range :
    ∀ e ∈ g_LeapSecondCoefficients, 0 ≤ e.Coefficient ∧ e.Coefficient ≤ 0.002592 := by
  decide!

/-- When no row of the leap-second table lies after `a` and not after `JD`,
`CumulativeLeapSeconds` is computed from the same row at `a` and at `JD`. -/
theorem CumulativeLeapSeconds_same_row (a JD La LJ : ℚ) (h0 : 2437300.5 ≤ a) (haJ : a ≤ JD)
    (hno : ∀ x ∈ g_LeapSecondCoefficients, x.JD ≤ a ∨ JD < x.JD)
    (hLa : CumulativeLeapSeconds a = some La) (hLJ : CumulativeLeapSeconds JD = some LJ) :
    ∃ e ∈ g_LeapSecondCoefficients, LJ - La = (JD - a) * e.Coefficient := by
  obtain ⟨i, e, he, hbelow, habove, hres⟩ :=
    CumulativeLeapSeconds_in_table JD (le_trans h0 haJ)
  obtain ⟨i2, e2, he2, hbelow2, habove2, hres2⟩ := CumulativeLeapSeconds_in_table a h0
  have hii : i = i2 := by
    rcases Nat.lt_trichotomy i i2 with hlt | heq | hgt
    · exfalso
      have h1 := habove i2 e2 hlt he2
      have h2 := hbelow2 i2 e2 (le_refl _) he2
      linarith
    · exact heq
    · exfalso
      have h1 := habove2 i e hgt he
      have h2 := hbelow i e (le_refl _) he
      rcases hno e (List.mem_iff_getElem?.mpr ⟨i, he⟩) with h3 | h3
      · linarith
      · linarith
  subst hii
  rw [he] at he2
  have hee : e = e2 := Option.some.inj he2
  subst hee
  rw [hLa] at hres2
  rw [hLJ] at hres
  refine ⟨e, List.mem_iff_getElem?.mpr ⟨i, he⟩, ?_⟩
  rw [Option.some.inj hres, Option.some.inj hres2]
  ring

/-- The round trip `UTC2TT (TT2UTC JD)` when `JD` and its image are in the leap-second
window. -/
theorem UTC2TT_TT2UTC_eq (FractionalYear : ℚ → ℚ) (JD T L LT : ℚ)
    (h1 : 2437300.5 ≤ JD) (h2 : JD ≤ 2458254.5)
    (hT : TT2UTC FractionalYear JD = some T) (hT1 : 2437300.5 ≤ T) (hT2 : T ≤ 2458254.5)
    (hL : CumulativeLeapSeconds JD = some L) (hLT : CumulativeLeapSeconds T = some LT) :
    (TT2UTC FractionalYear JD).bind (UTC2TT FractionalYear) = some (JD + (LT - L) / 86400) ∧
    (|(JD + (LT - L) / 86400) - JD| ≤ 1e-9 ↔ |LT - L| ≤ 0.0000864) ∧
    ((∀ x ∈ g_LeapSecondCoefficients, x.JD ≤ T ∨ JD < x.JD) → |LT - L| ≤ 0.0000864) := by
  have hTv : T = JD - (L + 32.184) / 86400 := by
    rw [TT2UTC_eq_sub FractionalYear JD L h1 h2 hL] at hT
    exact (Option.some.inj hT).symm
  refine ⟨?_, ?_, ?_⟩
  · rw [hT, Option.some_bind, UTC2TT_eq_add FractionalYear T LT hT1 hT2 hLT, hTv]
    apply congrArg some
    ring
  · have hd : (JD + (LT - L) / 86400) - JD = (LT - L) / 86400 := by ring
    have h86 : |(86400 : ℚ)| = 86400 := abs_of_pos (by norm_num)
    have he : (0.0000864 : ℚ) = 1e-9 * 86400 := by norm_num
    rw [hd, abs_div, h86, div_le_iff₀ (by norm_num), he]
  · intro hno
    obtain ⟨L2, hL2, hL0, hL37, _⟩ := CumulativeLeapSeconds_range JD
    rw [hL] at hL2
    have hLL : L = L2 := Option.some.inj hL2
    subst hLL
    have hTJ : T ≤ JD := by
      rw [hTv]
      have : 0 ≤ (L + 32.184) / 86400 := div_nonneg (by linarith) (by norm_num)
      linarith
    obtain ⟨e, hmem, hdiff⟩ := CumulativeLeapSeconds_same_row T JD LT L hT1 hTJ hno hLT hL
    obtain ⟨hc0, hc1⟩ := g_LeapSecondCoefficients_coefficient_range e hmem
    have hgap : JD - T = (L + 32.184) / 86400 := by
      rw [hTv]
      ring
    have hgap0 : 0 ≤ JD - T := by linarith
    have hgap1 : JD - T ≤ 69.184 / 86400 := by
      rw [hgap]
      exact div_le_div_of_nonneg_right (by linarith) (by norm_num)
    have hp0 : 0 ≤ (JD - T) * e.Coefficient := mul_nonneg hgap0 hc0
    have hp1 : (JD - T) * e.Coefficient ≤ 69.184 / 86400 * 0.002592 :=
      mul_le_mul hgap1 hc1 hc0 (by norm_num)
    rw [abs_le]
    constructor
    · have : (69.184 / 86400 * 0.002592 : ℚ) ≤ 0.0000864 := by norm_num
      linarith
    · linarith

/-- C12, amended: for every `JD` in the window `[2437300.5, 2458254.5]` whose image
`T = TT2UTC JD` is also in the window, `UTC2TT (TT2UTC JD)` is
`JD + (CumulativeLeapSeconds T - CumulativeLeapSeconds JD)/86400`; it is within `1e-9` days of
`JD` exactly when the two leap-second values differ by at most `0.0000864` seconds, which is
the case when no row of the leap-second table lies after `T` and not after `JD`. -/
theorem UTC2TT_TT2UTC_within_tolerance (FractionalYear : ℚ → ℚ) (JD T L LT : ℚ)
    (h1 : 2437300.5 ≤ JD) (h2 : JD ≤ 2458254.5)
    (hT : TT2UTC FractionalYear JD = some T) (hT1 : 2437300.5 ≤ T) (hT2 : T ≤ 2458254.5)
    (hL : CumulativeLeapSeconds JD = some L) (hLT : CumulativeLeapSeconds T = some LT) :
    (TT2UTC FractionalYear JD).bind (UTC2TT FractionalYear) = some (JD + (LT - L) / 86400) ∧
    (|(JD + (LT - L) / 86400) - JD| ≤ 1e-9 ↔ |LT - L| ≤ 0.0000864) ∧
    ((∀ x ∈ g_LeapSecondCoefficients, x.JD ≤ T ∨ JD < x.JD) → |LT - L| ≤ 0.0000864) :=
  UTC2TT_TT2UTC_eq FractionalYear JD T L LT h1 h2 hT hT1 hT2 hL hLT

/-- C12, amended, at `JD = 2457754.5` (1 January 2017): `TT2UTC` reads 37 leap seconds at
`JD`, `UTC2TT` reads 36 at the image of `JD`, and the round trip is `JD + (36 - 37)/86400`. -/
theorem UTC2TT_TT2UTC_within_tolerance_witness :
    (TT2UTC (fun _ => 2017) 2457754.5).bind (UTC2TT (fun _ => 2017)) =
      some (2457754.5 + (36 - 37) / 86400) ∧
    (|((2457754.5 : ℚ) + (36 - 37) / 86400) - 2457754.5| ≤ 1e-9 ↔
      |(36 : ℚ) - 37| ≤ 0.0000864) ∧
    ((∀ x ∈ g_LeapSecondCoefficients,
        x.JD ≤ 2457754.5 - 69.184 / 86400 ∨ (2457754.5 : ℚ) < x.JD) →
      |(36 : ℚ) - 37| ≤ 0.0000864) :=
  UTC2TT_TT2UTC_within_tolerance (fun _ => 2017) 2457754.5 (2457754.5 - 69.184 / 86400)
    37 36 (by norm_num) (by norm_num) (TT2UTC_2017 (fun _ => 2017))
    (by norm_num) (by norm_num)
    (CumulativeLeapSeconds_after_last 2457754.5 (le_refl _))
    CumulativeLeapSeconds_before_2017

end CAADynamicalTime
